import Mathlib

/-! Keyword classifiers of the V tokenizer.

A shallow embedding of the two generated keyword classifiers

* `src/gperf_words.c`: `gperf_hash` and `in_word_set` (gperf 3.1 perfect hash),
* `src/words.c`: `vfast_perfect_hash` and its per-length matchers (triehash),

followed by theorems about them.

Conventions of the embedding:

* A byte is a `Fin 256`, the value of the `char` read as `unsigned char`.
  Every `case` label of `words.c` is an ASCII character (below 128), so the
  comparison of a (possibly signed) `char` with a label is the comparison of
  the unsigned values.
* The input `const char *str` is the list of the readable bytes starting at
  the pointer.  A read at an index outside that list has no result (`none`),
  and the function that performs it has no result either.  Table indexing is
  modelled the same way, so that a result `some _` shows that every access was
  in bounds.
* `size_t` values are natural numbers, `unsigned int` arithmetic is taken
  modulo `2 ^ 32`, `uint64_t` arithmetic modulo `2 ^ 64`.
* A returned pointer `struct GPerfResult *` is `none` for the null pointer and
  `some e` for a pointer to the entry `e` of `wordlist`.
-/

namespace VKeywords

/-! ## Bytes and C strings -/

/-- One `char` of storage, as an unsigned value. -/
abbrev Byte := Fin 256

/-- The bytes of an ASCII string literal, without the terminating NUL. -/
def cstr (s : String) : List Byte := s.data.map (fun c => Fin.ofNat c.toNat)

/-- The storage of a C string literal: its bytes followed by the NUL. -/
def c_storage (name : List Byte) : List Byte := name ++ [0]

/-- The libc `memcmp (a, b, n)`: both objects must hold `n` bytes; the sign of
the result is the order of the first differing byte, `0` when there is none. -/
def memcmp : List Byte → List Byte → Nat → Option Int
  | _, _, 0 => some 0
  | a :: as, b :: bs, n + 1 =>
    match memcmp as bs n with
    | none => none
    | some r => some (if a < b then -1 else if b < a then 1 else r)
  | _, _, _ + 1 => none

/-! ## `gperf_words.c` -/

/-- The `struct GPerfResult`: `name` holds the bytes of the string literal,
`code` is `0` where the initializer leaves it out. -/
structure GPerfResult where
  name : List Byte
  code : Int
deriving DecidableEq, Repr

def TOTAL_KEYWORDS : Nat := 47
def MIN_WORD_LENGTH : Nat := 2
def MAX_WORD_LENGTH : Nat := 10
def MIN_HASH_VALUE : Nat := 7
def MAX_HASH_VALUE : Nat := 85

/-- The table `asso_values` of `gperf_hash` (256 entries). -/
def asso_values : List Nat :=
  [ 86, 86, 86, 86, 86, 86, 86, 86, 86, 86,
    86, 86, 86, 86, 86, 86, 86, 86, 86, 86,
    86, 86, 86, 86, 86, 86, 86, 86, 86, 86,
    86, 86, 86, 86, 86, 86, 86, 86, 86, 86,
    86, 86, 86, 86, 86, 86, 86, 86, 86, 86,
    86, 86, 86, 86, 86, 86, 86, 86, 86, 86,
    86, 86, 86, 86, 86, 86, 86, 86, 86, 86,
    86, 86, 86, 86, 86, 86, 86, 86, 86, 86,
    86, 86, 86, 86, 86, 86, 86, 86, 86, 86,
    86, 86, 86, 86, 86,  5, 86, 10, 50, 35,
     5, 25, 25, 35, 40,  5, 86, 86,  5, 25,
     0, 15, 10, 86,  5,  5,  0,  0,  5, 86,
    86, 50, 40, 86, 86, 86, 86, 86, 86, 86,
    86, 86, 86, 86, 86, 86, 86, 86, 86, 86,
    86, 86, 86, 86, 86, 86, 86, 86, 86, 86,
    86, 86, 86, 86, 86, 86, 86, 86, 86, 86,
    86, 86, 86, 86, 86, 86, 86, 86, 86, 86,
    86, 86, 86, 86, 86, 86, 86, 86, 86, 86,
    86, 86, 86, 86, 86, 86, 86, 86, 86, 86,
    86, 86, 86, 86, 86, 86, 86, 86, 86, 86,
    86, 86, 86, 86, 86, 86, 86, 86, 86, 86,
    86, 86, 86, 86, 86, 86, 86, 86, 86, 86,
    86, 86, 86, 86, 86, 86, 86, 86, 86, 86,
    86, 86, 86, 86, 86, 86, 86, 86, 86, 86,
    86, 86, 86, 86, 86, 86, 86, 86, 86, 86,
    86, 86, 86, 86, 86, 86 ]

/-- The table `lengthtable` of `in_word_set` (86 entries). -/
def lengthtable : List Nat :=
  [  0,  0,  0,  0,  0,  0,  0,  2,  0,  4,  5,  6,  2,  3,
     9, 10,  6,  2,  0,  4,  0,  6,  2,  8,  9,  0,  6,  2,
     3,  4,  5,  6,  2,  8,  4, 10,  6,  0,  0,  4,  5,  6,
     0,  3,  0,  5,  6,  0,  3,  0,  0,  6,  2,  8,  4,  5,
     6,  0,  8,  4,  5,  6,  0,  3,  4,  0,  6,  0,  0,  0,
     0,  0,  0,  0,  0,  0,  0,  0,  0,  0,  0,  0,  0,  0,
     0,  5 ]

/-- One initializer `{name, code}` of `wordlist`; the code is `0` in `{""}`. -/
def slot (name : String) (code : Int := 0) : GPerfResult := ⟨cstr name, code⟩

/-- The table `wordlist` of `in_word_set` (86 entries). -/
def wordlist : List GPerfResult :=
  [ slot "", slot "", slot "", slot "",
    slot "", slot "", slot "",
    slot "in" 85,
    slot "",
    slot "true" 104,
    slot "union" 109,
    slot "unsafe" 113,
    slot "is" 87,
    slot "nil" 91,
    slot "interface" 86,
    slot "_unlikely_" 101,
    slot "struct" 103,
    slot "as" 67,
    slot "",
    slot "none" 95,
    slot "",
    slot "static" 111,
    slot "or" 108,
    slot "_likely_" 100,
    slot "isreftype" 99,
    slot "",
    slot "assert" 69,
    slot "fn" 79,
    slot "mut" 90,
    slot "enum" 76,
    slot "rlock" 94,
    slot "atomic" 70,
    slot "if" 83,
    slot "volatile" 112,
    slot "dump" 107,
    slot "__offsetof" 102,
    slot "return" 96,
    slot "", slot "",
    slot "else" 75,
    slot "match" 88,
    slot "select" 97,
    slot "",
    slot "asm" 68,
    slot "",
    slot "false" 77,
    slot "import" 84,
    slot "",
    slot "for" 78,
    slot "", slot "",
    slot "module" 89,
    slot "go" 81,
    slot "__global" 80,
    slot "goto" 82,
    slot "const" 72,
    slot "sizeof" 98,
    slot "",
    slot "continue" 73,
    slot "lock" 93,
    slot "defer" 74,
    slot "shared" 92,
    slot "",
    slot "pub" 110,
    slot "type" 105,
    slot "",
    slot "typeof" 106,
    slot "", slot "", slot "", slot "",
    slot "", slot "", slot "", slot "",
    slot "",
    slot "", slot "", slot "", slot "",
    slot "", slot "", slot "", slot "",
    slot "",
    slot "break" 71 ]

/-- The expression `asso[(unsigned char)str[i]]`: one input byte is read and
the table is indexed with its value. -/
def asso_at (asso : List Nat) (str : List Byte) (i : Nat) : Option Nat :=
  match str[i]? with
  | none => none
  | some c => asso[c.val]?

/-- The body of `gperf_hash` over a given `asso_values` table.  The `switch`
on the initial `hval` enters at `default` (any value but `2` and `1`), at
`case 2` or at `case 1` and falls through to the end. -/
def gperf_hash_on (asso : List Nat) (str : List Byte) (len : Nat) : Option Nat :=
  let hval := len % 2 ^ 32
  let sw := hval
  -- default:
  (if sw ≠ 2 ∧ sw ≠ 1 then (asso_at asso str 2).map (fun a => (hval + a) % 2 ^ 32)
   else some hval).bind fun hval =>
  -- case 2:
  (if sw ≠ 1 then (asso_at asso str 1).map (fun a => (hval + a) % 2 ^ 32)
   else some hval).bind fun hval =>
  -- case 1:
  (asso_at asso str 0).map (fun a => (hval + a) % 2 ^ 32)

/-- The function `gperf_hash` of the source. -/
def gperf_hash (str : List Byte) (len : Nat) : Option Nat :=
  gperf_hash_on asso_values str len

/-- The body of `in_word_set` over given tables.  The outer `Option` is the
absence of a result after an out-of-bounds access, the inner one is the
returned pointer (`none` for `return 0`). -/
def in_word_set_on (asso lengths : List Nat) (words : List GPerfResult)
    (str : List Byte) (len : Nat) : Option (Option GPerfResult) :=
  if len ≤ MAX_WORD_LENGTH ∧ len ≥ MIN_WORD_LENGTH then
    match gperf_hash_on asso str len with
    | none => none
    | some key =>
      if key ≤ MAX_HASH_VALUE then
        match lengths[key]? with
        | none => none
        | some l =>
          if len = l then
            match words[key]? with
            | none => none
            | some e =>
              let s := c_storage e.name
              match str[0]?, s[0]? with
              | some c, some d =>
                if c = d then
                  match memcmp (str.drop 1) (s.drop 1) (len - 1) with
                  | none => none
                  | some r => if r = 0 then some (some e) else some none
                else some none
              | _, _ => none
          else some none
      else some none
  else some none

/-- The function `in_word_set` of the source. -/
def in_word_set (str : List Byte) (len : Nat) : Option (Option GPerfResult) :=
  in_word_set_on asso_values lengthtable wordlist str len

/-! ## `words.c` -/

/-! The enumerators of `enum PerfectKey`. -/

def vfast______global : Int := 80
def vfast______offsetof : Int := 102
def vfast____likely__ : Int := 100
def vfast____unlikely__ : Int := 101
def vfast__as : Int := 67
def vfast__asm : Int := 68
def vfast__assert : Int := 69
def vfast__atomic : Int := 70
def vfast__break : Int := 71
def vfast__const : Int := 72
def vfast__continue : Int := 73
def vfast__defer : Int := 74
def vfast__dump : Int := 107
def vfast__else : Int := 75
def vfast__enum : Int := 76
def vfast__fn : Int := 79
def vfast__for : Int := 78
def vfast__false : Int := 77
def vfast__go : Int := 81
def vfast__goto : Int := 82
def vfast__if : Int := 83
def vfast__in : Int := 85
def vfast__is : Int := 87
def vfast__import : Int := 84
def vfast__interface : Int := 86
def vfast__isreftype : Int := 99
def vfast__lock : Int := 93
def vfast__mut : Int := 90
def vfast__match : Int := 88
def vfast__module : Int := 89
def vfast__nil : Int := 91
def vfast__none : Int := 95
def vfast__or : Int := 108
def vfast__pub : Int := 110
def vfast__return : Int := 96
def vfast__rlock : Int := 94
def vfast__select : Int := 97
def vfast__shared : Int := 92
def vfast__sizeof : Int := 98
def vfast__static : Int := 111
def vfast__struct : Int := 103
def vfast__true : Int := 104
def vfast__type : Int := 105
def vfast__typeof : Int := 106
def vfast__union : Int := 109
def vfast__unsafe : Int := 113
def vfast__volatile : Int := 112
def vfast__Unknown : Int := -1

/-- The value of a character constant such as `'a'`. -/
def char_const (c : Char) : Nat := c.toNat

/-- The expression `string[i]`: one input byte is read. -/
def char_at (string : List Byte) (i : Nat) : Option Nat :=
  (string[i]?).map Fin.val

/-- The macro `onechar(c, s, l)`: `((uint64_t)(c)) << (s)` when the byte order
is little-endian (`le`), `((uint64_t)(c)) << (l-8-s)` otherwise. -/
def onechar (le : Bool) (c : Char) (s l : Nat) : Nat :=
  if le then (char_const c <<< s) % 2 ^ 64 else (char_const c <<< (l - 8 - s)) % 2 ^ 64

/-- The load `*((triehash_uu32*) &string[i])`: four bytes are read and form
an unsigned 32-bit value in the byte order of the machine. -/
def load_uu32 (le : Bool) (string : List Byte) (i : Nat) : Option Nat :=
  match string[i]?, string[i + 1]?, string[i + 2]?, string[i + 3]? with
  | some b0, some b1, some b2, some b3 =>
    if le then some (b0.val + b1.val * 2 ^ 8 + b2.val * 2 ^ 16 + b3.val * 2 ^ 24)
    else some (b0.val * 2 ^ 24 + b1.val * 2 ^ 16 + b2.val * 2 ^ 8 + b3.val)
  | _, _, _, _ => none

/-- The load `*((triehash_uu64*) &string[i])`: eight bytes are read and form
an unsigned 64-bit value in the byte order of the machine. -/
def load_uu64 (le : Bool) (string : List Byte) (i : Nat) : Option Nat :=
  match string[i]?, string[i + 1]?, string[i + 2]?, string[i + 3]?,
    string[i + 4]?, string[i + 5]?, string[i + 6]?, string[i + 7]? with
  | some b0, some b1, some b2, some b3, some b4, some b5, some b6, some b7 =>
    if le then
      some (b0.val + b1.val * 2 ^ 8 + b2.val * 2 ^ 16 + b3.val * 2 ^ 24
        + b4.val * 2 ^ 32 + b5.val * 2 ^ 40 + b6.val * 2 ^ 48 + b7.val * 2 ^ 56)
    else
      some (b0.val * 2 ^ 56 + b1.val * 2 ^ 48 + b2.val * 2 ^ 40 + b3.val * 2 ^ 32
        + b4.val * 2 ^ 24 + b5.val * 2 ^ 16 + b6.val * 2 ^ 8 + b7.val)
  | _, _, _, _, _, _, _, _ => none

/-! The matchers of the `#ifdef TRIE_HASH_MULTI_BYTE` branch.  A `switch` is
the chain of the comparisons with its `case` labels, in their order; every
path that matches no label, or leaves a `switch` through `break`, ends at the
final `return vfast__Unknown`. -/
namespace MultiByte

/-- The matcher `vfast_perfect_hash2` compiled with `TRIE_HASH_MULTI_BYTE`. -/
def vfast_perfect_hash2 (le : Bool) (string : List Byte) : Option Int :=
  (char_at string 0).bind fun c0 =>
  if c0 = 0 ||| onechar le 'a' 0 8 then
    (char_at string 1).bind fun c1 =>
    if c1 = 0 ||| onechar le 's' 0 8 then some vfast__as
    else some vfast__Unknown
  else if c0 = 0 ||| onechar le 'f' 0 8 then
    (char_at string 1).bind fun c1 =>
    if c1 = 0 ||| onechar le 'n' 0 8 then some vfast__fn
    else some vfast__Unknown
  else if c0 = 0 ||| onechar le 'g' 0 8 then
    (char_at string 1).bind fun c1 =>
    if c1 = 0 ||| onechar le 'o' 0 8 then some vfast__go
    else some vfast__Unknown
  else if c0 = 0 ||| onechar le 'i' 0 8 then
    (char_at string 1).bind fun c1 =>
    if c1 = 0 ||| onechar le 'f' 0 8 then some vfast__if
    else if c1 = 0 ||| onechar le 'n' 0 8 then some vfast__in
    else if c1 = 0 ||| onechar le 's' 0 8 then some vfast__is
    else some vfast__Unknown
  else if c0 = 0 ||| onechar le 'o' 0 8 then
    (char_at string 1).bind fun c1 =>
    if c1 = 0 ||| onechar le 'r' 0 8 then some vfast__or
    else some vfast__Unknown
  else some vfast__Unknown

/-- The matcher `vfast_perfect_hash3` compiled with `TRIE_HASH_MULTI_BYTE`. -/
def vfast_perfect_hash3 (le : Bool) (string : List Byte) : Option Int :=
  (char_at string 0).bind fun c0 =>
  if c0 = 0 ||| onechar le 'a' 0 8 then
    (char_at string 1).bind fun c1 =>
    if c1 = 0 ||| onechar le 's' 0 8 then
      (char_at string 2).bind fun c2 =>
      if c2 = 0 ||| onechar le 'm' 0 8 then some vfast__asm
      else some vfast__Unknown
    else some vfast__Unknown
  else if c0 = 0 ||| onechar le 'f' 0 8 then
    (char_at string 1).bind fun c1 =>
    if c1 = 0 ||| onechar le 'o' 0 8 then
      (char_at string 2).bind fun c2 =>
      if c2 = 0 ||| onechar le 'r' 0 8 then some vfast__for
      else some vfast__Unknown
    else some vfast__Unknown
  else if c0 = 0 ||| onechar le 'm' 0 8 then
    (char_at string 1).bind fun c1 =>
    if c1 = 0 ||| onechar le 'u' 0 8 then
      (char_at string 2).bind fun c2 =>
      if c2 = 0 ||| onechar le 't' 0 8 then some vfast__mut
      else some vfast__Unknown
    else some vfast__Unknown
  else if c0 = 0 ||| onechar le 'n' 0 8 then
    (char_at string 1).bind fun c1 =>
    if c1 = 0 ||| onechar le 'i' 0 8 then
      (char_at string 2).bind fun c2 =>
      if c2 = 0 ||| onechar le 'l' 0 8 then some vfast__nil
      else some vfast__Unknown
    else some vfast__Unknown
  else if c0 = 0 ||| onechar le 'p' 0 8 then
    (char_at string 1).bind fun c1 =>
    if c1 = 0 ||| onechar le 'u' 0 8 then
      (char_at string 2).bind fun c2 =>
      if c2 = 0 ||| onechar le 'b' 0 8 then some vfast__pub
      else some vfast__Unknown
    else some vfast__Unknown
  else some vfast__Unknown

/-- The matcher `vfast_perfect_hash4` compiled with `TRIE_HASH_MULTI_BYTE`. -/
def vfast_perfect_hash4 (le : Bool) (string : List Byte) : Option Int :=
  (load_uu32 le string 0).bind fun w0 =>
  if w0 = 0 ||| onechar le 'd' 0 32 ||| onechar le 'u' 8 32 ||| onechar le 'm' 16 32 |||
      onechar le 'p' 24 32 then
    some vfast__dump
  else if w0 = 0 ||| onechar le 'e' 0 32 ||| onechar le 'l' 8 32 ||| onechar le 's' 16 32 |||
      onechar le 'e' 24 32 then
    some vfast__else
  else if w0 = 0 ||| onechar le 'e' 0 32 ||| onechar le 'n' 8 32 ||| onechar le 'u' 16 32 |||
      onechar le 'm' 24 32 then
    some vfast__enum
  else if w0 = 0 ||| onechar le 'g' 0 32 ||| onechar le 'o' 8 32 ||| onechar le 't' 16 32 |||
      onechar le 'o' 24 32 then
    some vfast__goto
  else if w0 = 0 ||| onechar le 'l' 0 32 ||| onechar le 'o' 8 32 ||| onechar le 'c' 16 32 |||
      onechar le 'k' 24 32 then
    some vfast__lock
  else if w0 = 0 ||| onechar le 'n' 0 32 ||| onechar le 'o' 8 32 ||| onechar le 'n' 16 32 |||
      onechar le 'e' 24 32 then
    some vfast__none
  else if w0 = 0 ||| onechar le 't' 0 32 ||| onechar le 'r' 8 32 ||| onechar le 'u' 16 32 |||
      onechar le 'e' 24 32 then
    some vfast__true
  else if w0 = 0 ||| onechar le 't' 0 32 ||| onechar le 'y' 8 32 ||| onechar le 'p' 16 32 |||
      onechar le 'e' 24 32 then
    some vfast__type
  else some vfast__Unknown

/-- The matcher `vfast_perfect_hash5` compiled with `TRIE_HASH_MULTI_BYTE`. -/
def vfast_perfect_hash5 (le : Bool) (string : List Byte) : Option Int :=
  (load_uu32 le string 0).bind fun w0 =>
  if w0 = 0 ||| onechar le 'b' 0 32 ||| onechar le 'r' 8 32 ||| onechar le 'e' 16 32 |||
      onechar le 'a' 24 32 then
    (char_at string 4).bind fun c4 =>
    if c4 = 0 ||| onechar le 'k' 0 8 then some vfast__break
    else some vfast__Unknown
  else if w0 = 0 ||| onechar le 'c' 0 32 ||| onechar le 'o' 8 32 ||| onechar le 'n' 16 32 |||
      onechar le 's' 24 32 then
    (char_at string 4).bind fun c4 =>
    if c4 = 0 ||| onechar le 't' 0 8 then some vfast__const
    else some vfast__Unknown
  else if w0 = 0 ||| onechar le 'd' 0 32 ||| onechar le 'e' 8 32 ||| onechar le 'f' 16 32 |||
      onechar le 'e' 24 32 then
    (char_at string 4).bind fun c4 =>
    if c4 = 0 ||| onechar le 'r' 0 8 then some vfast__defer
    else some vfast__Unknown
  else if w0 = 0 ||| onechar le 'f' 0 32 ||| onechar le 'a' 8 32 ||| onechar le 'l' 16 32 |||
      onechar le 's' 24 32 then
    (char_at string 4).bind fun c4 =>
    if c4 = 0 ||| onechar le 'e' 0 8 then some vfast__false
    else some vfast__Unknown
  else if w0 = 0 ||| onechar le 'm' 0 32 ||| onechar le 'a' 8 32 ||| onechar le 't' 16 32 |||
      onechar le 'c' 24 32 then
    (char_at string 4).bind fun c4 =>
    if c4 = 0 ||| onechar le 'h' 0 8 then some vfast__match
    else some vfast__Unknown
  else if w0 = 0 ||| onechar le 'r' 0 32 ||| onechar le 'l' 8 32 ||| onechar le 'o' 16 32 |||
      onechar le 'c' 24 32 then
    (char_at string 4).bind fun c4 =>
    if c4 = 0 ||| onechar le 'k' 0 8 then some vfast__rlock
    else some vfast__Unknown
  else if w0 = 0 ||| onechar le 'u' 0 32 ||| onechar le 'n' 8 32 ||| onechar le 'i' 16 32 |||
      onechar le 'o' 24 32 then
    (char_at string 4).bind fun c4 =>
    if c4 = 0 ||| onechar le 'n' 0 8 then some vfast__union
    else some vfast__Unknown
  else some vfast__Unknown

/-- The matcher `vfast_perfect_hash6` compiled with `TRIE_HASH_MULTI_BYTE`. -/
def vfast_perfect_hash6 (le : Bool) (string : List Byte) : Option Int :=
  (load_uu32 le string 0).bind fun w0 =>
  if w0 = 0 ||| onechar le 'a' 0 32 ||| onechar le 's' 8 32 ||| onechar le 's' 16 32 |||
      onechar le 'e' 24 32 then
    (char_at string 4).bind fun c4 =>
    if c4 = 0 ||| onechar le 'r' 0 8 then
      (char_at string 5).bind fun c5 =>
      if c5 = 0 ||| onechar le 't' 0 8 then some vfast__assert
      else some vfast__Unknown
    else some vfast__Unknown
  else if w0 = 0 ||| onechar le 'a' 0 32 ||| onechar le 't' 8 32 ||| onechar le 'o' 16 32 |||
      onechar le 'm' 24 32 then
    (char_at string 4).bind fun c4 =>
    if c4 = 0 ||| onechar le 'i' 0 8 then
      (char_at string 5).bind fun c5 =>
      if c5 = 0 ||| onechar le 'c' 0 8 then some vfast__atomic
      else some vfast__Unknown
    else some vfast__Unknown
  else if w0 = 0 ||| onechar le 'i' 0 32 ||| onechar le 'm' 8 32 ||| onechar le 'p' 16 32 |||
      onechar le 'o' 24 32 then
    (char_at string 4).bind fun c4 =>
    if c4 = 0 ||| onechar le 'r' 0 8 then
      (char_at string 5).bind fun c5 =>
      if c5 = 0 ||| onechar le 't' 0 8 then some vfast__import
      else some vfast__Unknown
    else some vfast__Unknown
  else if w0 = 0 ||| onechar le 'm' 0 32 ||| onechar le 'o' 8 32 ||| onechar le 'd' 16 32 |||
      onechar le 'u' 24 32 then
    (char_at string 4).bind fun c4 =>
    if c4 = 0 ||| onechar le 'l' 0 8 then
      (char_at string 5).bind fun c5 =>
      if c5 = 0 ||| onechar le 'e' 0 8 then some vfast__module
      else some vfast__Unknown
    else some vfast__Unknown
  else if w0 = 0 ||| onechar le 'r' 0 32 ||| onechar le 'e' 8 32 ||| onechar le 't' 16 32 |||
      onechar le 'u' 24 32 then
    (char_at string 4).bind fun c4 =>
    if c4 = 0 ||| onechar le 'r' 0 8 then
      (char_at string 5).bind fun c5 =>
      if c5 = 0 ||| onechar le 'n' 0 8 then some vfast__return
      else some vfast__Unknown
    else some vfast__Unknown
  else if w0 = 0 ||| onechar le 's' 0 32 ||| onechar le 'e' 8 32 ||| onechar le 'l' 16 32 |||
      onechar le 'e' 24 32 then
    (char_at string 4).bind fun c4 =>
    if c4 = 0 ||| onechar le 'c' 0 8 then
      (char_at string 5).bind fun c5 =>
      if c5 = 0 ||| onechar le 't' 0 8 then some vfast__select
      else some vfast__Unknown
    else some vfast__Unknown
  else if w0 = 0 ||| onechar le 's' 0 32 ||| onechar le 'h' 8 32 ||| onechar le 'a' 16 32 |||
      onechar le 'r' 24 32 then
    (char_at string 4).bind fun c4 =>
    if c4 = 0 ||| onechar le 'e' 0 8 then
      (char_at string 5).bind fun c5 =>
      if c5 = 0 ||| onechar le 'd' 0 8 then some vfast__shared
      else some vfast__Unknown
    else some vfast__Unknown
  else if w0 = 0 ||| onechar le 's' 0 32 ||| onechar le 'i' 8 32 ||| onechar le 'z' 16 32 |||
      onechar le 'e' 24 32 then
    (char_at string 4).bind fun c4 =>
    if c4 = 0 ||| onechar le 'o' 0 8 then
      (char_at string 5).bind fun c5 =>
      if c5 = 0 ||| onechar le 'f' 0 8 then some vfast__sizeof
      else some vfast__Unknown
    else some vfast__Unknown
  else if w0 = 0 ||| onechar le 's' 0 32 ||| onechar le 't' 8 32 ||| onechar le 'a' 16 32 |||
      onechar le 't' 24 32 then
    (char_at string 4).bind fun c4 =>
    if c4 = 0 ||| onechar le 'i' 0 8 then
      (char_at string 5).bind fun c5 =>
      if c5 = 0 ||| onechar le 'c' 0 8 then some vfast__static
      else some vfast__Unknown
    else some vfast__Unknown
  else if w0 = 0 ||| onechar le 's' 0 32 ||| onechar le 't' 8 32 ||| onechar le 'r' 16 32 |||
      onechar le 'u' 24 32 then
    (char_at string 4).bind fun c4 =>
    if c4 = 0 ||| onechar le 'c' 0 8 then
      (char_at string 5).bind fun c5 =>
      if c5 = 0 ||| onechar le 't' 0 8 then some vfast__struct
      else some vfast__Unknown
    else some vfast__Unknown
  else if w0 = 0 ||| onechar le 't' 0 32 ||| onechar le 'y' 8 32 ||| onechar le 'p' 16 32 |||
      onechar le 'e' 24 32 then
    (char_at string 4).bind fun c4 =>
    if c4 = 0 ||| onechar le 'o' 0 8 then
      (char_at string 5).bind fun c5 =>
      if c5 = 0 ||| onechar le 'f' 0 8 then some vfast__typeof
      else some vfast__Unknown
    else some vfast__Unknown
  else if w0 = 0 ||| onechar le 'u' 0 32 ||| onechar le 'n' 8 32 ||| onechar le 's' 16 32 |||
      onechar le 'a' 24 32 then
    (char_at string 4).bind fun c4 =>
    if c4 = 0 ||| onechar le 'f' 0 8 then
      (char_at string 5).bind fun c5 =>
      if c5 = 0 ||| onechar le 'e' 0 8 then some vfast__unsafe
      else some vfast__Unknown
    else some vfast__Unknown
  else some vfast__Unknown

/-- The matcher `vfast_perfect_hash8` compiled with `TRIE_HASH_MULTI_BYTE`. -/
def vfast_perfect_hash8 (le : Bool) (string : List Byte) : Option Int :=
  (load_uu64 le string 0).bind fun w0 =>
  if w0 = 0 ||| onechar le '_' 0 64 ||| onechar le '_' 8 64 ||| onechar le 'g' 16 64 |||
      onechar le 'l' 24 64 ||| onechar le 'o' 32 64 ||| onechar le 'b' 40 64 |||
      onechar le 'a' 48 64 ||| onechar le 'l' 56 64 then
    some vfast______global
  else if w0 = 0 ||| onechar le '_' 0 64 ||| onechar le 'l' 8 64 ||| onechar le 'i' 16 64 |||
      onechar le 'k' 24 64 ||| onechar le 'e' 32 64 ||| onechar le 'l' 40 64 |||
      onechar le 'y' 48 64 ||| onechar le '_' 56 64 then
    some vfast____likely__
  else if w0 = 0 ||| onechar le 'c' 0 64 ||| onechar le 'o' 8 64 ||| onechar le 'n' 16 64 |||
      onechar le 't' 24 64 ||| onechar le 'i' 32 64 ||| onechar le 'n' 40 64 |||
      onechar le 'u' 48 64 ||| onechar le 'e' 56 64 then
    some vfast__continue
  else if w0 = 0 ||| onechar le 'v' 0 64 ||| onechar le 'o' 8 64 ||| onechar le 'l' 16 64 |||
      onechar le 'a' 24 64 ||| onechar le 't' 32 64 ||| onechar le 'i' 40 64 |||
      onechar le 'l' 48 64 ||| onechar le 'e' 56 64 then
    some vfast__volatile
  else some vfast__Unknown

/-- The matcher `vfast_perfect_hash9` compiled with `TRIE_HASH_MULTI_BYTE`. -/
def vfast_perfect_hash9 (le : Bool) (string : List Byte) : Option Int :=
  (load_uu64 le string 0).bind fun w0 =>
  if w0 = 0 ||| onechar le 'i' 0 64 ||| onechar le 'n' 8 64 ||| onechar le 't' 16 64 |||
      onechar le 'e' 24 64 ||| onechar le 'r' 32 64 ||| onechar le 'f' 40 64 |||
      onechar le 'a' 48 64 ||| onechar le 'c' 56 64 then
    (char_at string 8).bind fun c8 =>
    if c8 = 0 ||| onechar le 'e' 0 8 then some vfast__interface
    else some vfast__Unknown
  else if w0 = 0 ||| onechar le 'i' 0 64 ||| onechar le 's' 8 64 ||| onechar le 'r' 16 64 |||
      onechar le 'e' 24 64 ||| onechar le 'f' 32 64 ||| onechar le 't' 40 64 |||
      onechar le 'y' 48 64 ||| onechar le 'p' 56 64 then
    (char_at string 8).bind fun c8 =>
    if c8 = 0 ||| onechar le 'e' 0 8 then some vfast__isreftype
    else some vfast__Unknown
  else some vfast__Unknown

/-- The matcher `vfast_perfect_hash10` compiled with `TRIE_HASH_MULTI_BYTE`. -/
def vfast_perfect_hash10 (le : Bool) (string : List Byte) : Option Int :=
  (load_uu64 le string 0).bind fun w0 =>
  if w0 = 0 ||| onechar le '_' 0 64 ||| onechar le '_' 8 64 ||| onechar le 'o' 16 64 |||
      onechar le 'f' 24 64 ||| onechar le 'f' 32 64 ||| onechar le 's' 40 64 |||
      onechar le 'e' 48 64 ||| onechar le 't' 56 64 then
    (char_at string 8).bind fun c8 =>
    if c8 = 0 ||| onechar le 'o' 0 8 then
      (char_at string 9).bind fun c9 =>
      if c9 = 0 ||| onechar le 'f' 0 8 then some vfast______offsetof
      else some vfast__Unknown
    else some vfast__Unknown
  else if w0 = 0 ||| onechar le '_' 0 64 ||| onechar le 'u' 8 64 ||| onechar le 'n' 16 64 |||
      onechar le 'l' 24 64 ||| onechar le 'i' 32 64 ||| onechar le 'k' 40 64 |||
      onechar le 'e' 48 64 ||| onechar le 'l' 56 64 then
    (char_at string 8).bind fun c8 =>
    if c8 = 0 ||| onechar le 'y' 0 8 then
      (char_at string 9).bind fun c9 =>
      if c9 = 0 ||| onechar le '_' 0 8 then some vfast____unlikely__
      else some vfast__Unknown
    else some vfast__Unknown
  else some vfast__Unknown

end MultiByte

/-! The matchers of the `#else` branch: nested switches on single bytes. -/

namespace SingleByte

/-- The matcher `vfast_perfect_hash2` compiled without `TRIE_HASH_MULTI_BYTE`. -/
def vfast_perfect_hash2 (string : List Byte) : Option Int :=
  (char_at string 0).bind fun c0 =>
  if c0 = char_const 'a' then
    (char_at string 1).bind fun c1 =>
    if c1 = char_const 's' then some vfast__as
    else some vfast__Unknown
  else if c0 = char_const 'f' then
    (char_at string 1).bind fun c1 =>
    if c1 = char_const 'n' then some vfast__fn
    else some vfast__Unknown
  else if c0 = char_const 'g' then
    (char_at string 1).bind fun c1 =>
    if c1 = char_const 'o' then some vfast__go
    else some vfast__Unknown
  else if c0 = char_const 'i' then
    (char_at string 1).bind fun c1 =>
    if c1 = char_const 'f' then some vfast__if
    else if c1 = char_const 'n' then some vfast__in
    else if c1 = char_const 's' then some vfast__is
    else some vfast__Unknown
  else if c0 = char_const 'o' then
    (char_at string 1).bind fun c1 =>
    if c1 = char_const 'r' then some vfast__or
    else some vfast__Unknown
  else some vfast__Unknown

/-- The matcher `vfast_perfect_hash3` compiled without `TRIE_HASH_MULTI_BYTE`. -/
def vfast_perfect_hash3 (string : List Byte) : Option Int :=
  (char_at string 0).bind fun c0 =>
  if c0 = char_const 'a' then
    (char_at string 1).bind fun c1 =>
    if c1 = char_const 's' then
      (char_at string 2).bind fun c2 =>
      if c2 = char_const 'm' then some vfast__asm
      else some vfast__Unknown
    else some vfast__Unknown
  else if c0 = char_const 'f' then
    (char_at string 1).bind fun c1 =>
    if c1 = char_const 'o' then
      (char_at string 2).bind fun c2 =>
      if c2 = char_const 'r' then some vfast__for
      else some vfast__Unknown
    else some vfast__Unknown
  else if c0 = char_const 'm' then
    (char_at string 1).bind fun c1 =>
    if c1 = char_const 'u' then
      (char_at string 2).bind fun c2 =>
      if c2 = char_const 't' then some vfast__mut
      else some vfast__Unknown
    else some vfast__Unknown
  else if c0 = char_const 'n' then
    (char_at string 1).bind fun c1 =>
    if c1 = char_const 'i' then
      (char_at string 2).bind fun c2 =>
      if c2 = char_const 'l' then some vfast__nil
      else some vfast__Unknown
    else some vfast__Unknown
  else if c0 = char_const 'p' then
    (char_at string 1).bind fun c1 =>
    if c1 = char_const 'u' then
      (char_at string 2).bind fun c2 =>
      if c2 = char_const 'b' then some vfast__pub
      else some vfast__Unknown
    else some vfast__Unknown
  else some vfast__Unknown

/-- The matcher `vfast_perfect_hash4` compiled without `TRIE_HASH_MULTI_BYTE`. -/
def vfast_perfect_hash4 (string : List Byte) : Option Int :=
  (char_at string 0).bind fun c0 =>
  if c0 = char_const 'd' then
    (char_at string 1).bind fun c1 =>
    if c1 = char_const 'u' then
      (char_at string 2).bind fun c2 =>
      if c2 = char_const 'm' then
        (char_at string 3).bind fun c3 =>
        if c3 = char_const 'p' then some vfast__dump
        else some vfast__Unknown
      else some vfast__Unknown
    else some vfast__Unknown
  else if c0 = char_const 'e' then
    (char_at string 1).bind fun c1 =>
    if c1 = char_const 'l' then
      (char_at string 2).bind fun c2 =>
      if c2 = char_const 's' then
        (char_at string 3).bind fun c3 =>
        if c3 = char_const 'e' then some vfast__else
        else some vfast__Unknown
      else some vfast__Unknown
    else if c1 = char_const 'n' then
      (char_at string 2).bind fun c2 =>
      if c2 = char_const 'u' then
        (char_at string 3).bind fun c3 =>
        if c3 = char_const 'm' then some vfast__enum
        else some vfast__Unknown
      else some vfast__Unknown
    else some vfast__Unknown
  else if c0 = char_const 'g' then
    (char_at string 1).bind fun c1 =>
    if c1 = char_const 'o' then
      (char_at string 2).bind fun c2 =>
      if c2 = char_const 't' then
        (char_at string 3).bind fun c3 =>
        if c3 = char_const 'o' then some vfast__goto
        else some vfast__Unknown
      else some vfast__Unknown
    else some vfast__Unknown
  else if c0 = char_const 'l' then
    (char_at string 1).bind fun c1 =>
    if c1 = char_const 'o' then
      (char_at string 2).bind fun c2 =>
      if c2 = char_const 'c' then
        (char_at string 3).bind fun c3 =>
        if c3 = char_const 'k' then some vfast__lock
        else some vfast__Unknown
      else some vfast__Unknown
    else some vfast__Unknown
  else if c0 = char_const 'n' then
    (char_at string 1).bind fun c1 =>
    if c1 = char_const 'o' then
      (char_at string 2).bind fun c2 =>
      if c2 = char_const 'n' then
        (char_at string 3).bind fun c3 =>
        if c3 = char_const 'e' then some vfast__none
        else some vfast__Unknown
      else some vfast__Unknown
    else some vfast__Unknown
  else if c0 = char_const 't' then
    (char_at string 1).bind fun c1 =>
    if c1 = char_const 'r' then
      (char_at string 2).bind fun c2 =>
      if c2 = char_const 'u' then
        (char_at string 3).bind fun c3 =>
        if c3 = char_const 'e' then some vfast__true
        else some vfast__Unknown
      else some vfast__Unknown
    else if c1 = char_const 'y' then
      (char_at string 2).bind fun c2 =>
      if c2 = char_const 'p' then
        (char_at string 3).bind fun c3 =>
        if c3 = char_const 'e' then some vfast__type
        else some vfast__Unknown
      else some vfast__Unknown
    else some vfast__Unknown
  else some vfast__Unknown

/-- The matcher `vfast_perfect_hash5` compiled without `TRIE_HASH_MULTI_BYTE`. -/
def vfast_perfect_hash5 (string : List Byte) : Option Int :=
  (char_at string 0).bind fun c0 =>
  if c0 = char_const 'b' then
    (char_at string 1).bind fun c1 =>
    if c1 = char_const 'r' then
      (char_at string 2).bind fun c2 =>
      if c2 = char_const 'e' then
        (char_at string 3).bind fun c3 =>
        if c3 = char_const 'a' then
          (char_at string 4).bind fun c4 =>
          if c4 = char_const 'k' then some vfast__break
          else some vfast__Unknown
        else some vfast__Unknown
      else some vfast__Unknown
    else some vfast__Unknown
  else if c0 = char_const 'c' then
    (char_at string 1).bind fun c1 =>
    if c1 = char_const 'o' then
      (char_at string 2).bind fun c2 =>
      if c2 = char_const 'n' then
        (char_at string 3).bind fun c3 =>
        if c3 = char_const 's' then
          (char_at string 4).bind fun c4 =>
          if c4 = char_const 't' then some vfast__const
          else some vfast__Unknown
        else some vfast__Unknown
      else some vfast__Unknown
    else some vfast__Unknown
  else if c0 = char_const 'd' then
    (char_at string 1).bind fun c1 =>
    if c1 = char_const 'e' then
      (char_at string 2).bind fun c2 =>
      if c2 = char_const 'f' then
        (char_at string 3).bind fun c3 =>
        if c3 = char_const 'e' then
          (char_at string 4).bind fun c4 =>
          if c4 = char_const 'r' then some vfast__defer
          else some vfast__Unknown
        else some vfast__Unknown
      else some vfast__Unknown
    else some vfast__Unknown
  else if c0 = char_const 'f' then
    (char_at string 1).bind fun c1 =>
    if c1 = char_const 'a' then
      (char_at string 2).bind fun c2 =>
      if c2 = char_const 'l' then
        (char_at string 3).bind fun c3 =>
        if c3 = char_const 's' then
          (char_at string 4).bind fun c4 =>
          if c4 = char_const 'e' then some vfast__false
          else some vfast__Unknown
        else some vfast__Unknown
      else some vfast__Unknown
    else some vfast__Unknown
  else if c0 = char_const 'm' then
    (char_at string 1).bind fun c1 =>
    if c1 = char_const 'a' then
      (char_at string 2).bind fun c2 =>
      if c2 = char_const 't' then
        (char_at string 3).bind fun c3 =>
        if c3 = char_const 'c' then
          (char_at string 4).bind fun c4 =>
          if c4 = char_const 'h' then some vfast__match
          else some vfast__Unknown
        else some vfast__Unknown
      else some vfast__Unknown
    else some vfast__Unknown
  else if c0 = char_const 'r' then
    (char_at string 1).bind fun c1 =>
    if c1 = char_const 'l' then
      (char_at string 2).bind fun c2 =>
      if c2 = char_const 'o' then
        (char_at string 3).bind fun c3 =>
        if c3 = char_const 'c' then
          (char_at string 4).bind fun c4 =>
          if c4 = char_const 'k' then some vfast__rlock
          else some vfast__Unknown
        else some vfast__Unknown
      else some vfast__Unknown
    else some vfast__Unknown
  else if c0 = char_const 'u' then
    (char_at string 1).bind fun c1 =>
    if c1 = char_const 'n' then
      (char_at string 2).bind fun c2 =>
      if c2 = char_const 'i' then
        (char_at string 3).bind fun c3 =>
        if c3 = char_const 'o' then
          (char_at string 4).bind fun c4 =>
          if c4 = char_const 'n' then some vfast__union
          else some vfast__Unknown
        else some vfast__Unknown
      else some vfast__Unknown
    else some vfast__Unknown
  else some vfast__Unknown

/-- The matcher `vfast_perfect_hash6` compiled without `TRIE_HASH_MULTI_BYTE`. -/
def vfast_perfect_hash6 (string : List Byte) : Option Int :=
  (char_at string 0).bind fun c0 =>
  if c0 = char_const 'a' then
    (char_at string 1).bind fun c1 =>
    if c1 = char_const 's' then
      (char_at string 2).bind fun c2 =>
      if c2 = char_const 's' then
        (char_at string 3).bind fun c3 =>
        if c3 = char_const 'e' then
          (char_at string 4).bind fun c4 =>
          if c4 = char_const 'r' then
            (char_at string 5).bind fun c5 =>
            if c5 = char_const 't' then some vfast__assert
            else some vfast__Unknown
          else some vfast__Unknown
        else some vfast__Unknown
      else some vfast__Unknown
    else if c1 = char_const 't' then
      (char_at string 2).bind fun c2 =>
      if c2 = char_const 'o' then
        (char_at string 3).bind fun c3 =>
        if c3 = char_const 'm' then
          (char_at string 4).bind fun c4 =>
          if c4 = char_const 'i' then
            (char_at string 5).bind fun c5 =>
            if c5 = char_const 'c' then some vfast__atomic
            else some vfast__Unknown
          else some vfast__Unknown
        else some vfast__Unknown
      else some vfast__Unknown
    else some vfast__Unknown
  else if c0 = char_const 'i' then
    (char_at string 1).bind fun c1 =>
    if c1 = char_const 'm' then
      (char_at string 2).bind fun c2 =>
      if c2 = char_const 'p' then
        (char_at string 3).bind fun c3 =>
        if c3 = char_const 'o' then
          (char_at string 4).bind fun c4 =>
          if c4 = char_const 'r' then
            (char_at string 5).bind fun c5 =>
            if c5 = char_const 't' then some vfast__import
            else some vfast__Unknown
          else some vfast__Unknown
        else some vfast__Unknown
      else some vfast__Unknown
    else some vfast__Unknown
  else if c0 = char_const 'm' then
    (char_at string 1).bind fun c1 =>
    if c1 = char_const 'o' then
      (char_at string 2).bind fun c2 =>
      if c2 = char_const 'd' then
        (char_at string 3).bind fun c3 =>
        if c3 = char_const 'u' then
          (char_at string 4).bind fun c4 =>
          if c4 = char_const 'l' then
            (char_at string 5).bind fun c5 =>
            if c5 = char_const 'e' then some vfast__module
            else some vfast__Unknown
          else some vfast__Unknown
        else some vfast__Unknown
      else some vfast__Unknown
    else some vfast__Unknown
  else if c0 = char_const 'r' then
    (char_at string 1).bind fun c1 =>
    if c1 = char_const 'e' then
      (char_at string 2).bind fun c2 =>
      if c2 = char_const 't' then
        (char_at string 3).bind fun c3 =>
        if c3 = char_const 'u' then
          (char_at string 4).bind fun c4 =>
          if c4 = char_const 'r' then
            (char_at string 5).bind fun c5 =>
            if c5 = char_const 'n' then some vfast__return
            else some vfast__Unknown
          else some vfast__Unknown
        else some vfast__Unknown
      else some vfast__Unknown
    else some vfast__Unknown
  else if c0 = char_const 's' then
    (char_at string 1).bind fun c1 =>
    if c1 = char_const 'e' then
      (char_at string 2).bind fun c2 =>
      if c2 = char_const 'l' then
        (char_at string 3).bind fun c3 =>
        if c3 = char_const 'e' then
          (char_at string 4).bind fun c4 =>
          if c4 = char_const 'c' then
            (char_at string 5).bind fun c5 =>
            if c5 = char_const 't' then some vfast__select
            else some vfast__Unknown
          else some vfast__Unknown
        else some vfast__Unknown
      else some vfast__Unknown
    else if c1 = char_const 'h' then
      (char_at string 2).bind fun c2 =>
      if c2 = char_const 'a' then
        (char_at string 3).bind fun c3 =>
        if c3 = char_const 'r' then
          (char_at string 4).bind fun c4 =>
          if c4 = char_const 'e' then
            (char_at string 5).bind fun c5 =>
            if c5 = char_const 'd' then some vfast__shared
            else some vfast__Unknown
          else some vfast__Unknown
        else some vfast__Unknown
      else some vfast__Unknown
    else if c1 = char_const 'i' then
      (char_at string 2).bind fun c2 =>
      if c2 = char_const 'z' then
        (char_at string 3).bind fun c3 =>
        if c3 = char_const 'e' then
          (char_at string 4).bind fun c4 =>
          if c4 = char_const 'o' then
            (char_at string 5).bind fun c5 =>
            if c5 = char_const 'f' then some vfast__sizeof
            else some vfast__Unknown
          else some vfast__Unknown
        else some vfast__Unknown
      else some vfast__Unknown
    else if c1 = char_const 't' then
      (char_at string 2).bind fun c2 =>
      if c2 = char_const 'a' then
        (char_at string 3).bind fun c3 =>
        if c3 = char_const 't' then
          (char_at string 4).bind fun c4 =>
          if c4 = char_const 'i' then
            (char_at string 5).bind fun c5 =>
            if c5 = char_const 'c' then some vfast__static
            else some vfast__Unknown
          else some vfast__Unknown
        else some vfast__Unknown
      else if c2 = char_const 'r' then
        (char_at string 3).bind fun c3 =>
        if c3 = char_const 'u' then
          (char_at string 4).bind fun c4 =>
          if c4 = char_const 'c' then
            (char_at string 5).bind fun c5 =>
            if c5 = char_const 't' then some vfast__struct
            else some vfast__Unknown
          else some vfast__Unknown
        else some vfast__Unknown
      else some vfast__Unknown
    else some vfast__Unknown
  else if c0 = char_const 't' then
    (char_at string 1).bind fun c1 =>
    if c1 = char_const 'y' then
      (char_at string 2).bind fun c2 =>
      if c2 = char_const 'p' then
        (char_at string 3).bind fun c3 =>
        if c3 = char_const 'e' then
          (char_at string 4).bind fun c4 =>
          if c4 = char_const 'o' then
            (char_at string 5).bind fun c5 =>
            if c5 = char_const 'f' then some vfast__typeof
            else some vfast__Unknown
          else some vfast__Unknown
        else some vfast__Unknown
      else some vfast__Unknown
    else some vfast__Unknown
  else if c0 = char_const 'u' then
    (char_at string 1).bind fun c1 =>
    if c1 = char_const 'n' then
      (char_at string 2).bind fun c2 =>
      if c2 = char_const 's' then
        (char_at string 3).bind fun c3 =>
        if c3 = char_const 'a' then
          (char_at string 4).bind fun c4 =>
          if c4 = char_const 'f' then
            (char_at string 5).bind fun c5 =>
            if c5 = char_const 'e' then some vfast__unsafe
            else some vfast__Unknown
          else some vfast__Unknown
        else some vfast__Unknown
      else some vfast__Unknown
    else some vfast__Unknown
  else some vfast__Unknown

/-- The matcher `vfast_perfect_hash8` compiled without `TRIE_HASH_MULTI_BYTE`. -/
def vfast_perfect_hash8 (string : List Byte) : Option Int :=
  (char_at string 0).bind fun c0 =>
  if c0 = char_const '_' then
    (char_at string 1).bind fun c1 =>
    if c1 = char_const '_' then
      (char_at string 2).bind fun c2 =>
      if c2 = char_const 'g' then
        (char_at string 3).bind fun c3 =>
        if c3 = char_const 'l' then
          (char_at string 4).bind fun c4 =>
          if c4 = char_const 'o' then
            (char_at string 5).bind fun c5 =>
            if c5 = char_const 'b' then
              (char_at string 6).bind fun c6 =>
              if c6 = char_const 'a' then
                (char_at string 7).bind fun c7 =>
                if c7 = char_const 'l' then some vfast______global
                else some vfast__Unknown
              else some vfast__Unknown
            else some vfast__Unknown
          else some vfast__Unknown
        else some vfast__Unknown
      else some vfast__Unknown
    else if c1 = char_const 'l' then
      (char_at string 2).bind fun c2 =>
      if c2 = char_const 'i' then
        (char_at string 3).bind fun c3 =>
        if c3 = char_const 'k' then
          (char_at string 4).bind fun c4 =>
          if c4 = char_const 'e' then
            (char_at string 5).bind fun c5 =>
            if c5 = char_const 'l' then
              (char_at string 6).bind fun c6 =>
              if c6 = char_const 'y' then
                (char_at string 7).bind fun c7 =>
                if c7 = char_const '_' then some vfast____likely__
                else some vfast__Unknown
              else some vfast__Unknown
            else some vfast__Unknown
          else some vfast__Unknown
        else some vfast__Unknown
      else some vfast__Unknown
    else some vfast__Unknown
  else if c0 = char_const 'c' then
    (char_at string 1).bind fun c1 =>
    if c1 = char_const 'o' then
      (char_at string 2).bind fun c2 =>
      if c2 = char_const 'n' then
        (char_at string 3).bind fun c3 =>
        if c3 = char_const 't' then
          (char_at string 4).bind fun c4 =>
          if c4 = char_const 'i' then
            (char_at string 5).bind fun c5 =>
            if c5 = char_const 'n' then
              (char_at string 6).bind fun c6 =>
              if c6 = char_const 'u' then
                (char_at string 7).bind fun c7 =>
                if c7 = char_const 'e' then some vfast__continue
                else some vfast__Unknown
              else some vfast__Unknown
            else some vfast__Unknown
          else some vfast__Unknown
        else some vfast__Unknown
      else some vfast__Unknown
    else some vfast__Unknown
  else if c0 = char_const 'v' then
    (char_at string 1).bind fun c1 =>
    if c1 = char_const 'o' then
      (char_at string 2).bind fun c2 =>
      if c2 = char_const 'l' then
        (char_at string 3).bind fun c3 =>
        if c3 = char_const 'a' then
          (char_at string 4).bind fun c4 =>
          if c4 = char_const 't' then
            (char_at string 5).bind fun c5 =>
            if c5 = char_const 'i' then
              (char_at string 6).bind fun c6 =>
              if c6 = char_const 'l' then
                (char_at string 7).bind fun c7 =>
                if c7 = char_const 'e' then some vfast__volatile
                else some vfast__Unknown
              else some vfast__Unknown
            else some vfast__Unknown
          else some vfast__Unknown
        else some vfast__Unknown
      else some vfast__Unknown
    else some vfast__Unknown
  else some vfast__Unknown

/-- The matcher `vfast_perfect_hash9` compiled without `TRIE_HASH_MULTI_BYTE`. -/
def vfast_perfect_hash9 (string : List Byte) : Option Int :=
  (char_at string 0).bind fun c0 =>
  if c0 = char_const 'i' then
    (char_at string 1).bind fun c1 =>
    if c1 = char_const 'n' then
      (char_at string 2).bind fun c2 =>
      if c2 = char_const 't' then
        (char_at string 3).bind fun c3 =>
        if c3 = char_const 'e' then
          (char_at string 4).bind fun c4 =>
          if c4 = char_const 'r' then
            (char_at string 5).bind fun c5 =>
            if c5 = char_const 'f' then
              (char_at string 6).bind fun c6 =>
              if c6 = char_const 'a' then
                (char_at string 7).bind fun c7 =>
                if c7 = char_const 'c' then
                  (char_at string 8).bind fun c8 =>
                  if c8 = char_const 'e' then some vfast__interface
                  else some vfast__Unknown
                else some vfast__Unknown
              else some vfast__Unknown
            else some vfast__Unknown
          else some vfast__Unknown
        else some vfast__Unknown
      else some vfast__Unknown
    else if c1 = char_const 's' then
      (char_at string 2).bind fun c2 =>
      if c2 = char_const 'r' then
        (char_at string 3).bind fun c3 =>
        if c3 = char_const 'e' then
          (char_at string 4).bind fun c4 =>
          if c4 = char_const 'f' then
            (char_at string 5).bind fun c5 =>
            if c5 = char_const 't' then
              (char_at string 6).bind fun c6 =>
              if c6 = char_const 'y' then
                (char_at string 7).bind fun c7 =>
                if c7 = char_const 'p' then
                  (char_at string 8).bind fun c8 =>
                  if c8 = char_const 'e' then some vfast__isreftype
                  else some vfast__Unknown
                else some vfast__Unknown
              else some vfast__Unknown
            else some vfast__Unknown
          else some vfast__Unknown
        else some vfast__Unknown
      else some vfast__Unknown
    else some vfast__Unknown
  else some vfast__Unknown

/-- The matcher `vfast_perfect_hash10` compiled without `TRIE_HASH_MULTI_BYTE`. -/
def vfast_perfect_hash10 (string : List Byte) : Option Int :=
  (char_at string 0).bind fun c0 =>
  if c0 = char_const '_' then
    (char_at string 1).bind fun c1 =>
    if c1 = char_const '_' then
      (char_at string 2).bind fun c2 =>
      if c2 = char_const 'o' then
        (char_at string 3).bind fun c3 =>
        if c3 = char_const 'f' then
          (char_at string 4).bind fun c4 =>
          if c4 = char_const 'f' then
            (char_at string 5).bind fun c5 =>
            if c5 = char_const 's' then
              (char_at string 6).bind fun c6 =>
              if c6 = char_const 'e' then
                (char_at string 7).bind fun c7 =>
                if c7 = char_const 't' then
                  (char_at string 8).bind fun c8 =>
                  if c8 = char_const 'o' then
                    (char_at string 9).bind fun c9 =>
                    if c9 = char_const 'f' then some vfast______offsetof
                    else some vfast__Unknown
                  else some vfast__Unknown
                else some vfast__Unknown
              else some vfast__Unknown
            else some vfast__Unknown
          else some vfast__Unknown
        else some vfast__Unknown
      else some vfast__Unknown
    else if c1 = char_const 'u' then
      (char_at string 2).bind fun c2 =>
      if c2 = char_const 'n' then
        (char_at string 3).bind fun c3 =>
        if c3 = char_const 'l' then
          (char_at string 4).bind fun c4 =>
          if c4 = char_const 'i' then
            (char_at string 5).bind fun c5 =>
            if c5 = char_const 'k' then
              (char_at string 6).bind fun c6 =>
              if c6 = char_const 'e' then
                (char_at string 7).bind fun c7 =>
                if c7 = char_const 'l' then
                  (char_at string 8).bind fun c8 =>
                  if c8 = char_const 'y' then
                    (char_at string 9).bind fun c9 =>
                    if c9 = char_const '_' then some vfast____unlikely__
                    else some vfast__Unknown
                  else some vfast__Unknown
                else some vfast__Unknown
              else some vfast__Unknown
            else some vfast__Unknown
          else some vfast__Unknown
        else some vfast__Unknown
      else some vfast__Unknown
    else some vfast__Unknown
  else some vfast__Unknown

end SingleByte

/-- The compile-time choices of `words.c`: whether `TRIE_HASH_MULTI_BYTE` is
defined, and whether `__BYTE_ORDER__ == __ORDER_LITTLE_ENDIAN__`. -/
structure Target where
  multi_byte : Bool
  little_endian : Bool
deriving DecidableEq, Repr

/-- The matcher for the words of `n` bytes, as the target compiles it. -/
def matcher (t : Target) (n : Nat) (string : List Byte) : Option Int :=
  if t.multi_byte then
    match n with
    | 2 => MultiByte.vfast_perfect_hash2 t.little_endian string
    | 3 => MultiByte.vfast_perfect_hash3 t.little_endian string
    | 4 => MultiByte.vfast_perfect_hash4 t.little_endian string
    | 5 => MultiByte.vfast_perfect_hash5 t.little_endian string
    | 6 => MultiByte.vfast_perfect_hash6 t.little_endian string
    | 8 => MultiByte.vfast_perfect_hash8 t.little_endian string
    | 9 => MultiByte.vfast_perfect_hash9 t.little_endian string
    | 10 => MultiByte.vfast_perfect_hash10 t.little_endian string
    | _ => some vfast__Unknown
  else
    match n with
    | 2 => SingleByte.vfast_perfect_hash2 string
    | 3 => SingleByte.vfast_perfect_hash3 string
    | 4 => SingleByte.vfast_perfect_hash4 string
    | 5 => SingleByte.vfast_perfect_hash5 string
    | 6 => SingleByte.vfast_perfect_hash6 string
    | 8 => SingleByte.vfast_perfect_hash8 string
    | 9 => SingleByte.vfast_perfect_hash9 string
    | 10 => SingleByte.vfast_perfect_hash10 string
    | _ => some vfast__Unknown

/-- The function `vfast_perfect_hash` of the source: the `switch (length)`. -/
def vfast_perfect_hash (t : Target) (string : List Byte) (length : Nat) : Option Int :=
  if length = 2 then matcher t 2 string
  else if length = 3 then matcher t 3 string
  else if length = 4 then matcher t 4 string
  else if length = 5 then matcher t 5 string
  else if length = 6 then matcher t 6 string
  else if length = 8 then matcher t 8 string
  else if length = 9 then matcher t 9 string
  else if length = 10 then matcher t 10 string
  else some vfast__Unknown

/-! ## The keyword set -/

/-- The occupied slots of `wordlist`, as pairs of the byte values of the name
and the code. -/
def keyword_values : List (List Nat × Int) :=
  (wordlist.filter (fun e => e.name ≠ [])).map (fun e => (e.name.map Fin.val, e.code))

/-- The enumerators of `enum PerfectKey` other than `vfast__Unknown`, each with
the keyword it names: the enumerator is `vfast__` followed by the keyword, in
which every `_` is doubled. -/
def PerfectKey_keywords : List (String × Int) :=
  [ ("__global", vfast______global), ("__offsetof", vfast______offsetof),
    ("_likely_", vfast____likely__), ("_unlikely_", vfast____unlikely__),
    ("as", vfast__as), ("asm", vfast__asm), ("assert", vfast__assert),
    ("atomic", vfast__atomic), ("break", vfast__break), ("const", vfast__const),
    ("continue", vfast__continue), ("defer", vfast__defer), ("dump", vfast__dump),
    ("else", vfast__else), ("enum", vfast__enum), ("fn", vfast__fn), ("for", vfast__for),
    ("false", vfast__false), ("go", vfast__go), ("goto", vfast__goto), ("if", vfast__if),
    ("in", vfast__in), ("is", vfast__is), ("import", vfast__import),
    ("interface", vfast__interface), ("isreftype", vfast__isreftype), ("lock", vfast__lock),
    ("mut", vfast__mut), ("match", vfast__match), ("module", vfast__module),
    ("nil", vfast__nil), ("none", vfast__none), ("or", vfast__or), ("pub", vfast__pub),
    ("return", vfast__return), ("rlock", vfast__rlock), ("select", vfast__select),
    ("shared", vfast__shared), ("sizeof", vfast__sizeof), ("static", vfast__static),
    ("struct", vfast__struct), ("true", vfast__true), ("type", vfast__type),
    ("typeof", vfast__typeof), ("union", vfast__union), ("unsafe", vfast__unsafe),
    ("volatile", vfast__volatile) ]

/-- The value of four bytes loaded as one `uint32_t`. -/
def pack32 (le : Bool) (b0 b1 b2 b3 : Byte) : Nat :=
  if le then b0.val + b1.val * 2 ^ 8 + b2.val * 2 ^ 16 + b3.val * 2 ^ 24
  else b0.val * 2 ^ 24 + b1.val * 2 ^ 16 + b2.val * 2 ^ 8 + b3.val

/-- The value of eight bytes loaded as one `uint64_t`. -/
def pack64 (le : Bool) (b0 b1 b2 b3 b4 b5 b6 b7 : Byte) : Nat :=
  if le then
    b0.val + b1.val * 2 ^ 8 + b2.val * 2 ^ 16 + b3.val * 2 ^ 24
      + b4.val * 2 ^ 32 + b5.val * 2 ^ 40 + b6.val * 2 ^ 48 + b7.val * 2 ^ 56
  else
    b0.val * 2 ^ 56 + b1.val * 2 ^ 48 + b2.val * 2 ^ 40 + b3.val * 2 ^ 32
      + b4.val * 2 ^ 24 + b5.val * 2 ^ 16 + b6.val * 2 ^ 8 + b7.val

/-- ASCII case folding of one byte: the letters `A`..`Z` become `a`..`z`,
every other byte is kept. -/
def ascii_tolower (b : Byte) : Byte :=
  if 65 ≤ b.val ∧ b.val ≤ 90 then Fin.ofNat (b.val + 32) else b

/-! ## Reading from a buffer whose first bytes are known -/

theorem load_uu32_cons (le : Bool) (b0 b1 b2 b3 : Byte) (rest : List Byte) :
    load_uu32 le (b0 :: b1 :: b2 :: b3 :: rest) 0 = some (pack32 le b0 b1 b2 b3) := by
  cases le <;> simp [load_uu32, pack32]

theorem load_uu64_cons (le : Bool) (b0 b1 b2 b3 b4 b5 b6 b7 : Byte) (rest : List Byte) :
    load_uu64 le (b0 :: b1 :: b2 :: b3 :: b4 :: b5 :: b6 :: b7 :: rest) 0
      = some (pack64 le b0 b1 b2 b3 b4 b5 b6 b7) := by
  cases le <;> simp [load_uu64, pack64]

theorem char_at_zero (b : Byte) (l : List Byte) : char_at (b :: l) 0 = some b.val := by
  simp [char_at]

theorem char_at_succ (b : Byte) (l : List Byte) (i : Nat) :
    char_at (b :: l) (i + 1) = char_at l i := by
  simp [char_at]

theorem onechar_true (c : Char) (s l : Nat) :
    onechar true c s l = (c.toNat <<< s) % 2 ^ 64 := by
  simp [onechar, char_const]

theorem onechar_false (c : Char) (s l : Nat) :
    onechar false c s l = (c.toNat <<< (l - 8 - s)) % 2 ^ 64 := by
  simp [onechar, char_const]

/-- A little-endian 32-bit value determines its four bytes. -/
theorem pack32_le_eq_iff {n0 n1 n2 n3 : Nat} (l0 : n0 < 256) (l1 : n1 < 256) (l2 : n2 < 256)
    (k : Nat) :
    n0 + n1 * 256 + n2 * 65536 + n3 * 16777216 = k ↔
      n0 = k % 256 ∧ n1 = k / 256 % 256 ∧ n2 = k / 65536 % 256 ∧ n3 = k / 16777216 := by
  omega

/-- A big-endian 32-bit value determines its four bytes. -/
theorem pack32_be_eq_iff {n0 n1 n2 n3 : Nat} (l1 : n1 < 256) (l2 : n2 < 256) (l3 : n3 < 256)
    (k : Nat) :
    n0 * 16777216 + n1 * 65536 + n2 * 256 + n3 = k ↔
      n3 = k % 256 ∧ n2 = k / 256 % 256 ∧ n1 = k / 65536 % 256 ∧ n0 = k / 16777216 := by
  omega

/-- A little-endian 64-bit value determines its eight bytes. -/
theorem pack64_le_eq_iff {n0 n1 n2 n3 n4 n5 n6 n7 : Nat} (l0 : n0 < 256) (l1 : n1 < 256)
    (l2 : n2 < 256) (l3 : n3 < 256) (l4 : n4 < 256) (l5 : n5 < 256) (l6 : n6 < 256) (k : Nat) :
    n0 + n1 * 256 + n2 * 65536 + n3 * 16777216 + n4 * 4294967296 + n5 * 1099511627776
        + n6 * 281474976710656 + n7 * 72057594037927936 = k ↔
      n0 = k % 256 ∧ n1 = k / 256 % 256 ∧ n2 = k / 65536 % 256 ∧ n3 = k / 16777216 % 256 ∧
      n4 = k / 4294967296 % 256 ∧ n5 = k / 1099511627776 % 256 ∧
      n6 = k / 281474976710656 % 256 ∧ n7 = k / 72057594037927936 := by
  omega

/-- A big-endian 64-bit value determines its eight bytes. -/
theorem pack64_be_eq_iff {n0 n1 n2 n3 n4 n5 n6 n7 : Nat} (l1 : n1 < 256) (l2 : n2 < 256)
    (l3 : n3 < 256) (l4 : n4 < 256) (l5 : n5 < 256) (l6 : n6 < 256) (l7 : n7 < 256) (k : Nat) :
    n0 * 72057594037927936 + n1 * 281474976710656 + n2 * 1099511627776 + n3 * 4294967296
        + n4 * 16777216 + n5 * 65536 + n6 * 256 + n7 = k ↔
      n7 = k % 256 ∧ n6 = k / 256 % 256 ∧ n5 = k / 65536 % 256 ∧ n4 = k / 16777216 % 256 ∧
      n3 = k / 4294967296 % 256 ∧ n2 = k / 1099511627776 % 256 ∧
      n1 = k / 281474976710656 % 256 ∧ n0 = k / 72057594037927936 := by
  omega

/-- A conditional with optional results has the result `c` exactly when the
branch that is taken has it. -/
theorem ite_some_iff {p : Prop} [Decidable p] {a b : Option Int} {c : Int} :
    (if p then a else b) = some c ↔ (p ∧ a = some c) ∨ (¬ p ∧ b = some c) := by
  split <;> simp [*]


/-! ## Soundness of the matchers

A matcher that returns a token code has read the bytes of the keyword with
that code. -/

namespace MultiByte

theorem hash2_sound_multi (le : Bool) (b0 b1 : Byte) (rest : List Byte)
    (c : Int) (h : vfast_perfect_hash2 le (b0 :: b1 :: rest) = some c)
    (hc : c ≠ vfast__Unknown) :
    ([b0.val, b1.val], c) ∈ keyword_values := by
  have e0 : char_at (b0 :: b1 :: rest) 0 = some b0.val := by simp [char_at]
  have e1 : char_at (b0 :: b1 :: rest) 1 = some b1.val := by simp [char_at]
  simp only [vfast_perfect_hash2, e0, e1, Option.some_bind] at h
  have l0 := b0.isLt; generalize b0.val = n0 at *
  have l1 := b1.isLt; generalize b1.val = n1 at *
  cases le <;>
  · simp only [onechar_true, onechar_false, Char.reduceToNat, Nat.reduceShiftLeft, Nat.reduceSub,
      Nat.reduceMod, Nat.reducePow, Nat.reduceOr, Nat.zero_or, Nat.reduceDiv, Bool.false_eq_true,
          if_true, if_false] at h
    simp only [ite_some_iff, Option.some.injEq] at h
    casesm* _ ∨ _, _ ∧ _
    all_goals subst c
    all_goals first | exact absurd rfl hc | skip
    all_goals subst_vars
    all_goals decide

theorem hash3_sound_multi (le : Bool) (b0 b1 b2 : Byte) (rest : List Byte)
    (c : Int) (h : vfast_perfect_hash3 le (b0 :: b1 :: b2 :: rest) = some c)
    (hc : c ≠ vfast__Unknown) :
    ([b0.val, b1.val, b2.val], c) ∈ keyword_values := by
  have e0 : char_at (b0 :: b1 :: b2 :: rest) 0 = some b0.val := by simp [char_at]
  have e1 : char_at (b0 :: b1 :: b2 :: rest) 1 = some b1.val := by simp [char_at]
  have e2 : char_at (b0 :: b1 :: b2 :: rest) 2 = some b2.val := by simp [char_at]
  simp only [vfast_perfect_hash3, e0, e1, e2, Option.some_bind] at h
  have l0 := b0.isLt; generalize b0.val = n0 at *
  have l1 := b1.isLt; generalize b1.val = n1 at *
  have l2 := b2.isLt; generalize b2.val = n2 at *
  cases le <;>
  · simp only [onechar_true, onechar_false, Char.reduceToNat, Nat.reduceShiftLeft, Nat.reduceSub,
      Nat.reduceMod, Nat.reducePow, Nat.reduceOr, Nat.zero_or, Nat.reduceDiv, Bool.false_eq_true,
          if_true, if_false] at h
    simp only [ite_some_iff, Option.some.injEq] at h
    casesm* _ ∨ _, _ ∧ _
    all_goals subst c
    all_goals first | exact absurd rfl hc | skip
    all_goals subst_vars
    all_goals decide

theorem hash4_sound_multi (le : Bool) (b0 b1 b2 b3 : Byte) (rest : List Byte)
    (c : Int) (h : vfast_perfect_hash4 le (b0 :: b1 :: b2 :: b3 :: rest) = some c)
    (hc : c ≠ vfast__Unknown) :
    ([b0.val, b1.val, b2.val, b3.val], c) ∈ keyword_values := by
  simp only [vfast_perfect_hash4, Option.some_bind, load_uu32_cons, pack32] at h
  have l0 := b0.isLt; generalize b0.val = n0 at *
  have l1 := b1.isLt; generalize b1.val = n1 at *
  have l2 := b2.isLt; generalize b2.val = n2 at *
  have l3 := b3.isLt; generalize b3.val = n3 at *
  cases le <;>
  · simp only [onechar_true, onechar_false, Char.reduceToNat, Nat.reduceShiftLeft, Nat.reduceSub,
      Nat.reduceMod, Nat.reducePow, Nat.reduceOr, Nat.zero_or, Nat.reduceDiv, Bool.false_eq_true,
          if_true, if_false, pack32_le_eq_iff l0 l1 l2, pack32_be_eq_iff l1 l2 l3] at h
    simp only [ite_some_iff, Option.some.injEq] at h
    casesm* _ ∨ _, _ ∧ _
    all_goals subst c
    all_goals first | exact absurd rfl hc | skip
    all_goals subst_vars
    all_goals decide

theorem hash5_sound_multi (le : Bool) (b0 b1 b2 b3 b4 : Byte) (rest : List Byte)
    (c : Int) (h : vfast_perfect_hash5 le (b0 :: b1 :: b2 :: b3 :: b4 :: rest) = some c)
    (hc : c ≠ vfast__Unknown) :
    ([b0.val, b1.val, b2.val, b3.val, b4.val], c) ∈ keyword_values := by
  have e4 : char_at (b0 :: b1 :: b2 :: b3 :: b4 :: rest) 4 = some b4.val := by simp [char_at]
  simp only [vfast_perfect_hash5, e4, Option.some_bind, load_uu32_cons, pack32] at h
  have l0 := b0.isLt; generalize b0.val = n0 at *
  have l1 := b1.isLt; generalize b1.val = n1 at *
  have l2 := b2.isLt; generalize b2.val = n2 at *
  have l3 := b3.isLt; generalize b3.val = n3 at *
  have l4 := b4.isLt; generalize b4.val = n4 at *
  cases le <;>
  · simp only [onechar_true, onechar_false, Char.reduceToNat, Nat.reduceShiftLeft, Nat.reduceSub,
      Nat.reduceMod, Nat.reducePow, Nat.reduceOr, Nat.zero_or, Nat.reduceDiv, Bool.false_eq_true,
          if_true, if_false, pack32_le_eq_iff l0 l1 l2, pack32_be_eq_iff l1 l2 l3] at h
    simp only [ite_some_iff, Option.some.injEq] at h
    casesm* _ ∨ _, _ ∧ _
    all_goals subst c
    all_goals first | exact absurd rfl hc | skip
    all_goals subst_vars
    all_goals decide

theorem hash6_sound_multi (le : Bool) (b0 b1 b2 b3 b4 b5 : Byte) (rest : List Byte)
    (c : Int) (h : vfast_perfect_hash6 le (b0 :: b1 :: b2 :: b3 :: b4 :: b5 :: rest) = some c)
    (hc : c ≠ vfast__Unknown) :
    ([b0.val, b1.val, b2.val, b3.val, b4.val, b5.val], c) ∈ keyword_values := by
  have e4 : char_at (b0 :: b1 :: b2 :: b3 :: b4 :: b5 :: rest) 4 = some b4.val := by simp [char_at]
  have e5 : char_at (b0 :: b1 :: b2 :: b3 :: b4 :: b5 :: rest) 5 = some b5.val := by simp [char_at]
  simp only [vfast_perfect_hash6, e4, e5, Option.some_bind, load_uu32_cons, pack32] at h
  have l0 := b0.isLt; generalize b0.val = n0 at *
  have l1 := b1.isLt; generalize b1.val = n1 at *
  have l2 := b2.isLt; generalize b2.val = n2 at *
  have l3 := b3.isLt; generalize b3.val = n3 at *
  have l4 := b4.isLt; generalize b4.val = n4 at *
  have l5 := b5.isLt; generalize b5.val = n5 at *
  cases le <;>
  · simp only [onechar_true, onechar_false, Char.reduceToNat, Nat.reduceShiftLeft, Nat.reduceSub,
      Nat.reduceMod, Nat.reducePow, Nat.reduceOr, Nat.zero_or, Nat.reduceDiv, Bool.false_eq_true,
          if_true, if_false, pack32_le_eq_iff l0 l1 l2, pack32_be_eq_iff l1 l2 l3] at h
    simp only [ite_some_iff, Option.some.injEq] at h
    casesm* _ ∨ _, _ ∧ _
    all_goals subst c
    all_goals first | exact absurd rfl hc | skip
    all_goals subst_vars
    all_goals decide

theorem hash8_sound_multi (le : Bool) (b0 b1 b2 b3 b4 b5 b6 b7 : Byte) (rest : List Byte)
    (c : Int) (h : vfast_perfect_hash8 le (b0 :: b1 :: b2 :: b3 :: b4 :: b5 :: b6 :: b7 :: rest) = some c)
    (hc : c ≠ vfast__Unknown) :
    ([b0.val, b1.val, b2.val, b3.val, b4.val, b5.val, b6.val, b7.val], c) ∈ keyword_values := by
  simp only [vfast_perfect_hash8, Option.some_bind, load_uu64_cons, pack64] at h
  have l0 := b0.isLt; generalize b0.val = n0 at *
  have l1 := b1.isLt; generalize b1.val = n1 at *
  have l2 := b2.isLt; generalize b2.val = n2 at *
  have l3 := b3.isLt; generalize b3.val = n3 at *
  have l4 := b4.isLt; generalize b4.val = n4 at *
  have l5 := b5.isLt; generalize b5.val = n5 at *
  have l6 := b6.isLt; generalize b6.val = n6 at *
  have l7 := b7.isLt; generalize b7.val = n7 at *
  cases le <;>
  · simp only [onechar_true, onechar_false, Char.reduceToNat, Nat.reduceShiftLeft, Nat.reduceSub,
      Nat.reduceMod, Nat.reducePow, Nat.reduceOr, Nat.zero_or, Nat.reduceDiv, Bool.false_eq_true,
          if_true, if_false, pack64_le_eq_iff l0 l1 l2 l3 l4 l5 l6,
              pack64_be_eq_iff l1 l2 l3 l4 l5 l6 l7] at h
    simp only [ite_some_iff, Option.some.injEq] at h
    casesm* _ ∨ _, _ ∧ _
    all_goals subst c
    all_goals first | exact absurd rfl hc | skip
    all_goals subst_vars
    all_goals decide

theorem hash9_sound_multi (le : Bool) (b0 b1 b2 b3 b4 b5 b6 b7 b8 : Byte) (rest : List Byte)
    (c : Int) (h : vfast_perfect_hash9 le (b0 :: b1 :: b2 :: b3 :: b4 :: b5 :: b6 :: b7 :: b8 :: rest) = some c)
    (hc : c ≠ vfast__Unknown) :
    ([b0.val, b1.val, b2.val, b3.val, b4.val, b5.val, b6.val, b7.val, b8.val],
        c) ∈ keyword_values := by
  have e8 : char_at (b0 :: b1 :: b2 :: b3 :: b4 :: b5 :: b6 :: b7 :: b8 :: rest) 8 = some b8.val := by simp [char_at]
  simp only [vfast_perfect_hash9, e8, Option.some_bind, load_uu64_cons, pack64] at h
  have l0 := b0.isLt; generalize b0.val = n0 at *
  have l1 := b1.isLt; generalize b1.val = n1 at *
  have l2 := b2.isLt; generalize b2.val = n2 at *
  have l3 := b3.isLt; generalize b3.val = n3 at *
  have l4 := b4.isLt; generalize b4.val = n4 at *
  have l5 := b5.isLt; generalize b5.val = n5 at *
  have l6 := b6.isLt; generalize b6.val = n6 at *
  have l7 := b7.isLt; generalize b7.val = n7 at *
  have l8 := b8.isLt; generalize b8.val = n8 at *
  cases le <;>
  · simp only [onechar_true, onechar_false, Char.reduceToNat, Nat.reduceShiftLeft, Nat.reduceSub,
      Nat.reduceMod, Nat.reducePow, Nat.reduceOr, Nat.zero_or, Nat.reduceDiv, Bool.false_eq_true,
          if_true, if_false, pack64_le_eq_iff l0 l1 l2 l3 l4 l5 l6,
              pack64_be_eq_iff l1 l2 l3 l4 l5 l6 l7] at h
    simp only [ite_some_iff, Option.some.injEq] at h
    casesm* _ ∨ _, _ ∧ _
    all_goals subst c
    all_goals first | exact absurd rfl hc | skip
    all_goals subst_vars
    all_goals decide

theorem hash10_sound_multi (le : Bool) (b0 b1 b2 b3 b4 b5 b6 b7 b8 b9 : Byte) (rest : List Byte)
    (c : Int) (h : vfast_perfect_hash10 le (b0 :: b1 :: b2 :: b3 :: b4 :: b5 :: b6 :: b7 :: b8 :: b9 :: rest) = some c)
    (hc : c ≠ vfast__Unknown) :
    ([b0.val, b1.val, b2.val, b3.val, b4.val, b5.val, b6.val, b7.val, b8.val, b9.val],
        c) ∈ keyword_values := by
  have e8 : char_at (b0 :: b1 :: b2 :: b3 :: b4 :: b5 :: b6 :: b7 :: b8 :: b9 :: rest) 8 = some b8.val := by simp [char_at]
  have e9 : char_at (b0 :: b1 :: b2 :: b3 :: b4 :: b5 :: b6 :: b7 :: b8 :: b9 :: rest) 9 = some b9.val := by simp [char_at]
  simp only [vfast_perfect_hash10, e8, e9, Option.some_bind, load_uu64_cons, pack64] at h
  have l0 := b0.isLt; generalize b0.val = n0 at *
  have l1 := b1.isLt; generalize b1.val = n1 at *
  have l2 := b2.isLt; generalize b2.val = n2 at *
  have l3 := b3.isLt; generalize b3.val = n3 at *
  have l4 := b4.isLt; generalize b4.val = n4 at *
  have l5 := b5.isLt; generalize b5.val = n5 at *
  have l6 := b6.isLt; generalize b6.val = n6 at *
  have l7 := b7.isLt; generalize b7.val = n7 at *
  have l8 := b8.isLt; generalize b8.val = n8 at *
  have l9 := b9.isLt; generalize b9.val = n9 at *
  cases le <;>
  · simp only [onechar_true, onechar_false, Char.reduceToNat, Nat.reduceShiftLeft, Nat.reduceSub,
      Nat.reduceMod, Nat.reducePow, Nat.reduceOr, Nat.zero_or, Nat.reduceDiv, Bool.false_eq_true,
          if_true, if_false, pack64_le_eq_iff l0 l1 l2 l3 l4 l5 l6,
              pack64_be_eq_iff l1 l2 l3 l4 l5 l6 l7] at h
    simp only [ite_some_iff, Option.some.injEq] at h
    casesm* _ ∨ _, _ ∧ _
    all_goals subst c
    all_goals first | exact absurd rfl hc | skip
    all_goals subst_vars
    all_goals decide

end MultiByte

namespace SingleByte

theorem hash2_sound_single (b0 b1 : Byte) (rest : List Byte)
    (c : Int) (h : vfast_perfect_hash2 (b0 :: b1 :: rest) = some c)
    (hc : c ≠ vfast__Unknown) :
    ([b0.val, b1.val], c) ∈ keyword_values := by
  have e0 : char_at (b0 :: b1 :: rest) 0 = some b0.val := by simp [char_at]
  have e1 : char_at (b0 :: b1 :: rest) 1 = some b1.val := by simp [char_at]
  simp only [vfast_perfect_hash2, e0, e1, Option.some_bind] at h
  have l0 := b0.isLt; generalize b0.val = n0 at *
  have l1 := b1.isLt; generalize b1.val = n1 at *
  simp only [char_const, Char.reduceToNat] at h
  simp only [ite_some_iff, Option.some.injEq] at h
  casesm* _ ∨ _, _ ∧ _
  all_goals subst c
  all_goals first | exact absurd rfl hc | skip
  all_goals subst_vars
  all_goals decide

theorem hash3_sound_single (b0 b1 b2 : Byte) (rest : List Byte)
    (c : Int) (h : vfast_perfect_hash3 (b0 :: b1 :: b2 :: rest) = some c)
    (hc : c ≠ vfast__Unknown) :
    ([b0.val, b1.val, b2.val], c) ∈ keyword_values := by
  have e0 : char_at (b0 :: b1 :: b2 :: rest) 0 = some b0.val := by simp [char_at]
  have e1 : char_at (b0 :: b1 :: b2 :: rest) 1 = some b1.val := by simp [char_at]
  have e2 : char_at (b0 :: b1 :: b2 :: rest) 2 = some b2.val := by simp [char_at]
  simp only [vfast_perfect_hash3, e0, e1, e2, Option.some_bind] at h
  have l0 := b0.isLt; generalize b0.val = n0 at *
  have l1 := b1.isLt; generalize b1.val = n1 at *
  have l2 := b2.isLt; generalize b2.val = n2 at *
  simp only [char_const, Char.reduceToNat] at h
  simp only [ite_some_iff, Option.some.injEq] at h
  casesm* _ ∨ _, _ ∧ _
  all_goals subst c
  all_goals first | exact absurd rfl hc | skip
  all_goals subst_vars
  all_goals decide

theorem hash4_sound_single (b0 b1 b2 b3 : Byte) (rest : List Byte)
    (c : Int) (h : vfast_perfect_hash4 (b0 :: b1 :: b2 :: b3 :: rest) = some c)
    (hc : c ≠ vfast__Unknown) :
    ([b0.val, b1.val, b2.val, b3.val], c) ∈ keyword_values := by
  have e0 : char_at (b0 :: b1 :: b2 :: b3 :: rest) 0 = some b0.val := by simp [char_at]
  have e1 : char_at (b0 :: b1 :: b2 :: b3 :: rest) 1 = some b1.val := by simp [char_at]
  have e2 : char_at (b0 :: b1 :: b2 :: b3 :: rest) 2 = some b2.val := by simp [char_at]
  have e3 : char_at (b0 :: b1 :: b2 :: b3 :: rest) 3 = some b3.val := by simp [char_at]
  simp only [vfast_perfect_hash4, e0, e1, e2, e3, Option.some_bind] at h
  have l0 := b0.isLt; generalize b0.val = n0 at *
  have l1 := b1.isLt; generalize b1.val = n1 at *
  have l2 := b2.isLt; generalize b2.val = n2 at *
  have l3 := b3.isLt; generalize b3.val = n3 at *
  simp only [char_const, Char.reduceToNat] at h
  simp only [ite_some_iff, Option.some.injEq] at h
  casesm* _ ∨ _, _ ∧ _
  all_goals subst c
  all_goals first | exact absurd rfl hc | skip
  all_goals subst_vars
  all_goals decide

theorem hash5_sound_single (b0 b1 b2 b3 b4 : Byte) (rest : List Byte)
    (c : Int) (h : vfast_perfect_hash5 (b0 :: b1 :: b2 :: b3 :: b4 :: rest) = some c)
    (hc : c ≠ vfast__Unknown) :
    ([b0.val, b1.val, b2.val, b3.val, b4.val], c) ∈ keyword_values := by
  have e0 : char_at (b0 :: b1 :: b2 :: b3 :: b4 :: rest) 0 = some b0.val := by simp [char_at]
  have e1 : char_at (b0 :: b1 :: b2 :: b3 :: b4 :: rest) 1 = some b1.val := by simp [char_at]
  have e2 : char_at (b0 :: b1 :: b2 :: b3 :: b4 :: rest) 2 = some b2.val := by simp [char_at]
  have e3 : char_at (b0 :: b1 :: b2 :: b3 :: b4 :: rest) 3 = some b3.val := by simp [char_at]
  have e4 : char_at (b0 :: b1 :: b2 :: b3 :: b4 :: rest) 4 = some b4.val := by simp [char_at]
  simp only [vfast_perfect_hash5, e0, e1, e2, e3, e4, Option.some_bind] at h
  have l0 := b0.isLt; generalize b0.val = n0 at *
  have l1 := b1.isLt; generalize b1.val = n1 at *
  have l2 := b2.isLt; generalize b2.val = n2 at *
  have l3 := b3.isLt; generalize b3.val = n3 at *
  have l4 := b4.isLt; generalize b4.val = n4 at *
  simp only [char_const, Char.reduceToNat] at h
  simp only [ite_some_iff, Option.some.injEq] at h
  casesm* _ ∨ _, _ ∧ _
  all_goals subst c
  all_goals first | exact absurd rfl hc | skip
  all_goals subst_vars
  all_goals decide

theorem hash6_sound_single (b0 b1 b2 b3 b4 b5 : Byte) (rest : List Byte)
    (c : Int) (h : vfast_perfect_hash6 (b0 :: b1 :: b2 :: b3 :: b4 :: b5 :: rest) = some c)
    (hc : c ≠ vfast__Unknown) :
    ([b0.val, b1.val, b2.val, b3.val, b4.val, b5.val], c) ∈ keyword_values := by
  have e0 : char_at (b0 :: b1 :: b2 :: b3 :: b4 :: b5 :: rest) 0 = some b0.val := by simp [char_at]
  have e1 : char_at (b0 :: b1 :: b2 :: b3 :: b4 :: b5 :: rest) 1 = some b1.val := by simp [char_at]
  have e2 : char_at (b0 :: b1 :: b2 :: b3 :: b4 :: b5 :: rest) 2 = some b2.val := by simp [char_at]
  have e3 : char_at (b0 :: b1 :: b2 :: b3 :: b4 :: b5 :: rest) 3 = some b3.val := by simp [char_at]
  have e4 : char_at (b0 :: b1 :: b2 :: b3 :: b4 :: b5 :: rest) 4 = some b4.val := by simp [char_at]
  have e5 : char_at (b0 :: b1 :: b2 :: b3 :: b4 :: b5 :: rest) 5 = some b5.val := by simp [char_at]
  simp only [vfast_perfect_hash6, e0, e1, e2, e3, e4, e5, Option.some_bind] at h
  have l0 := b0.isLt; generalize b0.val = n0 at *
  have l1 := b1.isLt; generalize b1.val = n1 at *
  have l2 := b2.isLt; generalize b2.val = n2 at *
  have l3 := b3.isLt; generalize b3.val = n3 at *
  have l4 := b4.isLt; generalize b4.val = n4 at *
  have l5 := b5.isLt; generalize b5.val = n5 at *
  simp only [char_const, Char.reduceToNat] at h
  simp only [ite_some_iff, Option.some.injEq] at h
  casesm* _ ∨ _, _ ∧ _
  all_goals subst c
  all_goals first | exact absurd rfl hc | skip
  all_goals subst_vars
  all_goals decide

theorem hash8_sound_single (b0 b1 b2 b3 b4 b5 b6 b7 : Byte) (rest : List Byte)
    (c : Int) (h : vfast_perfect_hash8 (b0 :: b1 :: b2 :: b3 :: b4 :: b5 :: b6 :: b7 :: rest) = some c)
    (hc : c ≠ vfast__Unknown) :
    ([b0.val, b1.val, b2.val, b3.val, b4.val, b5.val, b6.val, b7.val], c) ∈ keyword_values := by
  have e0 : char_at (b0 :: b1 :: b2 :: b3 :: b4 :: b5 :: b6 :: b7 :: rest) 0 = some b0.val := by simp [char_at]
  have e1 : char_at (b0 :: b1 :: b2 :: b3 :: b4 :: b5 :: b6 :: b7 :: rest) 1 = some b1.val := by simp [char_at]
  have e2 : char_at (b0 :: b1 :: b2 :: b3 :: b4 :: b5 :: b6 :: b7 :: rest) 2 = some b2.val := by simp [char_at]
  have e3 : char_at (b0 :: b1 :: b2 :: b3 :: b4 :: b5 :: b6 :: b7 :: rest) 3 = some b3.val := by simp [char_at]
  have e4 : char_at (b0 :: b1 :: b2 :: b3 :: b4 :: b5 :: b6 :: b7 :: rest) 4 = some b4.val := by simp [char_at]
  have e5 : char_at (b0 :: b1 :: b2 :: b3 :: b4 :: b5 :: b6 :: b7 :: rest) 5 = some b5.val := by simp [char_at]
  have e6 : char_at (b0 :: b1 :: b2 :: b3 :: b4 :: b5 :: b6 :: b7 :: rest) 6 = some b6.val := by simp [char_at]
  have e7 : char_at (b0 :: b1 :: b2 :: b3 :: b4 :: b5 :: b6 :: b7 :: rest) 7 = some b7.val := by simp [char_at]
  simp only [vfast_perfect_hash8, e0, e1, e2, e3, e4, e5, e6, e7, Option.some_bind] at h
  have l0 := b0.isLt; generalize b0.val = n0 at *
  have l1 := b1.isLt; generalize b1.val = n1 at *
  have l2 := b2.isLt; generalize b2.val = n2 at *
  have l3 := b3.isLt; generalize b3.val = n3 at *
  have l4 := b4.isLt; generalize b4.val = n4 at *
  have l5 := b5.isLt; generalize b5.val = n5 at *
  have l6 := b6.isLt; generalize b6.val = n6 at *
  have l7 := b7.isLt; generalize b7.val = n7 at *
  simp only [char_const, Char.reduceToNat] at h
  simp only [ite_some_iff, Option.some.injEq] at h
  casesm* _ ∨ _, _ ∧ _
  all_goals subst c
  all_goals first | exact absurd rfl hc | skip
  all_goals subst_vars
  all_goals decide

theorem hash9_sound_single (b0 b1 b2 b3 b4 b5 b6 b7 b8 : Byte) (rest : List Byte)
    (c : Int) (h : vfast_perfect_hash9 (b0 :: b1 :: b2 :: b3 :: b4 :: b5 :: b6 :: b7 :: b8 :: rest) = some c)
    (hc : c ≠ vfast__Unknown) :
    ([b0.val, b1.val, b2.val, b3.val, b4.val, b5.val, b6.val, b7.val, b8.val],
        c) ∈ keyword_values := by
  have e0 : char_at (b0 :: b1 :: b2 :: b3 :: b4 :: b5 :: b6 :: b7 :: b8 :: rest) 0 = some b0.val := by simp [char_at]
  have e1 : char_at (b0 :: b1 :: b2 :: b3 :: b4 :: b5 :: b6 :: b7 :: b8 :: rest) 1 = some b1.val := by simp [char_at]
  have e2 : char_at (b0 :: b1 :: b2 :: b3 :: b4 :: b5 :: b6 :: b7 :: b8 :: rest) 2 = some b2.val := by simp [char_at]
  have e3 : char_at (b0 :: b1 :: b2 :: b3 :: b4 :: b5 :: b6 :: b7 :: b8 :: rest) 3 = some b3.val := by simp [char_at]
  have e4 : char_at (b0 :: b1 :: b2 :: b3 :: b4 :: b5 :: b6 :: b7 :: b8 :: rest) 4 = some b4.val := by simp [char_at]
  have e5 : char_at (b0 :: b1 :: b2 :: b3 :: b4 :: b5 :: b6 :: b7 :: b8 :: rest) 5 = some b5.val := by simp [char_at]
  have e6 : char_at (b0 :: b1 :: b2 :: b3 :: b4 :: b5 :: b6 :: b7 :: b8 :: rest) 6 = some b6.val := by simp [char_at]
  have e7 : char_at (b0 :: b1 :: b2 :: b3 :: b4 :: b5 :: b6 :: b7 :: b8 :: rest) 7 = some b7.val := by simp [char_at]
  have e8 : char_at (b0 :: b1 :: b2 :: b3 :: b4 :: b5 :: b6 :: b7 :: b8 :: rest) 8 = some b8.val := by simp [char_at]
  simp only [vfast_perfect_hash9, e0, e1, e2, e3, e4, e5, e6, e7, e8, Option.some_bind] at h
  have l0 := b0.isLt; generalize b0.val = n0 at *
  have l1 := b1.isLt; generalize b1.val = n1 at *
  have l2 := b2.isLt; generalize b2.val = n2 at *
  have l3 := b3.isLt; generalize b3.val = n3 at *
  have l4 := b4.isLt; generalize b4.val = n4 at *
  have l5 := b5.isLt; generalize b5.val = n5 at *
  have l6 := b6.isLt; generalize b6.val = n6 at *
  have l7 := b7.isLt; generalize b7.val = n7 at *
  have l8 := b8.isLt; generalize b8.val = n8 at *
  simp only [char_const, Char.reduceToNat] at h
  simp only [ite_some_iff, Option.some.injEq] at h
  casesm* _ ∨ _, _ ∧ _
  all_goals subst c
  all_goals first | exact absurd rfl hc | skip
  all_goals subst_vars
  all_goals decide

theorem hash10_sound_single (b0 b1 b2 b3 b4 b5 b6 b7 b8 b9 : Byte) (rest : List Byte)
    (c : Int) (h : vfast_perfect_hash10 (b0 :: b1 :: b2 :: b3 :: b4 :: b5 :: b6 :: b7 :: b8 :: b9 :: rest) = some c)
    (hc : c ≠ vfast__Unknown) :
    ([b0.val, b1.val, b2.val, b3.val, b4.val, b5.val, b6.val, b7.val, b8.val, b9.val],
        c) ∈ keyword_values := by
  have e0 : char_at (b0 :: b1 :: b2 :: b3 :: b4 :: b5 :: b6 :: b7 :: b8 :: b9 :: rest) 0 = some b0.val := by simp [char_at]
  have e1 : char_at (b0 :: b1 :: b2 :: b3 :: b4 :: b5 :: b6 :: b7 :: b8 :: b9 :: rest) 1 = some b1.val := by simp [char_at]
  have e2 : char_at (b0 :: b1 :: b2 :: b3 :: b4 :: b5 :: b6 :: b7 :: b8 :: b9 :: rest) 2 = some b2.val := by simp [char_at]
  have e3 : char_at (b0 :: b1 :: b2 :: b3 :: b4 :: b5 :: b6 :: b7 :: b8 :: b9 :: rest) 3 = some b3.val := by simp [char_at]
  have e4 : char_at (b0 :: b1 :: b2 :: b3 :: b4 :: b5 :: b6 :: b7 :: b8 :: b9 :: rest) 4 = some b4.val := by simp [char_at]
  have e5 : char_at (b0 :: b1 :: b2 :: b3 :: b4 :: b5 :: b6 :: b7 :: b8 :: b9 :: rest) 5 = some b5.val := by simp [char_at]
  have e6 : char_at (b0 :: b1 :: b2 :: b3 :: b4 :: b5 :: b6 :: b7 :: b8 :: b9 :: rest) 6 = some b6.val := by simp [char_at]
  have e7 : char_at (b0 :: b1 :: b2 :: b3 :: b4 :: b5 :: b6 :: b7 :: b8 :: b9 :: rest) 7 = some b7.val := by simp [char_at]
  have e8 : char_at (b0 :: b1 :: b2 :: b3 :: b4 :: b5 :: b6 :: b7 :: b8 :: b9 :: rest) 8 = some b8.val := by simp [char_at]
  have e9 : char_at (b0 :: b1 :: b2 :: b3 :: b4 :: b5 :: b6 :: b7 :: b8 :: b9 :: rest) 9 = some b9.val := by simp [char_at]
  simp only [vfast_perfect_hash10, e0, e1, e2, e3, e4, e5, e6, e7, e8, e9, Option.some_bind] at h
  have l0 := b0.isLt; generalize b0.val = n0 at *
  have l1 := b1.isLt; generalize b1.val = n1 at *
  have l2 := b2.isLt; generalize b2.val = n2 at *
  have l3 := b3.isLt; generalize b3.val = n3 at *
  have l4 := b4.isLt; generalize b4.val = n4 at *
  have l5 := b5.isLt; generalize b5.val = n5 at *
  have l6 := b6.isLt; generalize b6.val = n6 at *
  have l7 := b7.isLt; generalize b7.val = n7 at *
  have l8 := b8.isLt; generalize b8.val = n8 at *
  have l9 := b9.isLt; generalize b9.val = n9 at *
  simp only [char_const, Char.reduceToNat] at h
  simp only [ite_some_iff, Option.some.injEq] at h
  casesm* _ ∨ _, _ ∧ _
  all_goals subst c
  all_goals first | exact absurd rfl hc | skip
  all_goals subst_vars
  all_goals decide

end SingleByte

/-! ## The matchers read their own bytes only, and always return -/

namespace MultiByte

theorem hash2_cons_multi (le : Bool) (b0 b1 : Byte) (rest : List Byte) :
    vfast_perfect_hash2 le (b0 :: b1 :: rest) = vfast_perfect_hash2 le [b0, b1] := by
  simp [vfast_perfect_hash2, char_at]

theorem hash2_total_multi (le : Bool) (b0 b1 : Byte) (rest : List Byte) :
    (vfast_perfect_hash2 le (b0 :: b1 :: rest)).isSome = true := by
  have e0 : char_at (b0 :: b1 :: rest) 0 = some b0.val := by simp [char_at]
  have e1 : char_at (b0 :: b1 :: rest) 1 = some b1.val := by simp [char_at]
  simp only [vfast_perfect_hash2, e0, e1, Option.some_bind, apply_ite Option.isSome,
      Option.isSome_some, ite_self]

theorem hash3_cons_multi (le : Bool) (b0 b1 b2 : Byte) (rest : List Byte) :
    vfast_perfect_hash3 le (b0 :: b1 :: b2 :: rest) = vfast_perfect_hash3 le [b0, b1, b2] := by
  simp [vfast_perfect_hash3, char_at]

theorem hash3_total_multi (le : Bool) (b0 b1 b2 : Byte) (rest : List Byte) :
    (vfast_perfect_hash3 le (b0 :: b1 :: b2 :: rest)).isSome = true := by
  have e0 : char_at (b0 :: b1 :: b2 :: rest) 0 = some b0.val := by simp [char_at]
  have e1 : char_at (b0 :: b1 :: b2 :: rest) 1 = some b1.val := by simp [char_at]
  have e2 : char_at (b0 :: b1 :: b2 :: rest) 2 = some b2.val := by simp [char_at]
  simp only [vfast_perfect_hash3, e0, e1, e2, Option.some_bind, apply_ite Option.isSome,
      Option.isSome_some, ite_self]

theorem hash4_cons_multi (le : Bool) (b0 b1 b2 b3 : Byte) (rest : List Byte) :
    vfast_perfect_hash4 le (b0 :: b1 :: b2 :: b3 :: rest) = vfast_perfect_hash4 le [b0, b1, b2,
        b3] := by
  simp [vfast_perfect_hash4, char_at, load_uu32]

theorem hash4_total_multi (le : Bool) (b0 b1 b2 b3 : Byte) (rest : List Byte) :
    (vfast_perfect_hash4 le (b0 :: b1 :: b2 :: b3 :: rest)).isSome = true := by
  simp only [vfast_perfect_hash4, Option.some_bind, load_uu32_cons, apply_ite Option.isSome,
      Option.isSome_some, ite_self]

theorem hash5_cons_multi (le : Bool) (b0 b1 b2 b3 b4 : Byte) (rest : List Byte) :
    vfast_perfect_hash5 le (b0 :: b1 :: b2 :: b3 :: b4 :: rest) = vfast_perfect_hash5 le [b0, b1,
        b2, b3, b4] := by
  simp [vfast_perfect_hash5, char_at, load_uu32]

theorem hash5_total_multi (le : Bool) (b0 b1 b2 b3 b4 : Byte) (rest : List Byte) :
    (vfast_perfect_hash5 le (b0 :: b1 :: b2 :: b3 :: b4 :: rest)).isSome = true := by
  have e4 : char_at (b0 :: b1 :: b2 :: b3 :: b4 :: rest) 4 = some b4.val := by simp [char_at]
  simp only [vfast_perfect_hash5, e4, Option.some_bind, load_uu32_cons, apply_ite Option.isSome,
      Option.isSome_some, ite_self]

theorem hash6_cons_multi (le : Bool) (b0 b1 b2 b3 b4 b5 : Byte) (rest : List Byte) :
    vfast_perfect_hash6 le (b0 :: b1 :: b2 :: b3 :: b4 :: b5 :: rest) = vfast_perfect_hash6 le [b0, b1, b2, b3, b4, b5] := by
  simp [vfast_perfect_hash6, char_at, load_uu32]

theorem hash6_total_multi (le : Bool) (b0 b1 b2 b3 b4 b5 : Byte) (rest : List Byte) :
    (vfast_perfect_hash6 le (b0 :: b1 :: b2 :: b3 :: b4 :: b5 :: rest)).isSome = true := by
  have e4 : char_at (b0 :: b1 :: b2 :: b3 :: b4 :: b5 :: rest) 4 = some b4.val := by simp [char_at]
  have e5 : char_at (b0 :: b1 :: b2 :: b3 :: b4 :: b5 :: rest) 5 = some b5.val := by simp [char_at]
  simp only [vfast_perfect_hash6, e4, e5, Option.some_bind, load_uu32_cons,
      apply_ite Option.isSome, Option.isSome_some, ite_self]

theorem hash8_cons_multi (le : Bool) (b0 b1 b2 b3 b4 b5 b6 b7 : Byte) (rest : List Byte) :
    vfast_perfect_hash8 le (b0 :: b1 :: b2 :: b3 :: b4 :: b5 :: b6 :: b7 :: rest) = vfast_perfect_hash8 le [b0, b1, b2, b3, b4, b5, b6, b7] := by
  simp [vfast_perfect_hash8, char_at, load_uu64]

theorem hash8_total_multi (le : Bool) (b0 b1 b2 b3 b4 b5 b6 b7 : Byte) (rest : List Byte) :
    (vfast_perfect_hash8 le (b0 :: b1 :: b2 :: b3 :: b4 :: b5 :: b6 :: b7 :: rest)).isSome = true := by
  simp only [vfast_perfect_hash8, Option.some_bind, load_uu64_cons, apply_ite Option.isSome,
      Option.isSome_some, ite_self]

theorem hash9_cons_multi (le : Bool) (b0 b1 b2 b3 b4 b5 b6 b7 b8 : Byte) (rest : List Byte) :
    vfast_perfect_hash9 le (b0 :: b1 :: b2 :: b3 :: b4 :: b5 :: b6 :: b7 :: b8 :: rest) = vfast_perfect_hash9 le [b0, b1, b2, b3, b4, b5, b6, b7, b8] := by
  simp [vfast_perfect_hash9, char_at, load_uu64]

theorem hash9_total_multi (le : Bool) (b0 b1 b2 b3 b4 b5 b6 b7 b8 : Byte) (rest : List Byte) :
    (vfast_perfect_hash9 le (b0 :: b1 :: b2 :: b3 :: b4 :: b5 :: b6 :: b7 :: b8 :: rest)).isSome = true := by
  have e8 : char_at (b0 :: b1 :: b2 :: b3 :: b4 :: b5 :: b6 :: b7 :: b8 :: rest) 8 = some b8.val := by simp [char_at]
  simp only [vfast_perfect_hash9, e8, Option.some_bind, load_uu64_cons, apply_ite Option.isSome,
      Option.isSome_some, ite_self]

theorem hash10_cons_multi (le : Bool) (b0 b1 b2 b3 b4 b5 b6 b7 b8 b9 : Byte) (rest : List Byte) :
    vfast_perfect_hash10 le (b0 :: b1 :: b2 :: b3 :: b4 :: b5 :: b6 :: b7 :: b8 :: b9 :: rest) = vfast_perfect_hash10 le [b0, b1, b2, b3, b4, b5, b6, b7, b8, b9] := by
  simp [vfast_perfect_hash10, char_at, load_uu64]

theorem hash10_total_multi (le : Bool) (b0 b1 b2 b3 b4 b5 b6 b7 b8 b9 : Byte) (rest : List Byte) :
    (vfast_perfect_hash10 le (b0 :: b1 :: b2 :: b3 :: b4 :: b5 :: b6 :: b7 :: b8 :: b9 :: rest)).isSome = true := by
  have e8 : char_at (b0 :: b1 :: b2 :: b3 :: b4 :: b5 :: b6 :: b7 :: b8 :: b9 :: rest) 8 = some b8.val := by simp [char_at]
  have e9 : char_at (b0 :: b1 :: b2 :: b3 :: b4 :: b5 :: b6 :: b7 :: b8 :: b9 :: rest) 9 = some b9.val := by simp [char_at]
  simp only [vfast_perfect_hash10, e8, e9, Option.some_bind, load_uu64_cons,
      apply_ite Option.isSome, Option.isSome_some, ite_self]

end MultiByte

namespace SingleByte

theorem hash2_cons_single (b0 b1 : Byte) (rest : List Byte) :
    vfast_perfect_hash2 (b0 :: b1 :: rest) = vfast_perfect_hash2 [b0, b1] := by
  simp [vfast_perfect_hash2, char_at]

theorem hash2_total_single (b0 b1 : Byte) (rest : List Byte) :
    (vfast_perfect_hash2 (b0 :: b1 :: rest)).isSome = true := by
  have e0 : char_at (b0 :: b1 :: rest) 0 = some b0.val := by simp [char_at]
  have e1 : char_at (b0 :: b1 :: rest) 1 = some b1.val := by simp [char_at]
  simp only [vfast_perfect_hash2, e0, e1, Option.some_bind, apply_ite Option.isSome,
      Option.isSome_some, ite_self]

theorem hash3_cons_single (b0 b1 b2 : Byte) (rest : List Byte) :
    vfast_perfect_hash3 (b0 :: b1 :: b2 :: rest) = vfast_perfect_hash3 [b0, b1, b2] := by
  simp [vfast_perfect_hash3, char_at]

theorem hash3_total_single (b0 b1 b2 : Byte) (rest : List Byte) :
    (vfast_perfect_hash3 (b0 :: b1 :: b2 :: rest)).isSome = true := by
  have e0 : char_at (b0 :: b1 :: b2 :: rest) 0 = some b0.val := by simp [char_at]
  have e1 : char_at (b0 :: b1 :: b2 :: rest) 1 = some b1.val := by simp [char_at]
  have e2 : char_at (b0 :: b1 :: b2 :: rest) 2 = some b2.val := by simp [char_at]
  simp only [vfast_perfect_hash3, e0, e1, e2, Option.some_bind, apply_ite Option.isSome,
      Option.isSome_some, ite_self]

theorem hash4_cons_single (b0 b1 b2 b3 : Byte) (rest : List Byte) :
    vfast_perfect_hash4 (b0 :: b1 :: b2 :: b3 :: rest) = vfast_perfect_hash4 [b0, b1, b2, b3] := by
  simp [vfast_perfect_hash4, char_at]

theorem hash4_total_single (b0 b1 b2 b3 : Byte) (rest : List Byte) :
    (vfast_perfect_hash4 (b0 :: b1 :: b2 :: b3 :: rest)).isSome = true := by
  have e0 : char_at (b0 :: b1 :: b2 :: b3 :: rest) 0 = some b0.val := by simp [char_at]
  have e1 : char_at (b0 :: b1 :: b2 :: b3 :: rest) 1 = some b1.val := by simp [char_at]
  have e2 : char_at (b0 :: b1 :: b2 :: b3 :: rest) 2 = some b2.val := by simp [char_at]
  have e3 : char_at (b0 :: b1 :: b2 :: b3 :: rest) 3 = some b3.val := by simp [char_at]
  simp only [vfast_perfect_hash4, e0, e1, e2, e3, Option.some_bind, apply_ite Option.isSome,
      Option.isSome_some, ite_self]

theorem hash5_cons_single (b0 b1 b2 b3 b4 : Byte) (rest : List Byte) :
    vfast_perfect_hash5 (b0 :: b1 :: b2 :: b3 :: b4 :: rest) = vfast_perfect_hash5 [b0, b1, b2,
        b3, b4] := by
  simp [vfast_perfect_hash5, char_at]

theorem hash5_total_single (b0 b1 b2 b3 b4 : Byte) (rest : List Byte) :
    (vfast_perfect_hash5 (b0 :: b1 :: b2 :: b3 :: b4 :: rest)).isSome = true := by
  have e0 : char_at (b0 :: b1 :: b2 :: b3 :: b4 :: rest) 0 = some b0.val := by simp [char_at]
  have e1 : char_at (b0 :: b1 :: b2 :: b3 :: b4 :: rest) 1 = some b1.val := by simp [char_at]
  have e2 : char_at (b0 :: b1 :: b2 :: b3 :: b4 :: rest) 2 = some b2.val := by simp [char_at]
  have e3 : char_at (b0 :: b1 :: b2 :: b3 :: b4 :: rest) 3 = some b3.val := by simp [char_at]
  have e4 : char_at (b0 :: b1 :: b2 :: b3 :: b4 :: rest) 4 = some b4.val := by simp [char_at]
  simp only [vfast_perfect_hash5, e0, e1, e2, e3, e4, Option.some_bind, apply_ite Option.isSome,
      Option.isSome_some, ite_self]

theorem hash6_cons_single (b0 b1 b2 b3 b4 b5 : Byte) (rest : List Byte) :
    vfast_perfect_hash6 (b0 :: b1 :: b2 :: b3 :: b4 :: b5 :: rest) = vfast_perfect_hash6 [b0, b1,
        b2, b3, b4, b5] := by
  simp [vfast_perfect_hash6, char_at]

theorem hash6_total_single (b0 b1 b2 b3 b4 b5 : Byte) (rest : List Byte) :
    (vfast_perfect_hash6 (b0 :: b1 :: b2 :: b3 :: b4 :: b5 :: rest)).isSome = true := by
  have e0 : char_at (b0 :: b1 :: b2 :: b3 :: b4 :: b5 :: rest) 0 = some b0.val := by simp [char_at]
  have e1 : char_at (b0 :: b1 :: b2 :: b3 :: b4 :: b5 :: rest) 1 = some b1.val := by simp [char_at]
  have e2 : char_at (b0 :: b1 :: b2 :: b3 :: b4 :: b5 :: rest) 2 = some b2.val := by simp [char_at]
  have e3 : char_at (b0 :: b1 :: b2 :: b3 :: b4 :: b5 :: rest) 3 = some b3.val := by simp [char_at]
  have e4 : char_at (b0 :: b1 :: b2 :: b3 :: b4 :: b5 :: rest) 4 = some b4.val := by simp [char_at]
  have e5 : char_at (b0 :: b1 :: b2 :: b3 :: b4 :: b5 :: rest) 5 = some b5.val := by simp [char_at]
  simp only [vfast_perfect_hash6, e0, e1, e2, e3, e4, e5, Option.some_bind,
      apply_ite Option.isSome, Option.isSome_some, ite_self]

theorem hash8_cons_single (b0 b1 b2 b3 b4 b5 b6 b7 : Byte) (rest : List Byte) :
    vfast_perfect_hash8 (b0 :: b1 :: b2 :: b3 :: b4 :: b5 :: b6 :: b7 :: rest) = vfast_perfect_hash8 [b0, b1, b2, b3, b4, b5, b6, b7] := by
  simp [vfast_perfect_hash8, char_at]

theorem hash8_total_single (b0 b1 b2 b3 b4 b5 b6 b7 : Byte) (rest : List Byte) :
    (vfast_perfect_hash8 (b0 :: b1 :: b2 :: b3 :: b4 :: b5 :: b6 :: b7 :: rest)).isSome = true := by
  have e0 : char_at (b0 :: b1 :: b2 :: b3 :: b4 :: b5 :: b6 :: b7 :: rest) 0 = some b0.val := by simp [char_at]
  have e1 : char_at (b0 :: b1 :: b2 :: b3 :: b4 :: b5 :: b6 :: b7 :: rest) 1 = some b1.val := by simp [char_at]
  have e2 : char_at (b0 :: b1 :: b2 :: b3 :: b4 :: b5 :: b6 :: b7 :: rest) 2 = some b2.val := by simp [char_at]
  have e3 : char_at (b0 :: b1 :: b2 :: b3 :: b4 :: b5 :: b6 :: b7 :: rest) 3 = some b3.val := by simp [char_at]
  have e4 : char_at (b0 :: b1 :: b2 :: b3 :: b4 :: b5 :: b6 :: b7 :: rest) 4 = some b4.val := by simp [char_at]
  have e5 : char_at (b0 :: b1 :: b2 :: b3 :: b4 :: b5 :: b6 :: b7 :: rest) 5 = some b5.val := by simp [char_at]
  have e6 : char_at (b0 :: b1 :: b2 :: b3 :: b4 :: b5 :: b6 :: b7 :: rest) 6 = some b6.val := by simp [char_at]
  have e7 : char_at (b0 :: b1 :: b2 :: b3 :: b4 :: b5 :: b6 :: b7 :: rest) 7 = some b7.val := by simp [char_at]
  simp only [vfast_perfect_hash8, e0, e1, e2, e3, e4, e5, e6, e7, Option.some_bind,
      apply_ite Option.isSome, Option.isSome_some, ite_self]

theorem hash9_cons_single (b0 b1 b2 b3 b4 b5 b6 b7 b8 : Byte) (rest : List Byte) :
    vfast_perfect_hash9 (b0 :: b1 :: b2 :: b3 :: b4 :: b5 :: b6 :: b7 :: b8 :: rest) = vfast_perfect_hash9 [b0, b1, b2, b3, b4, b5, b6, b7, b8] := by
  simp [vfast_perfect_hash9, char_at]

theorem hash9_total_single (b0 b1 b2 b3 b4 b5 b6 b7 b8 : Byte) (rest : List Byte) :
    (vfast_perfect_hash9 (b0 :: b1 :: b2 :: b3 :: b4 :: b5 :: b6 :: b7 :: b8 :: rest)).isSome = true := by
  have e0 : char_at (b0 :: b1 :: b2 :: b3 :: b4 :: b5 :: b6 :: b7 :: b8 :: rest) 0 = some b0.val := by simp [char_at]
  have e1 : char_at (b0 :: b1 :: b2 :: b3 :: b4 :: b5 :: b6 :: b7 :: b8 :: rest) 1 = some b1.val := by simp [char_at]
  have e2 : char_at (b0 :: b1 :: b2 :: b3 :: b4 :: b5 :: b6 :: b7 :: b8 :: rest) 2 = some b2.val := by simp [char_at]
  have e3 : char_at (b0 :: b1 :: b2 :: b3 :: b4 :: b5 :: b6 :: b7 :: b8 :: rest) 3 = some b3.val := by simp [char_at]
  have e4 : char_at (b0 :: b1 :: b2 :: b3 :: b4 :: b5 :: b6 :: b7 :: b8 :: rest) 4 = some b4.val := by simp [char_at]
  have e5 : char_at (b0 :: b1 :: b2 :: b3 :: b4 :: b5 :: b6 :: b7 :: b8 :: rest) 5 = some b5.val := by simp [char_at]
  have e6 : char_at (b0 :: b1 :: b2 :: b3 :: b4 :: b5 :: b6 :: b7 :: b8 :: rest) 6 = some b6.val := by simp [char_at]
  have e7 : char_at (b0 :: b1 :: b2 :: b3 :: b4 :: b5 :: b6 :: b7 :: b8 :: rest) 7 = some b7.val := by simp [char_at]
  have e8 : char_at (b0 :: b1 :: b2 :: b3 :: b4 :: b5 :: b6 :: b7 :: b8 :: rest) 8 = some b8.val := by simp [char_at]
  simp only [vfast_perfect_hash9, e0, e1, e2, e3, e4, e5, e6, e7, e8, Option.some_bind,
      apply_ite Option.isSome, Option.isSome_some, ite_self]

theorem hash10_cons_single (b0 b1 b2 b3 b4 b5 b6 b7 b8 b9 : Byte) (rest : List Byte) :
    vfast_perfect_hash10 (b0 :: b1 :: b2 :: b3 :: b4 :: b5 :: b6 :: b7 :: b8 :: b9 :: rest) = vfast_perfect_hash10 [b0, b1, b2, b3, b4, b5, b6, b7, b8, b9] := by
  simp [vfast_perfect_hash10, char_at]

theorem hash10_total_single (b0 b1 b2 b3 b4 b5 b6 b7 b8 b9 : Byte) (rest : List Byte) :
    (vfast_perfect_hash10 (b0 :: b1 :: b2 :: b3 :: b4 :: b5 :: b6 :: b7 :: b8 :: b9 :: rest)).isSome = true := by
  have e0 : char_at (b0 :: b1 :: b2 :: b3 :: b4 :: b5 :: b6 :: b7 :: b8 :: b9 :: rest) 0 = some b0.val := by simp [char_at]
  have e1 : char_at (b0 :: b1 :: b2 :: b3 :: b4 :: b5 :: b6 :: b7 :: b8 :: b9 :: rest) 1 = some b1.val := by simp [char_at]
  have e2 : char_at (b0 :: b1 :: b2 :: b3 :: b4 :: b5 :: b6 :: b7 :: b8 :: b9 :: rest) 2 = some b2.val := by simp [char_at]
  have e3 : char_at (b0 :: b1 :: b2 :: b3 :: b4 :: b5 :: b6 :: b7 :: b8 :: b9 :: rest) 3 = some b3.val := by simp [char_at]
  have e4 : char_at (b0 :: b1 :: b2 :: b3 :: b4 :: b5 :: b6 :: b7 :: b8 :: b9 :: rest) 4 = some b4.val := by simp [char_at]
  have e5 : char_at (b0 :: b1 :: b2 :: b3 :: b4 :: b5 :: b6 :: b7 :: b8 :: b9 :: rest) 5 = some b5.val := by simp [char_at]
  have e6 : char_at (b0 :: b1 :: b2 :: b3 :: b4 :: b5 :: b6 :: b7 :: b8 :: b9 :: rest) 6 = some b6.val := by simp [char_at]
  have e7 : char_at (b0 :: b1 :: b2 :: b3 :: b4 :: b5 :: b6 :: b7 :: b8 :: b9 :: rest) 7 = some b7.val := by simp [char_at]
  have e8 : char_at (b0 :: b1 :: b2 :: b3 :: b4 :: b5 :: b6 :: b7 :: b8 :: b9 :: rest) 8 = some b8.val := by simp [char_at]
  have e9 : char_at (b0 :: b1 :: b2 :: b3 :: b4 :: b5 :: b6 :: b7 :: b8 :: b9 :: rest) 9 = some b9.val := by simp [char_at]
  simp only [vfast_perfect_hash10, e0, e1, e2, e3, e4, e5, e6, e7, e8, e9, Option.some_bind,
      apply_ite Option.isSome, Option.isSome_some, ite_self]

end SingleByte

/-! ## The classifier `vfast_perfect_hash` -/

theorem exists_cons_of_succ_le {l : List Byte} {n : Nat} (h : n + 1 ≤ l.length) :
    ∃ b r, l = b :: r ∧ n ≤ r.length := by
  cases l with
  | nil => simp at h
  | cons b r => exact ⟨b, r, rfl, by simpa using h⟩

theorem matcher_sound (t : Target) (n : Nat) (string : List Byte) (c : Int)
    (hlen : n ≤ string.length) (h : matcher t n string = some c) (hc : c ≠ vfast__Unknown) :
    ((string.take n).map Fin.val, c) ∈ keyword_values := by
  obtain ⟨mb, le⟩ := t
  unfold matcher at h
  cases mb
  all_goals simp only [Bool.false_eq_true, if_true, if_false] at h
  all_goals split at h
  all_goals first
    | (simp only [Option.some.injEq] at h; exact absurd h.symm hc)
    | skip
  all_goals repeat (obtain ⟨b, r, rfl, hl⟩ := exists_cons_of_succ_le hlen; replace hlen := hl; clear hl)
  all_goals simp only [List.take_succ_cons, List.take_zero, List.map_cons, List.map_nil]
  · exact SingleByte.hash2_sound_single _ _ _ _ h hc
  · exact SingleByte.hash3_sound_single _ _ _ _ _ h hc
  · exact SingleByte.hash4_sound_single _ _ _ _ _ _ h hc
  · exact SingleByte.hash5_sound_single _ _ _ _ _ _ _ h hc
  · exact SingleByte.hash6_sound_single _ _ _ _ _ _ _ _ h hc
  · exact SingleByte.hash8_sound_single _ _ _ _ _ _ _ _ _ _ h hc
  · exact SingleByte.hash9_sound_single _ _ _ _ _ _ _ _ _ _ _ h hc
  · exact SingleByte.hash10_sound_single _ _ _ _ _ _ _ _ _ _ _ _ h hc
  · exact MultiByte.hash2_sound_multi _ _ _ _ _ h hc
  · exact MultiByte.hash3_sound_multi _ _ _ _ _ _ h hc
  · exact MultiByte.hash4_sound_multi _ _ _ _ _ _ _ h hc
  · exact MultiByte.hash5_sound_multi _ _ _ _ _ _ _ _ h hc
  · exact MultiByte.hash6_sound_multi _ _ _ _ _ _ _ _ _ h hc
  · exact MultiByte.hash8_sound_multi _ _ _ _ _ _ _ _ _ _ _ h hc
  · exact MultiByte.hash9_sound_multi _ _ _ _ _ _ _ _ _ _ _ _ h hc
  · exact MultiByte.hash10_sound_multi _ _ _ _ _ _ _ _ _ _ _ _ _ h hc

theorem matcher_take (t : Target) (n : Nat) (string : List Byte) :
    matcher t n string = matcher t n (string.take n) := by
  by_cases hlen : n ≤ string.length
  · obtain ⟨mb, le⟩ := t
    unfold matcher
    cases mb
    all_goals simp only [Bool.false_eq_true, if_true, if_false]
    all_goals split
    all_goals first
      | rfl
      | skip
    all_goals repeat (obtain ⟨b, r, rfl, hl⟩ := exists_cons_of_succ_le hlen; replace hlen := hl; clear hl)
    all_goals simp only [List.take_succ_cons, List.take_zero]
    · exact SingleByte.hash2_cons_single _ _ _
    · exact SingleByte.hash3_cons_single _ _ _ _
    · exact SingleByte.hash4_cons_single _ _ _ _ _
    · exact SingleByte.hash5_cons_single _ _ _ _ _ _
    · exact SingleByte.hash6_cons_single _ _ _ _ _ _ _
    · exact SingleByte.hash8_cons_single _ _ _ _ _ _ _ _ _
    · exact SingleByte.hash9_cons_single _ _ _ _ _ _ _ _ _ _
    · exact SingleByte.hash10_cons_single _ _ _ _ _ _ _ _ _ _ _
    · exact MultiByte.hash2_cons_multi _ _ _ _
    · exact MultiByte.hash3_cons_multi _ _ _ _ _
    · exact MultiByte.hash4_cons_multi _ _ _ _ _ _
    · exact MultiByte.hash5_cons_multi _ _ _ _ _ _ _
    · exact MultiByte.hash6_cons_multi _ _ _ _ _ _ _ _
    · exact MultiByte.hash8_cons_multi _ _ _ _ _ _ _ _ _ _
    · exact MultiByte.hash9_cons_multi _ _ _ _ _ _ _ _ _ _ _
    · exact MultiByte.hash10_cons_multi _ _ _ _ _ _ _ _ _ _ _ _
  · rw [List.take_of_length_le (by omega)]

theorem matcher_total (t : Target) (n : Nat) (string : List Byte) (hlen : n ≤ string.length) :
    (matcher t n string).isSome = true := by
  obtain ⟨mb, le⟩ := t
  unfold matcher
  cases mb
  all_goals simp only [Bool.false_eq_true, if_true, if_false]
  all_goals split
  all_goals first
    | rfl
    | skip
  all_goals repeat (obtain ⟨b, r, rfl, hl⟩ := exists_cons_of_succ_le hlen; replace hlen := hl; clear hl)
  · exact SingleByte.hash2_total_single _ _ _
  · exact SingleByte.hash3_total_single _ _ _ _
  · exact SingleByte.hash4_total_single _ _ _ _ _
  · exact SingleByte.hash5_total_single _ _ _ _ _ _
  · exact SingleByte.hash6_total_single _ _ _ _ _ _ _
  · exact SingleByte.hash8_total_single _ _ _ _ _ _ _ _ _
  · exact SingleByte.hash9_total_single _ _ _ _ _ _ _ _ _ _
  · exact SingleByte.hash10_total_single _ _ _ _ _ _ _ _ _ _ _
  · exact MultiByte.hash2_total_multi _ _ _ _
  · exact MultiByte.hash3_total_multi _ _ _ _ _
  · exact MultiByte.hash4_total_multi _ _ _ _ _ _
  · exact MultiByte.hash5_total_multi _ _ _ _ _ _ _
  · exact MultiByte.hash6_total_multi _ _ _ _ _ _ _ _
  · exact MultiByte.hash8_total_multi _ _ _ _ _ _ _ _ _ _
  · exact MultiByte.hash9_total_multi _ _ _ _ _ _ _ _ _ _ _
  · exact MultiByte.hash10_total_multi _ _ _ _ _ _ _ _ _ _ _ _
/-! ## `memcmp` -/

theorem memcmp_isSome (a b : List Byte) (n : Nat) (ha : n ≤ a.length) (hb : n ≤ b.length) :
    (memcmp a b n).isSome = true := by
  induction n generalizing a b with
  | zero => simp [memcmp]
  | succ n ih =>
    cases a with
    | nil => simp at ha
    | cons x a =>
      cases b with
      | nil => simp at hb
      | cons y b =>
        have h := ih a b (by simpa using ha) (by simpa using hb)
        obtain ⟨r, hr⟩ := Option.isSome_iff_exists.mp h
        simp [memcmp, hr]

theorem memcmp_eq_zero (a b : List Byte) (n : Nat) (h : memcmp a b n = some 0) :
    n ≤ a.length ∧ n ≤ b.length ∧ a.take n = b.take n := by
  induction n generalizing a b with
  | zero => simp
  | succ n ih =>
    cases a with
    | nil => simp [memcmp] at h
    | cons x a =>
      cases b with
      | nil => simp [memcmp] at h
      | cons y b =>
        simp only [memcmp] at h
        cases hr : memcmp a b n with
        | none => simp [hr] at h
        | some r =>
          simp only [hr, Option.some.injEq] at h
          have hxy : x = y := by
            by_contra hne
            rcases lt_or_gt_of_ne hne with hlt | hgt
            · simp [hlt] at h
            · have : ¬ x < y := not_lt_of_gt hgt
              simp [this, hgt] at h
          subst hxy
          simp only [lt_self_iff_false, if_false] at h
          subst h
          obtain ⟨h1, h2, h3⟩ := ih a b hr
          simp [h1, h2, h3]

theorem memcmp_self_take (a b : List Byte) (n : Nat) (ha : n ≤ a.length) (hb : n ≤ b.length)
    (h : a.take n = b.take n) : memcmp a b n = some 0 := by
  induction n generalizing a b with
  | zero => simp [memcmp]
  | succ n ih =>
    cases a with
    | nil => simp at ha
    | cons x a =>
      cases b with
      | nil => simp at hb
      | cons y b =>
        simp only [List.take_succ_cons, List.cons.injEq] at h
        obtain ⟨rfl, h⟩ := h
        simp [memcmp, ih a b (by simpa using ha) (by simpa using hb) h]

theorem memcmp_take_left (a b : List Byte) (n : Nat) :
    memcmp (a.take n) b n = memcmp a b n := by
  induction n generalizing a b with
  | zero => simp [memcmp]
  | succ n ih =>
    cases a with
    | nil => simp
    | cons x a =>
      cases b with
      | nil => simp [memcmp]
      | cons y b => simp [memcmp, ih]

/-! ## Facts about the tables of `gperf_words.c` -/

theorem asso_values_length : asso_values.length = 256 := by decide!

theorem lengthtable_length : lengthtable.length = 86 := by decide!

theorem wordlist_length : wordlist.length = 86 := by decide!

/-- Each entry of `lengthtable` is the length of the name in the same slot. -/
theorem lengthtable_parallel (k l : Nat) (e : GPerfResult) (hl : lengthtable[k]? = some l)
    (he : wordlist[k]? = some e) : e.name.length = l := by
  have key : ∀ k, k < 86 → (wordlist[k]?).map (fun e => e.name.length) = lengthtable[k]? := by
    decide!
  have hk : k < 86 := by
    have := (List.getElem?_eq_some.mp hl).1
    simpa [lengthtable_length] using this
  have := key k hk
  rw [hl, he] at this
  simpa using this

/-! ## `gperf_hash` and `in_word_set` read the first `len` bytes only -/

theorem asso_at_take (asso : List Nat) (str : List Byte) (i len : Nat) (h : i < len) :
    asso_at asso (str.take len) i = asso_at asso str i := by
  simp [asso_at, List.getElem?_take_of_lt h]

theorem gperf_hash_on_take (asso : List Nat) (str : List Byte) (len : Nat) (h : 2 ≤ len) :
    gperf_hash_on asso (str.take len) len = gperf_hash_on asso str len := by
  unfold gperf_hash_on
  rw [asso_at_take asso str 1 len (by omega), asso_at_take asso str 0 len (by omega)]
  by_cases h3 : len % 2 ^ 32 ≠ 2 ∧ len % 2 ^ 32 ≠ 1
  · rw [asso_at_take asso str 2 len (by omega)]
  · simp only [h3, if_false]

theorem in_word_set_on_take (asso lengths : List Nat) (words : List GPerfResult)
    (str : List Byte) (len : Nat) :
    in_word_set_on asso lengths words (str.take len) len
      = in_word_set_on asso lengths words str len := by
  unfold in_word_set_on
  by_cases hr : len ≤ MAX_WORD_LENGTH ∧ len ≥ MIN_WORD_LENGTH
  · have h2 : 2 ≤ len := hr.2
    simp only [hr, and_self, if_true, gperf_hash_on_take asso str len h2,
      List.getElem?_take_of_lt (show 0 < len by omega), List.drop_take, memcmp_take_left]
  · simp only [hr, if_false]

theorem in_word_set_take (str : List Byte) (len : Nat) :
    in_word_set (str.take len) len = in_word_set str len :=
  in_word_set_on_take _ _ _ str len

/-! ## Soundness and totality of `in_word_set` -/

/-- An entry returned by `in_word_set` is a slot of `wordlist` whose name is
the input word. -/
theorem in_word_set_sound (str : List Byte) (len : Nat) (e : GPerfResult)
    (h : in_word_set str len = some (some e)) :
    e ∈ wordlist ∧ e.name ≠ [] ∧ e.name.length = len ∧ len ≤ str.length ∧
      e.name = str.take len := by
  simp only [in_word_set, in_word_set_on, MAX_WORD_LENGTH, MIN_WORD_LENGTH] at h
  split at h
  case isFalse => simp at h
  rename_i hr
  split at h
  case h_1 => simp at h
  rename_i key hkey
  split at h
  case isFalse => simp at h
  split at h
  case h_1 => simp at h
  rename_i l hl
  split at h
  case isFalse => simp at h
  rename_i hlen
  split at h
  case h_1 => simp at h
  rename_i e1 he1
  split at h
  case h_2 => simp at h
  rename_i c d hc hd
  split at h
  case isFalse => simp at h
  rename_i hcd
  split at h
  case h_1 => simp at h
  rename_i r hr0
  split at h
  case isFalse => simp at h
  rename_i hz
  simp only [Option.some.injEq] at h
  subst h hz hcd
  have hmem : e1 ∈ wordlist := List.getElem?_mem he1
  have hnl : e1.name.length = len := by rw [hlen]; exact lengthtable_parallel key l e1 hl he1
  obtain ⟨m1, m2, m3⟩ := memcmp_eq_zero _ _ _ hr0
  cases hs : str with
  | nil => simp [hs] at hc
  | cons x xs =>
    cases hn : e1.name with
    | nil => simp [hn] at hnl; omega
    | cons y ys =>
      simp only [hs, List.getElem?_cons_zero, Option.some.injEq] at hc
      simp only [hn, c_storage, List.cons_append, List.getElem?_cons_zero,
        Option.some.injEq] at hd
      simp only [hs, hn, c_storage, List.cons_append, List.drop_succ_cons, List.drop_zero,
        List.length_cons, List.length_append, List.length_nil] at m1 m3 hnl
      have hys : ys.length = len - 1 := by omega
      have t1 : (ys ++ [0]).take (len - 1) = ys := by
        rw [List.take_append_of_le_length (by omega), List.take_of_length_le (by omega)]
      rw [t1] at m3
      refine ⟨hmem, by simp, by simp; omega, by simp; omega, ?_⟩
      obtain ⟨k, rfl⟩ : ∃ k, len = k + 1 := ⟨len - 1, by omega⟩
      simp only [List.take_succ_cons, Nat.add_sub_cancel] at m3 ⊢
      rw [m3, hc, hd]

/-- Within the buffer `in_word_set` always returns. -/
theorem in_word_set_total (str : List Byte) (len : Nat) (hlen : len ≤ str.length) :
    (in_word_set str len).isSome = true := by
  simp only [in_word_set, in_word_set_on, MAX_WORD_LENGTH, MIN_WORD_LENGTH, MAX_HASH_VALUE]
  split
  case isFalse => rfl
  rename_i hr
  have rd : ∀ i, i < len → (asso_at asso_values str i).isSome = true := by
    intro i hi
    have hi2 : i < str.length := by omega
    simp only [asso_at, List.getElem?_eq_getElem hi2]
    have : (str[i]).val < asso_values.length := by rw [asso_values_length]; exact (str[i]).isLt
    simp [List.getElem?_eq_getElem this]
  have hk : (gperf_hash_on asso_values str len).isSome = true := by
    unfold gperf_hash_on
    obtain ⟨a0, h0⟩ := Option.isSome_iff_exists.mp (rd 0 (by omega))
    obtain ⟨a1, h1⟩ := Option.isSome_iff_exists.mp (rd 1 (by omega))
    rw [h0, h1]
    by_cases h3 : len % 2 ^ 32 ≠ 2 ∧ len % 2 ^ 32 ≠ 1
    · obtain ⟨a2, h2⟩ := Option.isSome_iff_exists.mp (rd 2 (by omega))
      rw [h2]
      dsimp only
      split_ifs <;> rfl
    · dsimp only
      split_ifs <;> rfl
  obtain ⟨key, hkey⟩ := Option.isSome_iff_exists.mp hk
  rw [hkey]
  simp only
  split
  case isFalse => rfl
  rename_i hk85
  have hk1 : key < lengthtable.length := by rw [lengthtable_length]; omega
  have hk2 : key < wordlist.length := by rw [wordlist_length]; omega
  rw [List.getElem?_eq_getElem hk1, List.getElem?_eq_getElem hk2]
  simp only
  split
  case isFalse => rfl
  rename_i hl
  have hnl := lengthtable_parallel key _ _ (List.getElem?_eq_getElem hk1)
    (List.getElem?_eq_getElem hk2)
  have h0 : 0 < str.length := by omega
  have hs0 : 0 < (c_storage wordlist[key].name).length := by simp [c_storage]
  rw [List.getElem?_eq_getElem h0, List.getElem?_eq_getElem hs0]
  simp only
  split
  case isFalse => rfl
  have hm := memcmp_isSome (str.drop 1) ((c_storage wordlist[key].name).drop 1) (len - 1)
    (by simp; omega) (by simp [c_storage]; omega)
  obtain ⟨r, hr0⟩ := Option.isSome_iff_exists.mp hm
  rw [hr0]
  simp only
  split <;> rfl

theorem vfast_perfect_hash_sound (t : Target) (string : List Byte) (length : Nat) (c : Int)
    (hlen : length ≤ string.length) (h : vfast_perfect_hash t string length = some c)
    (hc : c ≠ vfast__Unknown) :
    ((string.take length).map Fin.val, c) ∈ keyword_values := by
  unfold vfast_perfect_hash at h
  split_ifs at h
  all_goals first
    | (subst length; exact matcher_sound t _ string c hlen h hc)
    | (simp only [Option.some.injEq] at h; exact absurd h.symm hc)

theorem vfast_perfect_hash_take (t : Target) (string : List Byte) (length : Nat) :
    vfast_perfect_hash t (string.take length) length = vfast_perfect_hash t string length := by
  unfold vfast_perfect_hash
  split_ifs
  all_goals first
    | (subst length; exact (matcher_take t _ string).symm)
    | rfl

theorem vfast_perfect_hash_total (t : Target) (string : List Byte) (length : Nat)
    (hlen : length ≤ string.length) : (vfast_perfect_hash t string length).isSome = true := by
  unfold vfast_perfect_hash
  split_ifs
  all_goals first
    | (subst length; exact matcher_total t _ string hlen)
    | rfl

/-! ## The two classifiers on the words of the tables -/

theorem mem_keyword_values (v : List Nat) (c : Int) :
    (v, c) ∈ keyword_values ↔
      ∃ e ∈ wordlist, e.name ≠ [] ∧ e.name.map Fin.val = v ∧ e.code = c := by
  simp only [keyword_values, List.mem_map, List.mem_filter, decide_eq_true_eq, Prod.mk.injEq]
  constructor
  · rintro ⟨e, ⟨h1, h2⟩, h3, h4⟩
    exact ⟨e, h1, h2, h3, h4⟩
  · rintro ⟨e, h1, h2, h3, h4⟩
    exact ⟨e, ⟨h1, h2⟩, h3, h4⟩

theorem map_val_injective {a b : List Byte} (h : a.map Fin.val = b.map Fin.val) : a = b :=
  List.map_injective_iff.mpr Fin.val_injective h

/-- Every occupied slot of `wordlist` is found by `in_word_set`. -/
theorem in_word_set_wordlist :
    ∀ e ∈ wordlist, e.name ≠ [] → in_word_set e.name e.name.length = some (some e) := by
  decide!

/-- Every occupied slot of `wordlist` is matched by `vfast_perfect_hash`, with
the code of the slot, on every target. -/
theorem vfast_perfect_hash_wordlist :
    ∀ e ∈ wordlist, e.name ≠ [] → ∀ mb le : Bool,
      vfast_perfect_hash ⟨mb, le⟩ e.name e.name.length = some e.code := by
  decide!

/-- The enumerators of `enum PerfectKey` and the occupied slots of `wordlist`
hold the same keywords with the same codes. -/
theorem PerfectKey_keywords_wordlist :
    (∀ p ∈ PerfectKey_keywords, (⟨cstr p.1, p.2⟩ : GPerfResult) ∈ wordlist ∧ cstr p.1 ≠ []) ∧
    (∀ e ∈ wordlist, e.name ≠ [] →
      (PerfectKey_keywords.map fun p => (⟨cstr p.1, p.2⟩ : GPerfResult)).contains e = true) := by
  decide!

/-- The codes of the occupied slots are pairwise distinct. -/
theorem wordlist_code_injective :
    ∀ e1 ∈ wordlist, ∀ e2 ∈ wordlist, e1.name ≠ [] → e2.name ≠ [] → e1.code = e2.code →
      e1 = e2 := by
  decide!

/-- Every code of an occupied slot is strictly positive. -/
theorem wordlist_code_pos : ∀ e ∈ wordlist, e.name ≠ [] → 0 < e.code := by
  decide!

theorem in_word_set_complete (str : List Byte) (len : Nat) (e : GPerfResult)
    (he : e ∈ wordlist) (hne : e.name ≠ []) (hlen : len ≤ str.length)
    (h : str.take len = e.name) : in_word_set str len = some (some e) := by
  have hl : e.name.length = len := by rw [← h]; simp; omega
  rw [← in_word_set_take, h, ← hl]
  exact in_word_set_wordlist e he hne

theorem vfast_perfect_hash_complete (t : Target) (str : List Byte) (len : Nat)
    (e : GPerfResult) (he : e ∈ wordlist) (hne : e.name ≠ []) (hlen : len ≤ str.length)
    (h : str.take len = e.name) : vfast_perfect_hash t str len = some e.code := by
  have hl : e.name.length = len := by rw [← h]; simp; omega
  rw [← vfast_perfect_hash_take, h, ← hl]
  exact vfast_perfect_hash_wordlist e he hne t.multi_byte t.little_endian

theorem in_word_set_none (str : List Byte) (len : Nat) (hlen : len ≤ str.length)
    (h : ∀ e ∈ wordlist, e.name ≠ [] → str.take len ≠ e.name) :
    in_word_set str len = some none := by
  obtain ⟨r, hr⟩ := Option.isSome_iff_exists.mp (in_word_set_total str len hlen)
  cases r with
  | none => exact hr
  | some e =>
    obtain ⟨h1, h2, _, _, h5⟩ := in_word_set_sound str len e hr
    exact absurd h5.symm (h e h1 h2)

theorem vfast_perfect_hash_unknown (t : Target) (str : List Byte) (len : Nat)
    (hlen : len ≤ str.length)
    (h : ∀ e ∈ wordlist, e.name ≠ [] → str.take len ≠ e.name) :
    vfast_perfect_hash t str len = some vfast__Unknown := by
  obtain ⟨c, hc⟩ := Option.isSome_iff_exists.mp (vfast_perfect_hash_total t str len hlen)
  by_cases hu : c = vfast__Unknown
  · rw [hc, hu]
  · obtain ⟨e, h1, h2, h3, _⟩ :=
      (mem_keyword_values _ _).mp (vfast_perfect_hash_sound t str len c hlen hc hu)
    exact absurd (map_val_injective h3).symm (h e h1 h2)

/-- No keyword of `wordlist` holds an upper-case letter. -/
theorem wordlist_lowercase : ∀ e ∈ wordlist, e.name.map ascii_tolower = e.name := by
  decide!

/-- The names of the enumerators of `enum PerfectKey` are the names of the
occupied slots of `wordlist`. -/
theorem exists_PerfectKey_of_wordlist (e : GPerfResult) (he : e ∈ wordlist) (hne : e.name ≠ []) :
    ∃ p ∈ PerfectKey_keywords, cstr p.1 = e.name ∧ p.2 = e.code := by
  have h := PerfectKey_keywords_wordlist.2 e he hne
  simp only [List.contains_eq_any_beq, List.any_eq_true, List.mem_map, beq_iff_eq] at h
  obtain ⟨x, ⟨p, hp, rfl⟩, rfl⟩ := h
  exact ⟨p, hp, rfl, rfl⟩

/-! ## The claims -/

/-- C1 (completeness of the hash-indexed classifier): `wordlist` stores
`TOTAL_KEYWORDS = 47` (keyword, code) pairs, and for each of them
`in_word_set (keyword, strlen (keyword))` returns the entry that holds this
keyword and its code. -/
theorem C1_in_word_set_completeness (e : GPerfResult) (he : e ∈ wordlist)
    (hne : e.name ≠ []) :
    (wordlist.filter (fun e => e.name ≠ [])).length = TOTAL_KEYWORDS ∧
      in_word_set e.name e.name.length = some (some e) :=
  ⟨by decide!, in_word_set_wordlist e he hne⟩

theorem C1_in_word_set_completeness_witness :
    (slot "fn" 79 ∈ wordlist ∧ (slot "fn" 79).name ≠ [] ∧
      in_word_set (cstr "fn") 2 = some (some ⟨cstr "fn", 79⟩)) ∧
    in_word_set (cstr "struct") 6 = some (some ⟨cstr "struct", 103⟩) ∧
    in_word_set (cstr "unsafe") 6 = some (some ⟨cstr "unsafe", 113⟩) :=
  ⟨⟨by decide!, by decide!, (C1_in_word_set_completeness (slot "fn" 79) (by decide!) (by decide!)).2⟩,
    (C1_in_word_set_completeness (slot "struct" 103) (by decide!) (by decide!)).2,
    (C1_in_word_set_completeness (slot "unsafe" 113) (by decide!) (by decide!)).2⟩

/-- C2 (completeness of the trie classifier): `enum PerfectKey` names 47
keywords, and for each of them `vfast_perfect_hash (keyword, strlen (keyword))`
returns the value of its enumerator, in the multi-byte variant under either
byte order and in the single-byte variant. -/
theorem C2_vfast_perfect_hash_completeness (t : Target) (p : String × Int)
    (hp : p ∈ PerfectKey_keywords) :
    PerfectKey_keywords.length = 47 ∧
      vfast_perfect_hash t (cstr p.1) (cstr p.1).length = some p.2 := by
  obtain ⟨h1, h2⟩ := PerfectKey_keywords_wordlist.1 p hp
  exact ⟨by decide, vfast_perfect_hash_wordlist _ h1 h2 t.multi_byte t.little_endian⟩

theorem C2_vfast_perfect_hash_completeness_witness :
    (("fn", vfast__fn) ∈ PerfectKey_keywords ∧
      vfast_perfect_hash ⟨true, true⟩ (cstr "fn") 2 = some 79) ∧
    vfast_perfect_hash ⟨true, false⟩ (cstr "struct") 6 = some 103 ∧
    vfast_perfect_hash ⟨false, true⟩ (cstr "unsafe") 6 = some 113 ∧
    vfast_perfect_hash ⟨true, true⟩ (cstr "__offsetof") 10 = some 102 :=
  ⟨⟨by decide, (C2_vfast_perfect_hash_completeness ⟨true, true⟩ ("fn", vfast__fn) (by decide)).2⟩,
    (C2_vfast_perfect_hash_completeness ⟨true, false⟩ ("struct", vfast__struct) (by decide)).2,
    (C2_vfast_perfect_hash_completeness ⟨false, true⟩ ("unsafe", vfast__unsafe) (by decide)).2,
    (C2_vfast_perfect_hash_completeness ⟨true, true⟩ ("__offsetof", vfast______offsetof)
      (by decide)).2⟩

/-- C3 (soundness of the hash-indexed classifier): for every buffer and every
length within it, `in_word_set` returns null when the first `len` bytes are not
one of the 47 keywords; and an entry that it returns has a name of exactly
`len` bytes, equal to the first `len` bytes of the buffer. -/
theorem C3_in_word_set_soundness (str : List Byte) (len : Nat) (hlen : len ≤ str.length) :
    ((∀ e ∈ wordlist, e.name ≠ [] → str.take len ≠ e.name) →
      in_word_set str len = some none) ∧
    (∀ e, in_word_set str len = some (some e) →
      e ∈ wordlist ∧ e.name ≠ [] ∧ e.name.length = len ∧ e.name = str.take len) := by
  refine ⟨in_word_set_none str len hlen, ?_⟩
  intro e h
  obtain ⟨h1, h2, h3, _, h5⟩ := in_word_set_sound str len e h
  exact ⟨h1, h2, h3, h5⟩

theorem C3_in_word_set_soundness_witness :
    in_word_set (cstr "fo") 2 = some none ∧ in_word_set (cstr "form") 4 = some none ∧
    in_word_set (cstr "FN") 2 = some none ∧ in_word_set (cstr "structx") 7 = some none ∧
    (in_word_set (cstr "fnx") 2 = some (some (slot "fn" 79)) ∧
      (slot "fn" 79).name = (cstr "fnx").take 2) :=
  ⟨(C3_in_word_set_soundness (cstr "fo") 2 (by decide)).1 (by decide!),
    (C3_in_word_set_soundness (cstr "form") 4 (by decide)).1 (by decide!),
    (C3_in_word_set_soundness (cstr "FN") 2 (by decide)).1 (by decide!),
    (C3_in_word_set_soundness (cstr "structx") 7 (by decide)).1 (by decide!),
    by decide!,
    ((C3_in_word_set_soundness (cstr "fnx") 2 (by decide)).2 (slot "fn" 79) (by decide!)).2.2.2⟩

/-- C4 (soundness of the trie classifier): for every buffer and every length
within it, `vfast_perfect_hash` returns `vfast__Unknown` when the first
`length` bytes are not one of the 47 keywords of `enum PerfectKey`; this holds
in the multi-byte variant under either byte order and in the single-byte
variant, for any byte values. -/
theorem C4_vfast_perfect_hash_soundness (t : Target) (string : List Byte) (length : Nat)
    (hlen : length ≤ string.length)
    (h : ∀ p ∈ PerfectKey_keywords, string.take length ≠ cstr p.1) :
    vfast__Unknown = -1 ∧ vfast_perfect_hash t string length = some vfast__Unknown := by
  refine ⟨rfl, vfast_perfect_hash_unknown t string length hlen ?_⟩
  intro e he hne
  obtain ⟨p, hp, hname, _⟩ := exists_PerfectKey_of_wordlist e he hne
  rw [← hname]
  exact h p hp

theorem C4_vfast_perfect_hash_soundness_witness :
    vfast_perfect_hash ⟨true, true⟩ (cstr "fo") 2 = some vfast__Unknown ∧
    vfast_perfect_hash ⟨true, true⟩ (cstr "form") 4 = some vfast__Unknown ∧
    vfast_perfect_hash ⟨true, false⟩ (cstr "structx") 7 = some vfast__Unknown ∧
    vfast_perfect_hash ⟨false, true⟩ (cstr "typ") 3 = some vfast__Unknown ∧
    vfast_perfect_hash ⟨true, true⟩ (cstr "typeo") 5 = some vfast__Unknown ∧
    vfast_perfect_hash ⟨true, true⟩ [102, 0] 2 = some vfast__Unknown ∧
    vfast_perfect_hash ⟨false, false⟩ [230, 110, 0] 2 = some vfast__Unknown :=
  ⟨(C4_vfast_perfect_hash_soundness ⟨true, true⟩ (cstr "fo") 2 (by decide) (by decide!)).2,
    (C4_vfast_perfect_hash_soundness ⟨true, true⟩ (cstr "form") 4 (by decide) (by decide!)).2,
    (C4_vfast_perfect_hash_soundness ⟨true, false⟩ (cstr "structx") 7 (by decide)
      (by decide!)).2,
    (C4_vfast_perfect_hash_soundness ⟨false, true⟩ (cstr "typ") 3 (by decide) (by decide!)).2,
    (C4_vfast_perfect_hash_soundness ⟨true, true⟩ (cstr "typeo") 5 (by decide) (by decide!)).2,
    (C4_vfast_perfect_hash_soundness ⟨true, true⟩ [102, 0] 2 (by decide) (by decide!)).2,
    (C4_vfast_perfect_hash_soundness ⟨false, false⟩ [230, 110, 0] 2 (by decide)
      (by decide!)).2⟩

/-- C5 (strategy equivalence): for every buffer and every length within it,
`in_word_set` returns an entry with code `c` exactly when `vfast_perfect_hash`
returns `c` and `c` is not `vfast__Unknown`, and `in_word_set` returns null
exactly when `vfast_perfect_hash` returns `vfast__Unknown`. -/
theorem C5_strategy_equivalence (t : Target) (str : List Byte) (len : Nat)
    (hlen : len ≤ str.length) :
    (∀ c : Int, (∃ e, in_word_set str len = some (some e) ∧ e.code = c) ↔
      (vfast_perfect_hash t str len = some c ∧ c ≠ vfast__Unknown)) ∧
    (in_word_set str len = some none ↔
      vfast_perfect_hash t str len = some vfast__Unknown) := by
  by_cases hk : ∃ e ∈ wordlist, e.name ≠ [] ∧ str.take len = e.name
  · obtain ⟨e, he, hne, hname⟩ := hk
    have h1 := in_word_set_complete str len e he hne hlen hname
    have h2 := vfast_perfect_hash_complete t str len e he hne hlen hname
    have hpos := wordlist_code_pos e he hne
    have hu : e.code ≠ vfast__Unknown := by
      intro h
      rw [h] at hpos
      exact absurd hpos (by decide)
    rw [h1, h2]
    constructor
    · intro c
      constructor
      · rintro ⟨e1, he1, rfl⟩
        simp only [Option.some.injEq] at he1
        subst he1
        exact ⟨rfl, hu⟩
      · rintro ⟨hc, _⟩
        simp only [Option.some.injEq] at hc
        exact ⟨e, rfl, hc⟩
    · constructor
      · intro h
        simp at h
      · intro h
        simp only [Option.some.injEq] at h
        exact absurd h hu
  · have hk1 : ∀ e ∈ wordlist, e.name ≠ [] → str.take len ≠ e.name := by
      intro e he hne hname
      exact hk ⟨e, he, hne, hname⟩
    have h1 := in_word_set_none str len hlen hk1
    have h2 := vfast_perfect_hash_unknown t str len hlen hk1
    rw [h1, h2]
    constructor
    · intro c
      constructor
      · rintro ⟨e1, he1, _⟩
        simp at he1
      · rintro ⟨hc, hcu⟩
        simp only [Option.some.injEq] at hc
        exact absurd hc.symm hcu
    · simp

theorem C5_strategy_equivalence_witness :
    ((∃ e, in_word_set (cstr "structx") 6 = some (some e) ∧ e.code = 103) ↔
      (vfast_perfect_hash ⟨true, true⟩ (cstr "structx") 6 = some 103 ∧
        (103 : Int) ≠ vfast__Unknown)) ∧
    (in_word_set (cstr "strxxx") 6 = some none ↔
      vfast_perfect_hash ⟨false, true⟩ (cstr "strxxx") 6 = some vfast__Unknown) :=
  ⟨(C5_strategy_equivalence ⟨true, true⟩ (cstr "structx") 6 (by decide)).1 103,
    (C5_strategy_equivalence ⟨false, true⟩ (cstr "strxxx") 6 (by decide)).2⟩

/-- C6 (length boundary): for every length below 2 or above 10, for every
buffer (the empty one included) and for any contents of the three tables (empty
tables included), `in_word_set` returns null and `vfast_perfect_hash` returns
`vfast__Unknown`.  A read of an input byte or of a table entry has no result on
an empty buffer or table, so none is performed on this path. -/
theorem C6_length_boundary (t : Target) (asso lengths : List Nat) (words : List GPerfResult)
    (str : List Byte) (len : Nat) (h : len < MIN_WORD_LENGTH ∨ MAX_WORD_LENGTH < len) :
    in_word_set_on asso lengths words str len = some none ∧
    in_word_set str len = some none ∧
    vfast_perfect_hash t str len = some vfast__Unknown := by
  have hr : ¬ (len ≤ MAX_WORD_LENGTH ∧ len ≥ MIN_WORD_LENGTH) := by
    simp only [MIN_WORD_LENGTH, MAX_WORD_LENGTH] at h ⊢
    omega
  refine ⟨?_, ?_, ?_⟩
  · simp only [in_word_set_on, hr, if_false]
  · simp only [in_word_set, in_word_set_on, hr, if_false]
  · simp only [MIN_WORD_LENGTH, MAX_WORD_LENGTH] at h
    unfold vfast_perfect_hash
    split_ifs
    all_goals first
      | rfl
      | omega

theorem C6_length_boundary_witness :
    ((0 < MIN_WORD_LENGTH ∨ MAX_WORD_LENGTH < 0) ∧
      in_word_set_on [] [] [] [] 0 = some none ∧ in_word_set [] 0 = some none ∧
      vfast_perfect_hash ⟨true, true⟩ [] 0 = some vfast__Unknown) ∧
    ((15 < MIN_WORD_LENGTH ∨ MAX_WORD_LENGTH < 15) ∧
      in_word_set_on [] [] [] [] 15 = some none ∧ in_word_set [] 15 = some none ∧
      vfast_perfect_hash ⟨false, true⟩ [] 15 = some vfast__Unknown) :=
  ⟨⟨by decide, C6_length_boundary ⟨true, true⟩ [] [] [] [] 0 (by decide)⟩,
    ⟨by decide, C6_length_boundary ⟨false, true⟩ [] [] [] [] 15 (by decide)⟩⟩

/-- C7 (injectivity): the 47 keywords of `wordlist` are pairwise distinct and
carry pairwise distinct codes, and whenever a classifier returns the same token
code for two inputs `(a, la)` and `(b, lb)`, then `la = lb` and the first `la`
bytes of `a` are the first `lb` bytes of `b`; this holds for `in_word_set` and
for `vfast_perfect_hash`. -/
theorem C7_injectivity (t : Target) (a b : List Byte) (la lb : Nat) :
    ((wordlist.filter (fun e => e.name ≠ [])).map (fun e => e.name)).Nodup ∧
    ((wordlist.filter (fun e => e.name ≠ [])).map (fun e => e.code)).Nodup ∧
    (∀ e1 e2, in_word_set a la = some (some e1) → in_word_set b lb = some (some e2) →
      e1.code = e2.code → la = lb ∧ a.take la = b.take lb) ∧
    (la ≤ a.length → lb ≤ b.length → ∀ c, c ≠ vfast__Unknown →
      vfast_perfect_hash t a la = some c → vfast_perfect_hash t b lb = some c →
      la = lb ∧ a.take la = b.take lb) := by
  refine ⟨by decide!, by decide!, ?_, ?_⟩
  · intro e1 e2 h1 h2 hc
    obtain ⟨m1, n1, l1, _, t1⟩ := in_word_set_sound a la e1 h1
    obtain ⟨m2, n2, l2, _, t2⟩ := in_word_set_sound b lb e2 h2
    have he := wordlist_code_injective e1 m1 e2 m2 n1 n2 hc
    subst he
    exact ⟨l1.symm.trans l2, t1.symm.trans t2⟩
  · intro ha hb c hc h1 h2
    obtain ⟨e1, m1, n1, v1, c1⟩ :=
      (mem_keyword_values _ _).mp (vfast_perfect_hash_sound t a la c ha h1 hc)
    obtain ⟨e2, m2, n2, v2, c2⟩ :=
      (mem_keyword_values _ _).mp (vfast_perfect_hash_sound t b lb c hb h2 hc)
    have he := wordlist_code_injective e1 m1 e2 m2 n1 n2 (c1.trans c2.symm)
    subst he
    have t1 := map_val_injective v1
    have t2 := map_val_injective v2
    have hl : (a.take la).length = (b.take lb).length := by rw [← t1, ← t2]
    simp only [List.length_take] at hl
    exact ⟨by omega, t1.symm.trans t2⟩

theorem C7_injectivity_witness :
    (in_word_set (cstr "fnab") 2 = some (some (slot "fn" 79)) ∧
      in_word_set (cstr "fn") 2 = some (some (slot "fn" 79)) ∧
      (2 = 2 ∧ (cstr "fnab").take 2 = (cstr "fn").take 2)) ∧
    (vfast_perfect_hash ⟨true, true⟩ (cstr "typeof") 4 = some 105 ∧
      vfast_perfect_hash ⟨true, true⟩ (cstr "type") 4 = some 105 ∧
      (4 = 4 ∧ (cstr "typeof").take 4 = (cstr "type").take 4)) :=
  ⟨⟨by decide!, by decide!,
      (C7_injectivity ⟨true, true⟩ (cstr "fnab") (cstr "fn") 2 2).2.2.1 (slot "fn" 79)
        (slot "fn" 79) (by decide!) (by decide!) rfl⟩,
    ⟨by decide!, by decide!,
      (C7_injectivity ⟨true, true⟩ (cstr "typeof") (cstr "type") 4 4).2.2.2 (by decide)
        (by decide) 105 (by decide) (by decide!) (by decide!)⟩⟩

/-- C8 (output contract): the sentinel `vfast__Unknown` is `-1`; within the
buffer `vfast_perfect_hash` returns either the sentinel or a strictly positive
token code; and every entry returned by `in_word_set` carries a strictly
positive code, which differs from the sentinel. -/
theorem C8_output_contract (t : Target) (str : List Byte) (len : Nat)
    (hlen : len ≤ str.length) :
    vfast__Unknown = -1 ∧
    (∃ c, vfast_perfect_hash t str len = some c ∧ (c = vfast__Unknown ∨ 0 < c)) ∧
    (∀ e, in_word_set str len = some (some e) → 0 < e.code ∧ e.code ≠ vfast__Unknown) := by
  refine ⟨rfl, ?_, ?_⟩
  · obtain ⟨c, hc⟩ := Option.isSome_iff_exists.mp (vfast_perfect_hash_total t str len hlen)
    refine ⟨c, hc, ?_⟩
    by_cases hu : c = vfast__Unknown
    · exact Or.inl hu
    · obtain ⟨e, m, n, _, hcode⟩ :=
        (mem_keyword_values _ _).mp (vfast_perfect_hash_sound t str len c hlen hc hu)
      rw [← hcode]
      exact Or.inr (wordlist_code_pos e m n)
  · intro e h
    obtain ⟨m, n, _⟩ := in_word_set_sound str len e h
    have hpos := wordlist_code_pos e m n
    refine ⟨hpos, ?_⟩
    intro hu
    rw [hu] at hpos
    exact absurd hpos (by decide)

theorem C8_output_contract_witness :
    (∃ c, vfast_perfect_hash ⟨true, true⟩ (cstr "unsafe") 6 = some c ∧
      (c = vfast__Unknown ∨ 0 < c)) ∧
    (∃ c, vfast_perfect_hash ⟨false, true⟩ (cstr "Unsafe") 6 = some c ∧
      (c = vfast__Unknown ∨ 0 < c)) ∧
    (0 < (slot "unsafe" 113).code ∧ (slot "unsafe" 113).code ≠ vfast__Unknown) :=
  ⟨(C8_output_contract ⟨true, true⟩ (cstr "unsafe") 6 (by decide)).2.1,
    (C8_output_contract ⟨false, true⟩ (cstr "Unsafe") 6 (by decide)).2.1,
    (C8_output_contract ⟨true, true⟩ (cstr "unsafe") 6 (by decide)).2.2 (slot "unsafe" 113)
      (by decide!)⟩

/-- C9 (no terminator dependency): for every length, two buffers with the same
first `len` bytes get the same result from `in_word_set` (the same entry, or
null for both) and the same code from `vfast_perfect_hash`; what follows the
first `len` bytes, a NUL or anything else or nothing, has no influence. -/
theorem C9_no_terminator_dependency (t : Target) (a b : List Byte) (len : Nat)
    (h : a.take len = b.take len) :
    in_word_set a len = in_word_set b len ∧
    vfast_perfect_hash t a len = vfast_perfect_hash t b len := by
  constructor
  · rw [← in_word_set_take a, ← in_word_set_take b, h]
  · rw [← vfast_perfect_hash_take t a, ← vfast_perfect_hash_take t b, h]

theorem C9_no_terminator_dependency_witness :
    ((cstr "fn").take 2 = (cstr "fn(x)").take 2 ∧
      in_word_set (cstr "fn") 2 = in_word_set (cstr "fn(x)") 2 ∧
      vfast_perfect_hash ⟨true, true⟩ (cstr "fn") 2
        = vfast_perfect_hash ⟨true, true⟩ (cstr "fn(x)") 2) ∧
    (in_word_set (cstr "type" ++ [0]) 4 = in_word_set (cstr "typeof") 4 ∧
      vfast_perfect_hash ⟨false, true⟩ (cstr "type" ++ [0]) 4
        = vfast_perfect_hash ⟨false, true⟩ (cstr "typeof") 4) :=
  ⟨⟨by decide, C9_no_terminator_dependency ⟨true, true⟩ (cstr "fn") (cstr "fn(x)") 2
      (by decide)⟩,
    C9_no_terminator_dependency ⟨false, true⟩ (cstr "type" ++ [0]) (cstr "typeof") 4
      (by decide)⟩

/-- C10 (case sensitivity): for every keyword `k` and every word `s ≠ k` that
equals `k` after ASCII case folding, `in_word_set (s, len)` returns null and
`vfast_perfect_hash (s, len)` returns `vfast__Unknown`; `s` is the first `len`
bytes of a buffer. -/
theorem C10_case_sensitivity (t : Target) (e : GPerfResult) (he : e ∈ wordlist)
    (_hne : e.name ≠ []) (str : List Byte) (len : Nat) (hlen : len ≤ str.length)
    (hs : str.take len ≠ e.name)
    (hf : (str.take len).map ascii_tolower = e.name.map ascii_tolower) :
    in_word_set str len = some none ∧
    vfast_perfect_hash t str len = some vfast__Unknown := by
  have hk : ∀ e1 ∈ wordlist, e1.name ≠ [] → str.take len ≠ e1.name := by
    intro e1 he1 _ hname
    apply hs
    rw [hname] at hf ⊢
    rw [wordlist_lowercase e1 he1, wordlist_lowercase e he] at hf
    exact hf
  exact ⟨in_word_set_none str len hlen hk, vfast_perfect_hash_unknown t str len hlen hk⟩

theorem C10_case_sensitivity_witness :
    (in_word_set (cstr "FN") 2 = some none ∧
      vfast_perfect_hash ⟨true, true⟩ (cstr "FN") 2 = some vfast__Unknown) ∧
    (in_word_set (cstr "Unsafe") 6 = some none ∧
      vfast_perfect_hash ⟨false, true⟩ (cstr "Unsafe") 6 = some vfast__Unknown) :=
  ⟨C10_case_sensitivity ⟨true, true⟩ (slot "fn" 79) (by decide!) (by decide!) (cstr "FN") 2
      (by decide) (by decide!) (by decide!),
    C10_case_sensitivity ⟨false, true⟩ (slot "unsafe" 113) (by decide!) (by decide!)
      (cstr "Unsafe") 6 (by decide) (by decide!) (by decide!)⟩

/-- Within the buffer the result of `vfast_perfect_hash` is the same on every
target. -/
theorem vfast_perfect_hash_targets (t1 t2 : Target) (str : List Byte) (len : Nat)
    (hlen : len ≤ str.length) :
    vfast_perfect_hash t1 str len = vfast_perfect_hash t2 str len := by
  by_cases hk : ∃ e ∈ wordlist, e.name ≠ [] ∧ str.take len = e.name
  · obtain ⟨e, he, hne, hname⟩ := hk
    rw [vfast_perfect_hash_complete t1 str len e he hne hlen hname,
      vfast_perfect_hash_complete t2 str len e he hne hlen hname]
  · have hk1 : ∀ e ∈ wordlist, e.name ≠ [] → str.take len ≠ e.name := by
      intro e he hne hname
      exact hk ⟨e, he, hne, hname⟩
    rw [vfast_perfect_hash_unknown t1 str len hlen hk1,
      vfast_perfect_hash_unknown t2 str len hlen hk1]

theorem load_uu32_eq_none (le : Bool) (s : List Byte) (i : Nat) :
    load_uu32 le s i = none ↔ s.length < i + 4 := by
  unfold load_uu32
  constructor
  · intro h
    by_contra hc
    have h0 : i < s.length := by omega
    have h1 : i + 1 < s.length := by omega
    have h2 : i + 2 < s.length := by omega
    have h3 : i + 3 < s.length := by omega
    rw [List.getElem?_eq_getElem h0, List.getElem?_eq_getElem h1, List.getElem?_eq_getElem h2,
      List.getElem?_eq_getElem h3] at h
    cases le <;> simp at h
  · intro h
    have h3 : s[i + 3]? = none := List.getElem?_eq_none (by omega)
    rw [h3]
    split
    · rename_i heq
      simp at heq
    · rfl

theorem load_uu64_eq_none (le : Bool) (s : List Byte) (i : Nat) :
    load_uu64 le s i = none ↔ s.length < i + 8 := by
  unfold load_uu64
  constructor
  · intro h
    by_contra hc
    have h0 : i < s.length := by omega
    have h1 : i + 1 < s.length := by omega
    have h2 : i + 2 < s.length := by omega
    have h3 : i + 3 < s.length := by omega
    have h4 : i + 4 < s.length := by omega
    have h5 : i + 5 < s.length := by omega
    have h6 : i + 6 < s.length := by omega
    have h7 : i + 7 < s.length := by omega
    rw [List.getElem?_eq_getElem h0, List.getElem?_eq_getElem h1, List.getElem?_eq_getElem h2,
      List.getElem?_eq_getElem h3, List.getElem?_eq_getElem h4, List.getElem?_eq_getElem h5,
      List.getElem?_eq_getElem h6, List.getElem?_eq_getElem h7] at h
    cases le <;> simp at h
  · intro h
    have h7 : s[i + 7]? = none := List.getElem?_eq_none (by omega)
    rw [h7]
    split
    · rename_i heq
      simp at heq
    · rfl

theorem char_at_eq_none (s : List Byte) (i : Nat) : char_at s i = none ↔ s.length ≤ i := by
  simp [char_at]

/-! ## Packed constants -/

/-- Bits set below a multiple of `2 ^ i` add up. -/
theorem or_low (x b i : Nat) (hx : 2 ^ i ∣ x) (hb : b < 2 ^ i) : x ||| b = x + b := by
  obtain ⟨a, rfl⟩ := hx
  exact (Nat.mul_add_lt_is_or hb a).symm

theorem or_high (a x i : Nat) (hx : 2 ^ i ∣ x) (ha : a < 2 ^ i) : a ||| x = a + x := by
  rw [Nat.or_comm, or_low x a i hx ha, Nat.add_comm]

/-- The 8-bit case label of the character `c`. -/
theorem label8 (le : Bool) (c : Char) (h : c.toNat < 256) :
    0 ||| onechar le c 0 8 = c.toNat := by
  cases le <;>
  · simp only [onechar_true, onechar_false, Nat.zero_or, Nat.shiftLeft_eq]
    norm_num
    omega

/-- The 32-bit case label of four characters is the value of their bytes in
the byte order of the machine. -/
theorem label32 (le : Bool) (c0 c1 c2 c3 : Char) (h0 : c0.toNat < 256) (h1 : c1.toNat < 256)
    (h2 : c2.toNat < 256) (h3 : c3.toNat < 256) :
    0 ||| onechar le c0 0 32 ||| onechar le c1 8 32 ||| onechar le c2 16 32
        ||| onechar le c3 24 32
      = if le then c0.toNat + c1.toNat * 2 ^ 8 + c2.toNat * 2 ^ 16 + c3.toNat * 2 ^ 24
        else c0.toNat * 2 ^ 24 + c1.toNat * 2 ^ 16 + c2.toNat * 2 ^ 8 + c3.toNat := by
  cases le
  · simp only [onechar_false, Nat.zero_or, Nat.shiftLeft_eq, Bool.false_eq_true, if_false]
    generalize c0.toNat = n0 at *
    generalize c1.toNat = n1 at *
    generalize c2.toNat = n2 at *
    generalize c3.toNat = n3 at *
    norm_num
    rw [Nat.mod_eq_of_lt (show n0 * 16777216 < 18446744073709551616 by omega),
      Nat.mod_eq_of_lt (show n1 * 65536 < 18446744073709551616 by omega),
      Nat.mod_eq_of_lt (show n2 * 256 < 18446744073709551616 by omega),
      Nat.mod_eq_of_lt (show n3 < 18446744073709551616 by omega)]
    rw [or_low (n0 * 16777216) (n1 * 65536) 24 (by omega) (by omega),
      or_low (n0 * 16777216 + n1 * 65536) (n2 * 256) 16 (by omega)
        (by omega),
      or_low (n0 * 16777216 + n1 * 65536 + n2 * 256) n3 8 (by omega)
        (by omega)]
  · simp only [onechar_true, Nat.zero_or, Nat.shiftLeft_eq, if_true]
    generalize c0.toNat = n0 at *
    generalize c1.toNat = n1 at *
    generalize c2.toNat = n2 at *
    generalize c3.toNat = n3 at *
    norm_num
    rw [Nat.mod_eq_of_lt (show n0 < 18446744073709551616 by omega),
      Nat.mod_eq_of_lt (show n1 * 256 < 18446744073709551616 by omega),
      Nat.mod_eq_of_lt (show n2 * 65536 < 18446744073709551616 by omega),
      Nat.mod_eq_of_lt (show n3 * 16777216 < 18446744073709551616 by omega)]
    rw [or_high n0 (n1 * 256) 8 (by omega) (by omega),
      or_high (n0 + n1 * 256) (n2 * 65536) 16 (by omega) (by omega),
      or_high (n0 + n1 * 256 + n2 * 65536) (n3 * 16777216) 24 (by omega)
        (by omega)]

/-- The 64-bit case label of eight characters is the value of their bytes in
the byte order of the machine. -/
theorem label64 (le : Bool) (c0 c1 c2 c3 c4 c5 c6 c7 : Char)
    (h0 : c0.toNat < 256) (h1 : c1.toNat < 256) (h2 : c2.toNat < 256) (h3 : c3.toNat < 256)
    (h4 : c4.toNat < 256) (h5 : c5.toNat < 256) (h6 : c6.toNat < 256) (h7 : c7.toNat < 256) :
    0 ||| onechar le c0 0 64 ||| onechar le c1 8 64 ||| onechar le c2 16 64
        ||| onechar le c3 24 64 ||| onechar le c4 32 64 ||| onechar le c5 40 64
        ||| onechar le c6 48 64 ||| onechar le c7 56 64
      = if le then
          c0.toNat + c1.toNat * 2 ^ 8 + c2.toNat * 2 ^ 16 + c3.toNat * 2 ^ 24
            + c4.toNat * 2 ^ 32 + c5.toNat * 2 ^ 40 + c6.toNat * 2 ^ 48 + c7.toNat * 2 ^ 56
        else
          c0.toNat * 2 ^ 56 + c1.toNat * 2 ^ 48 + c2.toNat * 2 ^ 40 + c3.toNat * 2 ^ 32
            + c4.toNat * 2 ^ 24 + c5.toNat * 2 ^ 16 + c6.toNat * 2 ^ 8 + c7.toNat := by
  cases le
  · simp only [onechar_false, Nat.zero_or, Nat.shiftLeft_eq, Bool.false_eq_true,
      if_false]
    generalize c0.toNat = n0 at *
    generalize c1.toNat = n1 at *
    generalize c2.toNat = n2 at *
    generalize c3.toNat = n3 at *
    generalize c4.toNat = n4 at *
    generalize c5.toNat = n5 at *
    generalize c6.toNat = n6 at *
    generalize c7.toNat = n7 at *
    norm_num
    rw [Nat.mod_eq_of_lt (show n0 * 72057594037927936 < 18446744073709551616 by omega),
      Nat.mod_eq_of_lt (show n1 * 281474976710656 < 18446744073709551616 by omega),
      Nat.mod_eq_of_lt (show n2 * 1099511627776 < 18446744073709551616 by omega),
      Nat.mod_eq_of_lt (show n3 * 4294967296 < 18446744073709551616 by omega),
      Nat.mod_eq_of_lt (show n4 * 16777216 < 18446744073709551616 by omega),
      Nat.mod_eq_of_lt (show n5 * 65536 < 18446744073709551616 by omega),
      Nat.mod_eq_of_lt (show n6 * 256 < 18446744073709551616 by omega),
      Nat.mod_eq_of_lt (show n7 < 18446744073709551616 by omega)]
    rw [or_low (n0 * 72057594037927936) (n1 * 281474976710656) 56 (by omega) (by omega),
      or_low (n0 * 72057594037927936 + n1 * 281474976710656) (n2 * 1099511627776) 48
        (by omega) (by omega),
      or_low (n0 * 72057594037927936 + n1 * 281474976710656 + n2 * 1099511627776) (n3 * 4294967296) 40
        (by omega) (by omega),
      or_low (n0 * 72057594037927936 + n1 * 281474976710656 + n2 * 1099511627776 + n3 * 4294967296) (n4 * 16777216) 32
        (by omega) (by omega),
      or_low (n0 * 72057594037927936 + n1 * 281474976710656 + n2 * 1099511627776 + n3 * 4294967296 + n4 * 16777216) (n5 * 65536) 24
        (by omega) (by omega),
      or_low (n0 * 72057594037927936 + n1 * 281474976710656 + n2 * 1099511627776 + n3 * 4294967296 + n4 * 16777216 + n5 * 65536) (n6 * 256) 16
        (by omega) (by omega),
      or_low (n0 * 72057594037927936 + n1 * 281474976710656 + n2 * 1099511627776 + n3 * 4294967296 + n4 * 16777216 + n5 * 65536 + n6 * 256) (n7) 8
        (by omega) (by omega)]
  · simp only [onechar_true, Nat.zero_or, Nat.shiftLeft_eq, if_true]
    generalize c0.toNat = n0 at *
    generalize c1.toNat = n1 at *
    generalize c2.toNat = n2 at *
    generalize c3.toNat = n3 at *
    generalize c4.toNat = n4 at *
    generalize c5.toNat = n5 at *
    generalize c6.toNat = n6 at *
    generalize c7.toNat = n7 at *
    norm_num
    rw [Nat.mod_eq_of_lt (show n0 < 18446744073709551616 by omega),
      Nat.mod_eq_of_lt (show n1 * 256 < 18446744073709551616 by omega),
      Nat.mod_eq_of_lt (show n2 * 65536 < 18446744073709551616 by omega),
      Nat.mod_eq_of_lt (show n3 * 16777216 < 18446744073709551616 by omega),
      Nat.mod_eq_of_lt (show n4 * 4294967296 < 18446744073709551616 by omega),
      Nat.mod_eq_of_lt (show n5 * 1099511627776 < 18446744073709551616 by omega),
      Nat.mod_eq_of_lt (show n6 * 281474976710656 < 18446744073709551616 by omega),
      Nat.mod_eq_of_lt (show n7 * 72057594037927936 < 18446744073709551616 by omega)]
    rw [or_high (n0) (n1 * 256) 8 (by omega) (by omega),
      or_high (n0 + n1 * 256) (n2 * 65536) 16 (by omega) (by omega),
      or_high (n0 + n1 * 256 + n2 * 65536) (n3 * 16777216) 24 (by omega) (by omega),
      or_high (n0 + n1 * 256 + n2 * 65536 + n3 * 16777216) (n4 * 4294967296) 32
        (by omega) (by omega),
      or_high (n0 + n1 * 256 + n2 * 65536 + n3 * 16777216 + n4 * 4294967296) (n5 * 1099511627776) 40
        (by omega) (by omega),
      or_high (n0 + n1 * 256 + n2 * 65536 + n3 * 16777216 + n4 * 4294967296 + n5 * 1099511627776) (n6 * 281474976710656) 48
        (by omega) (by omega),
      or_high (n0 + n1 * 256 + n2 * 65536 + n3 * 16777216 + n4 * 4294967296 + n5 * 1099511627776 + n6 * 281474976710656) (n7 * 72057594037927936) 56
        (by omega) (by omega)]

/-! ## A result obtained on a buffer is kept when the buffer is extended -/

theorem getElem?_append_some {s ext : List Byte} {i : Nat} {b : Byte} (h : s[i]? = some b) :
    (s ++ ext)[i]? = some b := by
  have hi : i < s.length := (List.getElem?_eq_some.mp h).1
  rw [List.getElem?_append_left hi, h]

theorem asso_at_mono (asso : List Nat) (s ext : List Byte) (i a : Nat)
    (h : asso_at asso s i = some a) : asso_at asso (s ++ ext) i = some a := by
  unfold asso_at at h ⊢
  cases hs : s[i]? with
  | none => simp [hs] at h
  | some c =>
    rw [getElem?_append_some hs]
    simpa [hs] using h

theorem gperf_hash_on_mono (asso : List Nat) (s ext : List Byte) (len key : Nat)
    (h : gperf_hash_on asso s len = some key) :
    gperf_hash_on asso (s ++ ext) len = some key := by
  unfold gperf_hash_on at h ⊢
  dsimp only at h ⊢
  generalize len % 2 ^ 32 = m at h ⊢
  have read : ∀ i, asso_at asso s i = none ∨
      asso_at asso (s ++ ext) i = asso_at asso s i := by
    intro i
    cases hi : asso_at asso s i with
    | none => exact Or.inl rfl
    | some a => exact Or.inr (asso_at_mono asso s ext i a hi)
  have r0 := read 0
  have r1 := read 1
  have r2 := read 2
  rcases r0 with r0 | r0
  · rw [r0] at h
    exfalso
    revert h
    split_ifs <;> simp
  rw [r0]
  by_cases c1 : m = 1
  · subst c1
    simpa using h
  · rcases r1 with r1 | r1
    · rw [r1] at h
      exfalso
      revert h
      simp only [ne_eq, c1, not_false_eq_true, and_true, if_true, Option.map_none']
      split_ifs <;> simp
    rw [r1]
    by_cases c2 : m = 2
    · subst c2
      simpa using h
    · rcases r2 with r2 | r2
      · rw [r2] at h
        exfalso
        revert h
        simp [c1, c2]
      rw [r2]
      exact h

theorem memcmp_mono (a b ext : List Byte) (n : Nat) (r : Int) (h : memcmp a b n = some r) :
    memcmp (a ++ ext) b n = some r := by
  induction n generalizing a b r with
  | zero => simpa [memcmp] using h
  | succ n ih =>
    cases a with
    | nil => simp [memcmp] at h
    | cons x a =>
      cases b with
      | nil => simp [memcmp] at h
      | cons y b =>
        rw [List.cons_append]
        simp only [memcmp] at h ⊢
        cases hr : memcmp a b n with
        | none => simp [hr] at h
        | some r1 =>
          rw [ih a b r1 hr]
          simpa [hr] using h

theorem in_word_set_on_mono (asso lengths : List Nat) (words : List GPerfResult)
    (s ext : List Byte) (len : Nat) (r : Option GPerfResult)
    (h : in_word_set_on asso lengths words s len = some r) :
    in_word_set_on asso lengths words (s ++ ext) len = some r := by
  unfold in_word_set_on at h ⊢
  by_cases hr : len ≤ MAX_WORD_LENGTH ∧ len ≥ MIN_WORD_LENGTH
  · simp only [hr, and_self, if_true] at h ⊢
    cases hk : gperf_hash_on asso s len with
    | none => simp [hk] at h
    | some key =>
      rw [gperf_hash_on_mono asso s ext len key hk]
      rw [hk] at h
      dsimp only at h ⊢
      by_cases hm : key ≤ MAX_HASH_VALUE
      · simp only [hm, if_true] at h ⊢
        cases hl : lengths[key]? with
        | none => simp [hl] at h
        | some l =>
          rw [hl] at h
          dsimp only at h ⊢
          by_cases hll : len = l
          · simp only [hll, if_true] at h ⊢
            cases hw : words[key]? with
            | none => simp [hw] at h
            | some e =>
              rw [hw] at h
              dsimp only at h ⊢
              cases h0 : s[0]? with
              | none => simp [h0] at h
              | some c =>
                rw [getElem?_append_some h0]
                rw [h0] at h
                cases hd : (c_storage e.name)[0]? with
                | none => simp [hd] at h
                | some d =>
                  rw [hd] at h
                  dsimp only at h ⊢
                  by_cases hcd : c = d
                  · simp only [hcd, if_true] at h ⊢
                    have hdrop : List.drop 1 (s ++ ext) = List.drop 1 s ++ ext := by
                      cases s with
                      | nil => simp at h0
                      | cons x xs => simp
                    rw [hdrop]
                    cases hmc : memcmp (List.drop 1 s) (List.drop 1 (c_storage e.name)) (l - 1) with
                    | none =>
                      rw [hmc] at h
                      simp at h
                    | some r1 =>
                      rw [memcmp_mono _ _ ext _ r1 hmc]
                      rw [hmc] at h
                      exact h
                  · simp only [hcd, if_false] at h ⊢
                    exact h
          · simp only [hll, if_false] at h ⊢
            exact h
      · simp only [hm, if_false] at h ⊢
        exact h
  · simp only [hr, if_false] at h ⊢
    exact h

/-- A returned entry needs every byte below `len`: on a shorter buffer there
is no result. -/
theorem in_word_set_short (str : List Byte) (len : Nat) (e : GPerfResult)
    (he : in_word_set str len = some (some e)) (n : Nat) (hn : n < len) :
    in_word_set (str.take n) len = none := by
  cases hr : in_word_set (str.take n) len with
  | none => rfl
  | some r =>
    exfalso
    have h1 := in_word_set_on_mono _ _ _ (str.take n) (str.drop n) len r hr
    rw [List.take_append_drop] at h1
    have h2 : in_word_set str len = some r := h1
    rw [he] at h2
    simp only [Option.some.injEq] at h2
    subst h2
    obtain ⟨_, _, _, hle, _⟩ := in_word_set_sound (str.take n) len e hr
    simp only [List.length_take] at hle
    omega

theorem gperf_hash_isSome (str : List Byte) (len : Nat) (hlen : len ≤ str.length)
    (h1 : 1 ≤ len) : (gperf_hash str len).isSome = true := by
  have rd : ∀ i, i < len → (asso_at asso_values str i).isSome = true := by
    intro i hi
    have hi2 : i < str.length := by omega
    simp only [asso_at, List.getElem?_eq_getElem hi2]
    have : (str[i]).val < asso_values.length := by rw [asso_values_length]; exact (str[i]).isLt
    simp [List.getElem?_eq_getElem this]
  unfold gperf_hash gperf_hash_on
  obtain ⟨a0, h0⟩ := Option.isSome_iff_exists.mp (rd 0 (by omega))
  rw [h0]
  by_cases c1 : len % 2 ^ 32 ≠ 1
  · have hl2 : 2 ≤ len := by
      by_contra hc
      have : len = 1 := by omega
      rw [this] at c1
      exact c1 (by norm_num)
    obtain ⟨a1, h1⟩ := Option.isSome_iff_exists.mp (rd 1 (by omega))
    rw [h1]
    by_cases c2 : len % 2 ^ 32 ≠ 2 ∧ len % 2 ^ 32 ≠ 1
    · have hl3 : 3 ≤ len := by
        by_contra hc
        have : len = 2 := by omega
        rw [this] at c2
        exact c2.1 (by norm_num)
      obtain ⟨a2, h2⟩ := Option.isSome_iff_exists.mp (rd 2 (by omega))
      rw [h2]
      dsimp only
      split_ifs
      rfl
    · dsimp only
      split_ifs
      rfl
  · dsimp only
    split_ifs <;> first | rfl | (exfalso; tauto)

/-! ## The hash of `gperf_hash` -/

theorem asso_values_get (b : Byte) :
    asso_values[b.val]? = some (asso_values.getD b.val 0) := by
  have h : b.val < asso_values.length := by rw [asso_values_length]; exact b.isLt
  rw [List.getD_eq_getElem?_getD, List.getElem?_eq_getElem h]
  rfl

theorem asso_values_le : ∀ b : Byte, asso_values.getD b.val 0 ≤ 86 := by
  decide!

theorem asso_at_cons_zero (b : Byte) (l : List Byte) :
    asso_at asso_values (b :: l) 0 = some (asso_values.getD b.val 0) := by
  unfold asso_at
  rw [List.getElem?_cons_zero]
  exact asso_values_get b

theorem asso_at_cons_succ (asso : List Nat) (b : Byte) (l : List Byte) (i : Nat) :
    asso_at asso (b :: l) (i + 1) = asso_at asso l i := by
  simp [asso_at]

/-- The hash of a word of two bytes. -/
theorem gperf_hash_two (b0 b1 : Byte) (rest : List Byte) :
    gperf_hash (b0 :: b1 :: rest) 2
      = some (2 + asso_values.getD b1.val 0 + asso_values.getD b0.val 0) := by
  have h0 := asso_values_le b0
  have h1 := asso_values_le b1
  have e1 : asso_at asso_values (b0 :: b1 :: rest) 1 = some (asso_values.getD b1.val 0) := by
    rw [asso_at_cons_succ, asso_at_cons_zero]
  simp only [gperf_hash, gperf_hash_on, asso_at_cons_zero, e1]
  generalize asso_values.getD b0.val 0 = a0 at *
  generalize asso_values.getD b1.val 0 = a1 at *
  norm_num
  omega

/-- The hash of a word of three to ten bytes. -/
theorem gperf_hash_three (b0 b1 b2 : Byte) (rest : List Byte) (len : Nat) (h3 : 3 ≤ len)
    (h10 : len ≤ 10) :
    gperf_hash (b0 :: b1 :: b2 :: rest) len
      = some (len + asso_values.getD b2.val 0 + asso_values.getD b1.val 0
          + asso_values.getD b0.val 0) := by
  have h0 := asso_values_le b0
  have h1 := asso_values_le b1
  have h2 := asso_values_le b2
  have e1 : asso_at asso_values (b0 :: b1 :: b2 :: rest) 1
      = some (asso_values.getD b1.val 0) := by
    rw [asso_at_cons_succ, asso_at_cons_zero]
  have e2 : asso_at asso_values (b0 :: b1 :: b2 :: rest) 2
      = some (asso_values.getD b2.val 0) := by
    rw [asso_at_cons_succ, asso_at_cons_succ, asso_at_cons_zero]
  have hm : len % 2 ^ 32 = len := Nat.mod_eq_of_lt (by omega)
  have c2 : len ≠ 2 ∧ len ≠ 1 := by omega
  simp only [gperf_hash, gperf_hash_on, asso_at_cons_zero, e1, e2, hm, c2, c2.2, and_self,
    if_true, ne_eq, not_false_eq_true, Option.map_some', Option.some_bind, Option.some.injEq]
  generalize asso_values.getD b0.val 0 = a0 at *
  generalize asso_values.getD b1.val 0 = a1 at *
  generalize asso_values.getD b2.val 0 = a2 at *
  norm_num
  omega

/-- The hash reads the bytes 0, 1 and 2 at most. -/
theorem gperf_hash_take_three (a b : List Byte) (len : Nat) (h : a.take 3 = b.take 3) :
    gperf_hash a len = gperf_hash b len := by
  have key : ∀ i, i < 3 → asso_at asso_values a i = asso_at asso_values b i := by
    intro i hi
    unfold asso_at
    rw [← List.getElem?_take_of_lt hi, h, List.getElem?_take_of_lt hi]
  unfold gperf_hash gperf_hash_on
  rw [key 0 (by omega), key 1 (by omega), key 2 (by omega)]

/-- The body of `in_word_set` after the hash has been computed. -/
theorem in_word_set_on_of_hash (asso lengths : List Nat) (words : List GPerfResult)
    (str : List Byte) (len key : Nat) (h2 : 2 ≤ len) (h10 : len ≤ 10)
    (hkey : gperf_hash_on asso str len = some key) :
    in_word_set_on asso lengths words str len =
      if key ≤ MAX_HASH_VALUE then
        match lengths[key]? with
        | none => none
        | some l =>
          if len = l then
            match words[key]? with
            | none => none
            | some e =>
              match str[0]?, (c_storage e.name)[0]? with
              | some c, some d =>
                if c = d then
                  match memcmp (str.drop 1) ((c_storage e.name).drop 1) (len - 1) with
                  | none => none
                  | some r => if r = 0 then some (some e) else some none
                else some none
              | _, _ => none
          else some none
      else some none := by
  have hr : len ≤ MAX_WORD_LENGTH ∧ len ≥ MIN_WORD_LENGTH := ⟨h10, h2⟩
  unfold in_word_set_on
  rw [if_pos hr, hkey]

theorem lengthtable_low : ∀ k, k < 7 → lengthtable[k]? = some 0 := by
  decide

/-- The facts of the tables slot by slot: the length entry is the length of the
name, and an occupied slot sits at the hash of its name. -/
theorem wordlist_slots :
    ∀ p ∈ wordlist.enum,
      lengthtable[p.1]? = some p.2.name.length ∧
      (p.2.name ≠ [] → gperf_hash p.2.name p.2.name.length = some p.1) := by
  decide!

/-! ## The claims on read safety, the variants and the tables -/

/-- C11 (read safety of the trie classifier): for every length and every buffer
that holds at least `length` bytes, `vfast_perfect_hash`, in the multi-byte
variant under either byte order and in the single-byte variant, returns a
result on the buffer cut after `length` bytes, where every read at an index
`>= length` is out of range, and that result is the one on the whole buffer.
A chunk read has a result only when all its bytes are in the buffer, so every
4-byte or 8-byte chunk that is read lies below `length`; the matchers with a
4-byte chunk read it at the indices 0..3 and those with an 8-byte chunk at
0..7, as they have no result on a shorter buffer. -/
theorem C11_trie_read_safety (t : Target) (string : List Byte) (length : Nat)
    (hlen : length ≤ string.length) :
    (∃ c, vfast_perfect_hash t (string.take length) length = some c ∧
      vfast_perfect_hash t string length = some c) ∧
    (∀ le s i, load_uu32 le s i = none ↔ s.length < i + 4) ∧
    (∀ le s i, load_uu64 le s i = none ↔ s.length < i + 8) ∧
    (∀ s i, char_at s i = none ↔ s.length ≤ i) ∧
    (∀ le s, s.length < 4 → MultiByte.vfast_perfect_hash4 le s = none ∧
      MultiByte.vfast_perfect_hash5 le s = none ∧ MultiByte.vfast_perfect_hash6 le s = none) ∧
    (∀ le s, s.length < 8 → MultiByte.vfast_perfect_hash8 le s = none ∧
      MultiByte.vfast_perfect_hash9 le s = none ∧ MultiByte.vfast_perfect_hash10 le s = none) := by
  refine ⟨?_, load_uu32_eq_none, load_uu64_eq_none, char_at_eq_none, ?_, ?_⟩
  · obtain ⟨c, hc⟩ :=
      Option.isSome_iff_exists.mp (vfast_perfect_hash_total t string length hlen)
    exact ⟨c, by rw [vfast_perfect_hash_take, hc], hc⟩
  · intro le s hs
    have h : load_uu32 le s 0 = none := (load_uu32_eq_none le s 0).mpr (by omega)
    simp [MultiByte.vfast_perfect_hash4, MultiByte.vfast_perfect_hash5,
      MultiByte.vfast_perfect_hash6, h]
  · intro le s hs
    have h : load_uu64 le s 0 = none := (load_uu64_eq_none le s 0).mpr (by omega)
    simp [MultiByte.vfast_perfect_hash8, MultiByte.vfast_perfect_hash9,
      MultiByte.vfast_perfect_hash10, h]

theorem C11_trie_read_safety_witness :
    (∃ c, vfast_perfect_hash ⟨true, true⟩ ((cstr "break;").take 5) 5 = some c ∧
      vfast_perfect_hash ⟨true, true⟩ (cstr "break;") 5 = some c) ∧
    (∃ c, vfast_perfect_hash ⟨false, true⟩ ((cstr "typeof").take 4) 4 = some c ∧
      vfast_perfect_hash ⟨false, true⟩ (cstr "typeof") 4 = some c) ∧
    MultiByte.vfast_perfect_hash5 true (cstr "bre") = none ∧
    MultiByte.vfast_perfect_hash5 true (cstr "brea") = none ∧
    MultiByte.vfast_perfect_hash5 true (cstr "xxxx") = some vfast__Unknown ∧
    MultiByte.vfast_perfect_hash5 true (cstr "break") = some vfast__break :=
  ⟨(C11_trie_read_safety ⟨true, true⟩ (cstr "break;") 5 (by decide)).1,
    (C11_trie_read_safety ⟨false, true⟩ (cstr "typeof") 4 (by decide)).1,
    ((C11_trie_read_safety ⟨true, true⟩ (cstr "break;") 5 (by decide)).2.2.2.2.1 true
      (cstr "bre") (by decide)).2.1,
    by decide!, by decide!, by decide!⟩

/-- C12 (read safety of the hash-indexed classifier): for every length and
every buffer that holds at least `len` bytes, `in_word_set` returns a result
on the buffer cut after `len` bytes, where every read at an index `>= len` is
out of range, and that result is the one on the whole buffer.  Outside
`2 <= len <= 10` it returns without calling `gperf_hash`, which has no result
on the empty buffer; `gperf_hash` with `len = 2` returns on a buffer of two
bytes (index 2 is not read) and with `len >= 3` needs index 2; and when the
comparison is reached it needs every byte below `len`. -/
theorem C12_in_word_set_read_safety (str : List Byte) (len : Nat) (hlen : len ≤ str.length) :
    (∃ r, in_word_set (str.take len) len = some r ∧ in_word_set str len = some r) ∧
    (∀ n, gperf_hash [] n = none) ∧
    ((len < 2 ∨ 10 < len) → in_word_set [] len = some none) ∧
    (2 ≤ len → ∃ key, gperf_hash (str.take len) len = some key ∧
      gperf_hash str len = some key) ∧
    (3 ≤ len → len ≤ 10 → gperf_hash (str.take 2) len = none) ∧
    (∀ e, in_word_set str len = some (some e) → ∀ n, n < len →
      in_word_set (str.take n) len = none) := by
  refine ⟨?_, ?_, ?_, ?_, ?_, ?_⟩
  · obtain ⟨r, hr⟩ := Option.isSome_iff_exists.mp (in_word_set_total str len hlen)
    exact ⟨r, by rw [in_word_set_take, hr], hr⟩
  · intro n
    simp [gperf_hash, gperf_hash_on, asso_at]
  · intro h
    have hr : ¬ (len ≤ MAX_WORD_LENGTH ∧ len ≥ MIN_WORD_LENGTH) := by
      simp only [MIN_WORD_LENGTH, MAX_WORD_LENGTH]
      omega
    simp only [in_word_set, in_word_set_on, hr, if_false]
  · intro h2
    have hk := gperf_hash_isSome str len hlen (by omega)
    obtain ⟨key, hkey⟩ := Option.isSome_iff_exists.mp hk
    refine ⟨key, ?_, hkey⟩
    unfold gperf_hash at hkey ⊢
    rw [gperf_hash_on_take _ _ _ h2, hkey]
  · intro h3 h10
    have hn : (str.take 2)[2]? = none := List.getElem?_eq_none (by simp)
    have hm : len % 2 ^ 32 = len := Nat.mod_eq_of_lt (by omega)
    have hc : len % 2 ^ 32 ≠ 2 ∧ len % 2 ^ 32 ≠ 1 := by rw [hm]; omega
    simp only [gperf_hash, gperf_hash_on, asso_at, hn, hc, and_self, if_true, ne_eq,
      not_false_eq_true, Option.map_none', Option.none_bind]
  · intro e he n hn
    exact in_word_set_short str len e he n hn

theorem C12_in_word_set_read_safety_witness :
    (∃ r, in_word_set ((cstr "struct x").take 6) 6 = some r ∧
      in_word_set (cstr "struct x") 6 = some r) ∧
    (∃ key, gperf_hash ((cstr "fn main").take 2) 2 = some key ∧
      gperf_hash (cstr "fn main") 2 = some key) ∧
    gperf_hash ((cstr "for").take 2) 3 = none ∧
    in_word_set ((cstr "struct").take 5) 6 = none ∧
    in_word_set [] 0 = some none :=
  ⟨(C12_in_word_set_read_safety (cstr "struct x") 6 (by decide)).1,
    (C12_in_word_set_read_safety (cstr "fn main") 2 (by decide)).2.2.2.1 (by decide),
    (C12_in_word_set_read_safety (cstr "for") 3 (by decide)).2.2.2.2.1 (by decide) (by decide),
    (C12_in_word_set_read_safety (cstr "struct") 6 (by decide)).2.2.2.2.2 (slot "struct" 103)
      (by decide!) 5 (by decide),
    (C12_in_word_set_read_safety [] 0 (by decide)).2.2.1 (by decide)⟩

/-- C13 (fallback equivalence): for every buffer and every length within it,
the multi-byte variant of `vfast_perfect_hash` (4-byte and 8-byte chunk
comparisons, under either byte order) and the single-byte variant (nested
switches on single bytes) return the same value. -/
theorem C13_fallback_equivalence (le1 le2 : Bool) (string : List Byte) (length : Nat)
    (hlen : length ≤ string.length) :
    vfast_perfect_hash ⟨true, le1⟩ string length
      = vfast_perfect_hash ⟨false, le2⟩ string length ∧
    (vfast_perfect_hash ⟨false, le2⟩ string length).isSome = true :=
  ⟨vfast_perfect_hash_targets _ _ string length hlen,
    vfast_perfect_hash_total _ string length hlen⟩

theorem C13_fallback_equivalence_witness :
    vfast_perfect_hash ⟨true, true⟩ (cstr "volatile int") 8
      = vfast_perfect_hash ⟨false, true⟩ (cstr "volatile int") 8 ∧
    vfast_perfect_hash ⟨true, false⟩ (cstr "volatilx") 8
      = vfast_perfect_hash ⟨false, false⟩ (cstr "volatilx") 8 ∧
    vfast_perfect_hash ⟨false, true⟩ (cstr "volatile int") 8 = some vfast__volatile :=
  ⟨(C13_fallback_equivalence true true (cstr "volatile int") 8 (by decide)).1,
    (C13_fallback_equivalence false false (cstr "volatilx") 8 (by decide)).1,
    by decide!⟩

/-- C14 (endianness independence of the packed constants): under either byte
order `le`, a chunk of 1, 4 or 8 input bytes loaded in that byte order equals
the case label built with `onechar` for that byte order exactly when the
input bytes are the bytes of the characters of the label (for any characters
of one byte, among them every keyword chunk); hence within the buffer the
multi-byte `vfast_perfect_hash` returns the same result under either byte
order. -/
theorem C14_endianness_independence (le : Bool) :
    (∀ c : Char, c.toNat < 256 → ∀ (b : Byte) (rest : List Byte),
      (char_at (b :: rest) 0 = some (0 ||| onechar le c 0 8) ↔ b.val = c.toNat)) ∧
    (∀ c0 c1 c2 c3 : Char, c0.toNat < 256 → c1.toNat < 256 → c2.toNat < 256 →
      c3.toNat < 256 → ∀ (b0 b1 b2 b3 : Byte) (rest : List Byte),
      (load_uu32 le (b0 :: b1 :: b2 :: b3 :: rest) 0
          = some (0 ||| onechar le c0 0 32 ||| onechar le c1 8 32 ||| onechar le c2 16 32
            ||| onechar le c3 24 32) ↔
        b0.val = c0.toNat ∧ b1.val = c1.toNat ∧ b2.val = c2.toNat ∧ b3.val = c3.toNat)) ∧
    (∀ c0 c1 c2 c3 c4 c5 c6 c7 : Char, c0.toNat < 256 → c1.toNat < 256 → c2.toNat < 256 →
      c3.toNat < 256 → c4.toNat < 256 → c5.toNat < 256 → c6.toNat < 256 → c7.toNat < 256 →
      ∀ (b0 b1 b2 b3 b4 b5 b6 b7 : Byte) (rest : List Byte),
      (load_uu64 le (b0 :: b1 :: b2 :: b3 :: b4 :: b5 :: b6 :: b7 :: rest) 0
          = some (0 ||| onechar le c0 0 64 ||| onechar le c1 8 64 ||| onechar le c2 16 64
            ||| onechar le c3 24 64 ||| onechar le c4 32 64 ||| onechar le c5 40 64
            ||| onechar le c6 48 64 ||| onechar le c7 56 64) ↔
        b0.val = c0.toNat ∧ b1.val = c1.toNat ∧ b2.val = c2.toNat ∧ b3.val = c3.toNat ∧
        b4.val = c4.toNat ∧ b5.val = c5.toNat ∧ b6.val = c6.toNat ∧ b7.val = c7.toNat)) ∧
    (∀ (string : List Byte) (length : Nat), length ≤ string.length →
      vfast_perfect_hash ⟨true, le⟩ string length
        = vfast_perfect_hash ⟨true, !le⟩ string length) := by
  refine ⟨?_, ?_, ?_, ?_⟩
  · intro c hc b rest
    rw [char_at_zero, label8 le c hc, Option.some.injEq]
  · intro c0 c1 c2 c3 h0 h1 h2 h3 b0 b1 b2 b3 rest
    rw [load_uu32_cons, label32 le c0 c1 c2 c3 h0 h1 h2 h3, Option.some.injEq]
    unfold pack32
    generalize c0.toNat = n0 at *
    generalize c1.toNat = n1 at *
    generalize c2.toNat = n2 at *
    generalize c3.toNat = n3 at *
    cases le
    · simp only [Bool.false_eq_true, if_false]
      omega
    · simp only [if_true]
      omega
  · intro c0 c1 c2 c3 c4 c5 c6 c7 h0 h1 h2 h3 h4 h5 h6 h7 b0 b1 b2 b3 b4 b5 b6 b7 rest
    rw [load_uu64_cons, label64 le c0 c1 c2 c3 c4 c5 c6 c7 h0 h1 h2 h3 h4 h5 h6 h7,
      Option.some.injEq]
    unfold pack64
    generalize c0.toNat = n0 at *
    generalize c1.toNat = n1 at *
    generalize c2.toNat = n2 at *
    generalize c3.toNat = n3 at *
    generalize c4.toNat = n4 at *
    generalize c5.toNat = n5 at *
    generalize c6.toNat = n6 at *
    generalize c7.toNat = n7 at *
    cases le
    · simp only [Bool.false_eq_true, if_false]
      omega
    · simp only [if_true]
      omega
  · intro string length hlen
    exact vfast_perfect_hash_targets _ _ string length hlen

theorem C14_endianness_independence_witness :
    (load_uu32 true (cstr "dump") 0
        = some (0 ||| onechar true 'd' 0 32 ||| onechar true 'u' 8 32 ||| onechar true 'm' 16 32
          ||| onechar true 'p' 24 32) ↔
      (100 : Nat) = 'd'.toNat ∧ (117 : Nat) = 'u'.toNat ∧ (109 : Nat) = 'm'.toNat ∧
        (112 : Nat) = 'p'.toNat) ∧
    (load_uu32 false (cstr "dumb") 0
        = some (0 ||| onechar false 'd' 0 32 ||| onechar false 'u' 8 32
          ||| onechar false 'm' 16 32 ||| onechar false 'p' 24 32) ↔
      (100 : Nat) = 'd'.toNat ∧ (117 : Nat) = 'u'.toNat ∧ (109 : Nat) = 'm'.toNat ∧
        (98 : Nat) = 'p'.toNat) ∧
    (0 ||| onechar true 'd' 0 32 ||| onechar true 'u' 8 32 ||| onechar true 'm' 16 32
        ||| onechar true 'p' 24 32 = 0x706d7564 ∧
      0 ||| onechar false 'd' 0 32 ||| onechar false 'u' 8 32 ||| onechar false 'm' 16 32
        ||| onechar false 'p' 24 32 = 0x64756d70) ∧
    vfast_perfect_hash ⟨true, true⟩ (cstr "continue;") 8
      = vfast_perfect_hash ⟨true, false⟩ (cstr "continue;") 8 :=
  ⟨(C14_endianness_independence true).2.1 'd' 'u' 'm' 'p' (by decide) (by decide) (by decide)
      (by decide) 100 117 109 112 [],
    (C14_endianness_independence false).2.1 'd' 'u' 'm' 'p' (by decide) (by decide) (by decide)
      (by decide) 100 117 109 98 [],
    by decide,
    (C14_endianness_independence true).2.2.2 (cstr "continue;") 8 (by decide)⟩

/-- C16 (hash formula): for every length with `2 <= length <= 10` and every
buffer that holds at least `length` bytes, `gperf_hash (bytes, length)` is
`length + asso_values[bytes[2]] + asso_values[bytes[1]] + asso_values[bytes[0]]`,
the term of `bytes[2]` being left out when `length = 2`, with the bytes taken
as unsigned values, which index `asso_values` within its 256 entries; and the
hash depends on the length and on the first three bytes only. -/
theorem C16_hash_formula (str : List Byte) (len : Nat) (h2 : 2 ≤ len) (h10 : len ≤ 10)
    (hlen : len ≤ str.length) :
    gperf_hash str len
      = some (len + (if 3 ≤ len then asso_values.getD (str.getD 2 0).val 0 else 0)
          + asso_values.getD (str.getD 1 0).val 0 + asso_values.getD (str.getD 0 0).val 0) ∧
    (∀ b : Byte, b.val < asso_values.length) ∧
    (∀ other : List Byte, other.take 3 = str.take 3 →
      gperf_hash other len = gperf_hash str len) := by
  refine ⟨?_, ?_, ?_⟩
  · obtain ⟨b0, r0, rfl, hl0⟩ := exists_cons_of_succ_le (show 0 + 1 ≤ str.length by omega)
    obtain ⟨b1, r1, rfl, hl1⟩ :=
      exists_cons_of_succ_le (show 0 + 1 ≤ r0.length by simp at hlen; omega)
    by_cases h3 : 3 ≤ len
    · obtain ⟨b2, r2, rfl, hl2⟩ :=
        exists_cons_of_succ_le (show 0 + 1 ≤ r1.length by simp at hlen; omega)
      rw [gperf_hash_three b0 b1 b2 r2 len h3 h10]
      simp [h3]
    · have : len = 2 := by omega
      subst this
      rw [gperf_hash_two]
      simp
  · intro b
    rw [asso_values_length]
    exact b.isLt
  · intro other h
    exact gperf_hash_take_three other str len h

theorem C16_hash_formula_witness :
    gperf_hash (cstr "struct") 6 = some 16 ∧ gperf_hash (cstr "strxxx") 6 = some 16 ∧
    gperf_hash (cstr "fn") 2 = some 27 ∧
    gperf_hash (cstr "str") 6 = gperf_hash (cstr "struct") 6 :=
  ⟨(C16_hash_formula (cstr "struct") 6 (by decide) (by decide) (by decide)).1,
    (C16_hash_formula (cstr "strxxx") 6 (by decide) (by decide) (by decide)).1,
    (C16_hash_formula (cstr "fn") 2 (by decide) (by decide) (by decide)).1,
    (C16_hash_formula (cstr "struct") 6 (by decide) (by decide) (by decide)).2.2 (cstr "str")
      (by decide)⟩

/-- C17 (zero collisions): for each of the 47 keywords, `gperf_hash (keyword,
strlen (keyword))` is the index of the slot of `wordlist` that holds the
keyword, and the 47 hash values are pairwise distinct. -/
theorem C17_zero_collision (k : Nat) (e : GPerfResult) (hk : wordlist[k]? = some e)
    (hne : e.name ≠ []) :
    gperf_hash e.name e.name.length = some k ∧
    ((wordlist.filter (fun e => e.name ≠ [])).map
      (fun e => gperf_hash e.name e.name.length)).Nodup ∧
    (wordlist.filter (fun e => e.name ≠ [])).length = 47 := by
  refine ⟨?_, by decide!, by decide!⟩
  have hmem : (k, e) ∈ wordlist.enum := List.mk_mem_enum_iff_getElem?.mpr hk
  exact (wordlist_slots (k, e) hmem).2 hne

theorem C17_zero_collision_witness :
    gperf_hash (cstr "struct") 6 = some 16 ∧ gperf_hash (cstr "in") 2 = some 7 ∧
    gperf_hash (cstr "break") 5 = some 85 :=
  ⟨(C17_zero_collision 16 (slot "struct" 103) (by decide!) (by decide!)).1,
    (C17_zero_collision 7 (slot "in" 85) (by decide!) (by decide!)).1,
    (C17_zero_collision 85 (slot "break" 71) (by decide!) (by decide!)).1⟩

/-- C18 (the length table is parallel to the slots): `lengthtable` and
`wordlist` have 86 entries each, and for every index `i` in 0..85
`lengthtable[i]` is the byte length of `wordlist[i].name`; it is `0` exactly
when the slot is empty. -/
theorem C18_lengthtable_parallel (i : Nat) (hi : i ≤ MAX_HASH_VALUE) :
    lengthtable.length = 86 ∧ wordlist.length = 86 ∧
    ∃ l e, lengthtable[i]? = some l ∧ wordlist[i]? = some e ∧ l = e.name.length ∧
      (l = 0 ↔ e.name = []) := by
  have hi2 : i < wordlist.length := by
    rw [wordlist_length]
    simp only [MAX_HASH_VALUE] at hi
    omega
  have hw : wordlist[i]? = some wordlist[i] := List.getElem?_eq_getElem hi2
  have hmem : (i, wordlist[i]) ∈ wordlist.enum := List.mk_mem_enum_iff_getElem?.mpr hw
  refine ⟨lengthtable_length, wordlist_length, _, _, (wordlist_slots _ hmem).1, hw, rfl, ?_⟩
  exact List.length_eq_zero

theorem C18_lengthtable_parallel_witness :
    (∃ l e, lengthtable[16]? = some l ∧ wordlist[16]? = some e ∧ l = e.name.length ∧
      (l = 0 ↔ e.name = [])) ∧
    (∃ l e, lengthtable[0]? = some l ∧ wordlist[0]? = some e ∧ l = e.name.length ∧
      (l = 0 ↔ e.name = [])) ∧
    lengthtable[16]? = some 6 ∧ wordlist[16]? = some (slot "struct" 103) ∧
    lengthtable[0]? = some 0 ∧ wordlist[0]? = some (slot "") :=
  ⟨(C18_lengthtable_parallel 16 (by decide)).2.2, (C18_lengthtable_parallel 0 (by decide)).2.2,
    by decide!, by decide!, by decide!, by decide!⟩

/-- C19 (hash-range rejection): for every input with `2 <= length <= 10` whose
hash lies outside `[MIN_HASH_VALUE, MAX_HASH_VALUE] = [7, 85]`, below 7 as well
as above 85, `in_word_set` returns null.  The code tests `key <= MAX_HASH_VALUE`
only: below 7 the rejection comes from the empty slots 0..6 of the tables, and
with other tables the same code accepts a word whose hash is 2. -/
theorem C19_hash_range_rejection (str : List Byte) (len key : Nat) (h2 : 2 ≤ len)
    (h10 : len ≤ 10) (hkey : gperf_hash str len = some key)
    (hout : key < MIN_HASH_VALUE ∨ MAX_HASH_VALUE < key) :
    in_word_set str len = some none ∧
    (gperf_hash (cstr "tt") 2 = some 2 ∧
      in_word_set_on asso_values (lengthtable.set 2 2) (wordlist.set 2 (slot "tt" 1))
        (cstr "tt") 2 = some (some (slot "tt" 1))) := by
  refine ⟨?_, by decide!, by decide!⟩
  unfold in_word_set
  unfold gperf_hash at hkey
  rw [in_word_set_on_of_hash _ _ _ str len key h2 h10 hkey]
  rcases hout with hlow | hhigh
  · simp only [MIN_HASH_VALUE] at hlow
    have hk : key ≤ MAX_HASH_VALUE := by
      simp only [MAX_HASH_VALUE]
      omega
    have hl := lengthtable_low key hlow
    have hne : len ≠ 0 := by omega
    rw [if_pos hk, hl]
    simp only [hne, if_false]
  · have hk : ¬ key ≤ MAX_HASH_VALUE := by omega
    rw [if_neg hk]

theorem C19_hash_range_rejection_witness :
    (gperf_hash (cstr "tt") 2 = some 2 ∧ (2 < MIN_HASH_VALUE ∨ MAX_HASH_VALUE < 2) ∧
      in_word_set (cstr "tt") 2 = some none) ∧
    (gperf_hash (cstr "xyz") 3 = some 179 ∧ (179 < MIN_HASH_VALUE ∨ MAX_HASH_VALUE < 179) ∧
      in_word_set (cstr "xyz") 3 = some none) :=
  ⟨⟨by decide!, by decide!,
      (C19_hash_range_rejection (cstr "tt") 2 2 (by decide!) (by decide!) (by decide!)
        (by decide!)).1⟩,
    ⟨by decide!, by decide!,
      (C19_hash_range_rejection (cstr "xyz") 3 179 (by decide!) (by decide!) (by decide!)
        (by decide!)).1⟩⟩

/-- C20 (length-table rejection): for every input with `2 <= length <= 10` and
hash `key <= 85`, if `lengthtable[key]` differs from the length, as it does for
every empty slot, then `in_word_set` returns null; it does so whatever the table
of the words holds, an empty table included, so no input byte is compared with
the keyword of the slot. -/
theorem C20_length_table_rejection (asso lengths : List Nat) (words : List GPerfResult)
    (str : List Byte) (len key l : Nat) (h2 : 2 ≤ len) (h10 : len ≤ 10)
    (hkey : gperf_hash_on asso str len = some key) (hk : key ≤ MAX_HASH_VALUE)
    (hl : lengths[key]? = some l) (hne : l ≠ len) :
    in_word_set_on asso lengths words str len = some none ∧
    in_word_set_on asso lengths [] str len = some none ∧
    (∀ (k : Nat) (e : GPerfResult), wordlist[k]? = some e → e.name = [] →
      lengthtable[k]? = some 0) := by
  have hne2 : ¬ len = l := fun h => hne h.symm
  refine ⟨?_, ?_, ?_⟩
  · rw [in_word_set_on_of_hash _ _ _ str len key h2 h10 hkey, if_pos hk, hl]
    simp only [hne2, if_false]
  · rw [in_word_set_on_of_hash _ _ _ str len key h2 h10 hkey, if_pos hk, hl]
    simp only [hne2, if_false]
  · intro k e hke hempty
    have hmem : (k, e) ∈ wordlist.enum := List.mk_mem_enum_iff_getElem?.mpr hke
    have h := (wordlist_slots (k, e) hmem).1
    rw [h, hempty]
    rfl

theorem C20_length_table_rejection_witness :
    (gperf_hash (cstr "str") 10 = some 20 ∧ lengthtable[20]? = some 0 ∧
      in_word_set (cstr "str") 10 = some none ∧
      in_word_set_on asso_values lengthtable [] (cstr "str") 10 = some none) ∧
    (gperf_hash (cstr "strx") 4 = some 14 ∧ lengthtable[14]? = some 9 ∧
      wordlist[14]? = some (slot "interface" 86) ∧
      in_word_set (cstr "strx") 4 = some none) :=
  ⟨⟨by decide!, by decide!,
      (C20_length_table_rejection asso_values lengthtable wordlist (cstr "str") 10 20 0
        (by decide) (by decide) (by decide!) (by decide) (by decide!) (by decide)).1,
      (C20_length_table_rejection asso_values lengthtable wordlist (cstr "str") 10 20 0
        (by decide) (by decide) (by decide!) (by decide) (by decide!) (by decide)).2.1⟩,
    ⟨by decide!, by decide!, by decide!,
      (C20_length_table_rejection asso_values lengthtable wordlist (cstr "strx") 4 14 9
        (by decide) (by decide) (by decide!) (by decide) (by decide!) (by decide)).1⟩⟩


/-! ## The comparison of `in_word_set` -/

/-- The comparison `*str == *s && !memcmp (str + 1, s + 1, len - 1)` of a word
of `len` bytes with a name of `len` bytes succeeds exactly on equal bytes. -/
theorem compare_iff (str name : List Byte) (len : Nat) (h2 : 2 ≤ len)
    (hlen : len ≤ str.length) (hname : name.length = len) :
    (∃ c d, str[0]? = some c ∧ (c_storage name)[0]? = some d ∧ c = d ∧
      memcmp (str.drop 1) ((c_storage name).drop 1) (len - 1) = some 0) ↔
    str.take len = name := by
  cases hs : str with
  | nil => simp [hs] at hlen; omega
  | cons x xs =>
    cases hn : name with
    | nil => simp [hn] at hname; omega
    | cons y ys =>
      simp only [hs, hn, List.length_cons] at hlen hname
      have hys : ys.length = len - 1 := by omega
      have t1 : (ys ++ [0]).take (len - 1) = ys := by
        rw [List.take_append_of_le_length (by omega), List.take_of_length_le (by omega)]
      obtain ⟨k, rfl⟩ : ∃ k, len = k + 1 := ⟨len - 1, by omega⟩
      simp only [c_storage, List.cons_append, List.getElem?_cons_zero, Option.some.injEq,
        List.drop_succ_cons, List.drop_zero, Nat.add_sub_cancel, List.take_succ_cons,
        List.cons.injEq]
      simp only [Nat.add_sub_cancel] at t1 hys
      constructor
      · rintro ⟨c, d, rfl, rfl, hcd, hm⟩
        obtain ⟨_, _, m3⟩ := memcmp_eq_zero _ _ _ hm
        rw [t1] at m3
        exact ⟨hcd, m3⟩
      · rintro ⟨hxy, hxs⟩
        refine ⟨x, y, rfl, rfl, hxy, ?_⟩
        apply memcmp_self_take
        · omega
        · simp; omega
        · rw [t1, hxs]

/-- The result of `in_word_set` once the hash and the length entry have led to
the slot `e`. -/
theorem in_word_set_at_slot (str : List Byte) (len key : Nat) (e : GPerfResult)
    (h2 : 2 ≤ len) (h10 : len ≤ 10) (hlen : len ≤ str.length)
    (hkey : gperf_hash str len = some key) (hk : key ≤ MAX_HASH_VALUE)
    (hl : lengthtable[key]? = some len) (he : wordlist[key]? = some e) :
    in_word_set str len = if str.take len = e.name then some (some e) else some none := by
  have hname : e.name.length = len := lengthtable_parallel key len e hl he
  have hcmp := compare_iff str e.name len h2 hlen hname
  unfold in_word_set
  unfold gperf_hash at hkey
  rw [in_word_set_on_of_hash _ _ _ str len key h2 h10 hkey, if_pos hk, hl]
  simp only [if_true, he]
  have h0 : 0 < str.length := by omega
  have hs0 : 0 < (c_storage e.name).length := by simp [c_storage]
  have hm := memcmp_isSome (str.drop 1) ((c_storage e.name).drop 1) (len - 1)
    (by simp; omega) (by simp [c_storage]; omega)
  obtain ⟨r, hr⟩ := Option.isSome_iff_exists.mp hm
  rw [List.getElem?_eq_getElem h0, List.getElem?_eq_getElem hs0] at hcmp ⊢
  simp only
  by_cases hcd : str[0] = (c_storage e.name)[0]
  · rw [if_pos hcd, hr]
    simp only
    by_cases hz : r = 0
    · subst hz
      have ht : str.take len = e.name := hcmp.mp ⟨_, _, rfl, rfl, hcd, hr⟩
      rw [if_pos rfl, if_pos ht]
    · have ht : ¬ str.take len = e.name := by
        intro ht
        obtain ⟨c, d, _, _, _, hm0⟩ := hcmp.mpr ht
        rw [hr] at hm0
        simp only [Option.some.injEq] at hm0
        exact hz hm0
      rw [if_neg hz, if_neg ht]
  · have ht : ¬ str.take len = e.name := by
      intro ht
      obtain ⟨c, d, hc, hd, hcd2, _⟩ := hcmp.mpr ht
      simp only [Option.some.injEq] at hc hd
      rw [← hc, ← hd] at hcd2
      exact hcd hcd2
    rw [if_neg hcd, if_neg ht]

/-- C21 (the byte comparison rejects aliasing inputs): there are inputs that are
no keyword and pass the hash-range test and the length-table test (`strxxx`
has the hash 16 and `lengthtable[16] = 6`, the slot of `struct`); and for every
input that passes both tests with the slot `e`, the comparison
`*str == *s && !memcmp (str + 1, s + 1, len - 1)` succeeds exactly when the
first `len` bytes are the name of `e`, with which `in_word_set` returns `e`,
and null otherwise. -/
theorem C21_byte_comparison (str : List Byte) (len key : Nat) (e : GPerfResult)
    (h2 : 2 ≤ len) (h10 : len ≤ 10) (hlen : len ≤ str.length)
    (hkey : gperf_hash str len = some key) (hk : key ≤ MAX_HASH_VALUE)
    (hl : lengthtable[key]? = some len) (he : wordlist[key]? = some e) :
    (gperf_hash (cstr "strxxx") 6 = some 16 ∧ lengthtable[16]? = some 6 ∧
      wordlist[16]? = some (slot "struct" 103) ∧
      (∀ e ∈ wordlist, e.name ≠ cstr "strxxx")) ∧
    ((∃ c d, str[0]? = some c ∧ (c_storage e.name)[0]? = some d ∧ c = d ∧
        memcmp (str.drop 1) ((c_storage e.name).drop 1) (len - 1) = some 0) ↔
      str.take len = e.name) ∧
    (str.take len = e.name → in_word_set str len = some (some e)) ∧
    (str.take len ≠ e.name → in_word_set str len = some none) := by
  have hname : e.name.length = len := lengthtable_parallel key len e hl he
  have hres := in_word_set_at_slot str len key e h2 h10 hlen hkey hk hl he
  refine ⟨⟨by decide!, by decide!, by decide!, by decide!⟩,
    compare_iff str e.name len h2 hlen hname, ?_, ?_⟩
  · intro ht
    rw [hres, if_pos ht]
  · intro ht
    rw [hres, if_neg ht]

theorem C21_byte_comparison_witness :
    in_word_set (cstr "strxxx") 6 = some none ∧
    in_word_set (cstr "struct") 6 = some (some (slot "struct" 103)) :=
  ⟨(C21_byte_comparison (cstr "strxxx") 6 16 (slot "struct" 103) (by decide) (by decide)
      (by decide) (by decide!) (by decide) (by decide!) (by decide!)).2.2.2 (by decide),
    (C21_byte_comparison (cstr "struct") 6 16 (slot "struct" 103) (by decide) (by decide)
      (by decide) (by decide!) (by decide) (by decide!) (by decide!)).2.2.1 (by decide)⟩

theorem lengthtable_ne_seven : ∀ l ∈ lengthtable, l ≠ 7 := by
  decide

/-- C22 (sparse length dispatch): 7 is the only length in 2..10 that no keyword
has; for a length of 7, `vfast_perfect_hash` returns `vfast__Unknown` on every
buffer, the empty one included, so through the default branch and without a
read of an input byte; and `in_word_set` returns null on every input of 7
bytes, whatever the table of the words holds, as no entry of `lengthtable`
is 7. -/
theorem C22_sparse_length_dispatch (t : Target) (str : List Byte) (words : List GPerfResult)
    (hlen : 7 ≤ str.length) :
    (∀ n, 2 ≤ n → n ≤ 10 → ((∃ e ∈ wordlist, e.name.length = n) ↔ n ≠ 7)) ∧
    (∀ buf : List Byte, vfast_perfect_hash t buf 7 = some vfast__Unknown) ∧
    (∀ l ∈ lengthtable, l ≠ 7) ∧
    in_word_set str 7 = some none ∧
    in_word_set_on asso_values lengthtable words str 7 = some none := by
  have key : ∀ words : List GPerfResult,
      in_word_set_on asso_values lengthtable words str 7 = some none := by
    intro words
    obtain ⟨key, hkey⟩ :=
      Option.isSome_iff_exists.mp (gperf_hash_isSome str 7 hlen (by omega))
    unfold gperf_hash at hkey
    rw [in_word_set_on_of_hash _ _ _ str 7 key (by omega) (by omega) hkey]
    by_cases hk : key ≤ MAX_HASH_VALUE
    · have hk1 : key < lengthtable.length := by
        rw [lengthtable_length]
        simp only [MAX_HASH_VALUE] at hk
        omega
      have hne : ¬ 7 = lengthtable[key] :=
        fun h => lengthtable_ne_seven _ (List.getElem_mem hk1) h.symm
      rw [if_pos hk, List.getElem?_eq_getElem hk1]
      simp only [hne, if_false]
    · rw [if_neg hk]
  refine ⟨?_, ?_, lengthtable_ne_seven, key wordlist, key words⟩
  · have h : ∀ n, n < 11 → 2 ≤ n →
        ((wordlist.any fun e => e.name.length = n) = true ↔ n ≠ 7) := by
      decide!
    intro n h2 h10
    rw [← h n (by omega) h2]
    simp
  · intro buf
    rfl

theorem C22_sparse_length_dispatch_witness :
    ((∃ e ∈ wordlist, e.name.length = 8) ↔ 8 ≠ 7) ∧
    vfast_perfect_hash ⟨true, true⟩ [] 7 = some vfast__Unknown ∧
    in_word_set (cstr "structx") 7 = some none ∧
    in_word_set_on asso_values lengthtable [] (cstr "structx") 7 = some none :=
  ⟨(C22_sparse_length_dispatch ⟨true, true⟩ (cstr "structx") [] (by decide)).1 8 (by decide)
      (by decide),
    (C22_sparse_length_dispatch ⟨true, true⟩ (cstr "structx") [] (by decide)).2.1 [],
    (C22_sparse_length_dispatch ⟨true, true⟩ (cstr "structx") [] (by decide)).2.2.2.1,
    (C22_sparse_length_dispatch ⟨true, true⟩ (cstr "structx") [] (by decide)).2.2.2.2⟩

/-! ## A leading chunk that matches no label -/

theorem ite_eq_of_neg {p : Prop} [Decidable p] {a b r : Option Int} (hp : ¬ p) (h : b = r) :
    (if p then a else b) = r := by
  rw [if_neg hp, h]

theorem hash5_chunk_mismatch (le : Bool) (b0 b1 b2 b3 : Byte) (tail : List Byte)
    (h : ∀ e ∈ wordlist, e.name.length = 5 →
      (e.name.take 4).map Fin.val ≠ [b0.val, b1.val, b2.val, b3.val]) :
    MultiByte.vfast_perfect_hash5 le (b0 :: b1 :: b2 :: b3 :: tail) = some vfast__Unknown := by
  simp only [MultiByte.vfast_perfect_hash5, load_uu32_cons, Option.some_bind, pack32]
  have l0 := b0.isLt; generalize b0.val = n0 at *
  have l1 := b1.isLt; generalize b1.val = n1 at *
  have l2 := b2.isLt; generalize b2.val = n2 at *
  have l3 := b3.isLt; generalize b3.val = n3 at *
  cases le <;>
  · simp only [onechar_true, onechar_false, Char.reduceToNat, Nat.reduceShiftLeft,
      Nat.reduceSub, Nat.reduceMod, Nat.reducePow, Nat.reduceOr, Nat.zero_or, Nat.reduceDiv,
      Bool.false_eq_true, if_true, if_false, pack32_le_eq_iff l0 l1 l2, pack32_be_eq_iff l1 l2 l3]
    repeat' (first | rfl | apply ite_eq_of_neg)
    all_goals
      rintro ⟨rfl, rfl, rfl, rfl⟩
      exact absurd h (by decide!)

theorem hash6_chunk_mismatch (le : Bool) (b0 b1 b2 b3 : Byte) (tail : List Byte)
    (h : ∀ e ∈ wordlist, e.name.length = 6 →
      (e.name.take 4).map Fin.val ≠ [b0.val, b1.val, b2.val, b3.val]) :
    MultiByte.vfast_perfect_hash6 le (b0 :: b1 :: b2 :: b3 :: tail) = some vfast__Unknown := by
  simp only [MultiByte.vfast_perfect_hash6, load_uu32_cons, Option.some_bind, pack32]
  have l0 := b0.isLt; generalize b0.val = n0 at *
  have l1 := b1.isLt; generalize b1.val = n1 at *
  have l2 := b2.isLt; generalize b2.val = n2 at *
  have l3 := b3.isLt; generalize b3.val = n3 at *
  cases le <;>
  · simp only [onechar_true, onechar_false, Char.reduceToNat, Nat.reduceShiftLeft,
      Nat.reduceSub, Nat.reduceMod, Nat.reducePow, Nat.reduceOr, Nat.zero_or, Nat.reduceDiv,
      Bool.false_eq_true, if_true, if_false, pack32_le_eq_iff l0 l1 l2, pack32_be_eq_iff l1 l2 l3]
    repeat' (first | rfl | apply ite_eq_of_neg)
    all_goals
      rintro ⟨rfl, rfl, rfl, rfl⟩
      exact absurd h (by decide!)

theorem hash9_chunk_mismatch (le : Bool) (b0 b1 b2 b3 b4 b5 b6 b7 : Byte) (tail : List Byte)
    (h : ∀ e ∈ wordlist, e.name.length = 9 →
      (e.name.take 8).map Fin.val ≠ [b0.val, b1.val, b2.val, b3.val, b4.val, b5.val, b6.val, b7.val]) :
    MultiByte.vfast_perfect_hash9 le (b0 :: b1 :: b2 :: b3 :: b4 :: b5 :: b6 :: b7 :: tail) = some vfast__Unknown := by
  simp only [MultiByte.vfast_perfect_hash9, load_uu64_cons, Option.some_bind, pack64]
  have l0 := b0.isLt; generalize b0.val = n0 at *
  have l1 := b1.isLt; generalize b1.val = n1 at *
  have l2 := b2.isLt; generalize b2.val = n2 at *
  have l3 := b3.isLt; generalize b3.val = n3 at *
  have l4 := b4.isLt; generalize b4.val = n4 at *
  have l5 := b5.isLt; generalize b5.val = n5 at *
  have l6 := b6.isLt; generalize b6.val = n6 at *
  have l7 := b7.isLt; generalize b7.val = n7 at *
  cases le <;>
  · simp only [onechar_true, onechar_false, Char.reduceToNat, Nat.reduceShiftLeft,
      Nat.reduceSub, Nat.reduceMod, Nat.reducePow, Nat.reduceOr, Nat.zero_or, Nat.reduceDiv,
      Bool.false_eq_true, if_true, if_false, pack64_le_eq_iff l0 l1 l2 l3 l4 l5 l6, pack64_be_eq_iff l1 l2 l3 l4 l5 l6 l7]
    repeat' (first | rfl | apply ite_eq_of_neg)
    all_goals
      rintro ⟨rfl, rfl, rfl, rfl, rfl, rfl, rfl, rfl⟩
      exact absurd h (by decide!)

theorem hash10_chunk_mismatch (le : Bool) (b0 b1 b2 b3 b4 b5 b6 b7 : Byte) (tail : List Byte)
    (h : ∀ e ∈ wordlist, e.name.length = 10 →
      (e.name.take 8).map Fin.val ≠ [b0.val, b1.val, b2.val, b3.val, b4.val, b5.val, b6.val, b7.val]) :
    MultiByte.vfast_perfect_hash10 le (b0 :: b1 :: b2 :: b3 :: b4 :: b5 :: b6 :: b7 :: tail) = some vfast__Unknown := by
  simp only [MultiByte.vfast_perfect_hash10, load_uu64_cons, Option.some_bind, pack64]
  have l0 := b0.isLt; generalize b0.val = n0 at *
  have l1 := b1.isLt; generalize b1.val = n1 at *
  have l2 := b2.isLt; generalize b2.val = n2 at *
  have l3 := b3.isLt; generalize b3.val = n3 at *
  have l4 := b4.isLt; generalize b4.val = n4 at *
  have l5 := b5.isLt; generalize b5.val = n5 at *
  have l6 := b6.isLt; generalize b6.val = n6 at *
  have l7 := b7.isLt; generalize b7.val = n7 at *
  cases le <;>
  · simp only [onechar_true, onechar_false, Char.reduceToNat, Nat.reduceShiftLeft,
      Nat.reduceSub, Nat.reduceMod, Nat.reducePow, Nat.reduceOr, Nat.zero_or, Nat.reduceDiv,
      Bool.false_eq_true, if_true, if_false, pack64_le_eq_iff l0 l1 l2 l3 l4 l5 l6, pack64_be_eq_iff l1 l2 l3 l4 l5 l6 l7]
    repeat' (first | rfl | apply ite_eq_of_neg)
    all_goals
      rintro ⟨rfl, rfl, rfl, rfl, rfl, rfl, rfl, rfl⟩
      exact absurd h (by decide!)

/-- C23 (chunk-mismatch short circuit): in the multi-byte matchers for the
lengths 5 and 6 (chunk of 4 bytes) and 9 and 10 (chunk of 8 bytes), under
either byte order, when the leading chunk of the input is the leading chunk of
no keyword of that length the result is `vfast__Unknown`, whatever follows the
chunk and also when nothing follows it, so no byte at an index from the chunk
width on is read. -/
theorem C23_chunk_mismatch (le : Bool) :
    (∀ (b0 b1 b2 b3 : Byte) (tail : List Byte),
      (∀ e ∈ wordlist, e.name.length = 5 → e.name.take 4 ≠ [b0, b1, b2, b3]) →
      MultiByte.vfast_perfect_hash5 le (b0 :: b1 :: b2 :: b3 :: tail) = some vfast__Unknown) ∧
    (∀ (b0 b1 b2 b3 : Byte) (tail : List Byte),
      (∀ e ∈ wordlist, e.name.length = 6 → e.name.take 4 ≠ [b0, b1, b2, b3]) →
      MultiByte.vfast_perfect_hash6 le (b0 :: b1 :: b2 :: b3 :: tail) = some vfast__Unknown) ∧
    (∀ (b0 b1 b2 b3 b4 b5 b6 b7 : Byte) (tail : List Byte),
      (∀ e ∈ wordlist, e.name.length = 9 →
        e.name.take 8 ≠ [b0, b1, b2, b3, b4, b5, b6, b7]) →
      MultiByte.vfast_perfect_hash9 le (b0 :: b1 :: b2 :: b3 :: b4 :: b5 :: b6 :: b7 :: tail)
        = some vfast__Unknown) ∧
    (∀ (b0 b1 b2 b3 b4 b5 b6 b7 : Byte) (tail : List Byte),
      (∀ e ∈ wordlist, e.name.length = 10 →
        e.name.take 8 ≠ [b0, b1, b2, b3, b4, b5, b6, b7]) →
      MultiByte.vfast_perfect_hash10 le (b0 :: b1 :: b2 :: b3 :: b4 :: b5 :: b6 :: b7 :: tail)
        = some vfast__Unknown) := by
  refine ⟨?_, ?_, ?_, ?_⟩
  · intro b0 b1 b2 b3 tail h
    apply hash5_chunk_mismatch
    intro e he hl hv
    exact h e he hl (map_val_injective hv)
  · intro b0 b1 b2 b3 tail h
    apply hash6_chunk_mismatch
    intro e he hl hv
    exact h e he hl (map_val_injective hv)
  · intro b0 b1 b2 b3 b4 b5 b6 b7 tail h
    apply hash9_chunk_mismatch
    intro e he hl hv
    exact h e he hl (map_val_injective hv)
  · intro b0 b1 b2 b3 b4 b5 b6 b7 tail h
    apply hash10_chunk_mismatch
    intro e he hl hv
    exact h e he hl (map_val_injective hv)

theorem C23_chunk_mismatch_witness :
    MultiByte.vfast_perfect_hash5 true (cstr "brek") = some vfast__Unknown ∧
    MultiByte.vfast_perfect_hash5 true (cstr "brekk") = some vfast__Unknown ∧
    MultiByte.vfast_perfect_hash6 false (cstr "strx") = some vfast__Unknown ∧
    MultiByte.vfast_perfect_hash9 true (cstr "interfax") = some vfast__Unknown ∧
    MultiByte.vfast_perfect_hash10 false (cstr "__offsex") = some vfast__Unknown ∧
    MultiByte.vfast_perfect_hash5 true (cstr "brea") = none :=
  ⟨(C23_chunk_mismatch true).1 98 114 101 107 [] (by decide!),
    (C23_chunk_mismatch true).1 98 114 101 107 [107] (by decide!),
    (C23_chunk_mismatch false).2.1 115 116 114 120 [] (by decide!),
    (C23_chunk_mismatch true).2.2.1 105 110 116 101 114 102 97 120 [] (by decide!),
    (C23_chunk_mismatch false).2.2.2 95 95 111 102 102 115 101 120 [] (by decide!),
    by decide!⟩

theorem wordlist_name_bounds :
    ∀ e ∈ wordlist, e.name ≠ [] →
      MIN_WORD_LENGTH ≤ e.name.length ∧ e.name.length ≤ MAX_WORD_LENGTH := by
  decide!

/-- C24 (keyword length bounds): every non-empty name of `wordlist` has a
length from `MIN_WORD_LENGTH = 2` to `MAX_WORD_LENGTH = 10`, and both bounds
are attained, by `in` and by `__offsetof`. -/
theorem C24_keyword_length_bounds (e : GPerfResult) (he : e ∈ wordlist) (hne : e.name ≠ []) :
    (MIN_WORD_LENGTH = 2 ∧ MAX_WORD_LENGTH = 10) ∧
    (MIN_WORD_LENGTH ≤ e.name.length ∧ e.name.length ≤ MAX_WORD_LENGTH) ∧
    (slot "in" 85 ∈ wordlist ∧ (slot "in" 85).name.length = MIN_WORD_LENGTH) ∧
    (slot "__offsetof" 102 ∈ wordlist ∧
      (slot "__offsetof" 102).name.length = MAX_WORD_LENGTH) :=
  ⟨⟨rfl, rfl⟩, wordlist_name_bounds e he hne, by decide!, by decide!⟩

theorem C24_keyword_length_bounds_witness :
    slot "struct" 103 ∈ wordlist ∧ (slot "struct" 103).name ≠ [] ∧
    (MIN_WORD_LENGTH ≤ (slot "struct" 103).name.length ∧
      (slot "struct" 103).name.length ≤ MAX_WORD_LENGTH) :=
  ⟨by decide!, by decide!,
    (C24_keyword_length_bounds (slot "struct" 103) (by decide!) (by decide!)).2.1⟩

/-! ## The weights of `asso_values` -/

/-- The bytes whose weight in `asso_values` is below 86, and all the other
bytes have the weight 86. -/
theorem asso_values_weights :
    ∀ b : Byte,
      (asso_values.getD b.val 0 < 86 ↔ b ∈ cstr "_abcdefghilmnoprstuvyz") ∧
      (b ∉ cstr "_abcdefghilmnoprstuvyz" → asso_values.getD b.val 0 = 86) := by
  decide!

/-- C25 (sentinel weight rejection): `asso_values` has 256 entries; the 22 byte
values of the characters `_ a b c d e f g h i l m n o p r s t u v y z`, and no
others, carry a weight below 86, and every other byte value carries the weight
`86 = MAX_HASH_VALUE + 1`; so every input of 2 to 10 bytes with a byte outside
these 22 among its first `min (len, 3)` bytes has a hash above `MAX_HASH_VALUE`,
and `in_word_set` returns null for it. -/
theorem C25_sentinel_weight (str : List Byte) (len i : Nat) (b : Byte) (h2 : 2 ≤ len)
    (h10 : len ≤ 10) (hlen : len ≤ str.length) (hi : i < min len 3) (hb : str[i]? = some b)
    (hout : b ∉ cstr "_abcdefghilmnoprstuvyz") :
    asso_values.length = 256 ∧
    ((cstr "_abcdefghilmnoprstuvyz").Nodup ∧ (cstr "_abcdefghilmnoprstuvyz").length = 22) ∧
    (∀ c : Byte, (asso_values.getD c.val 0 < 86 ↔ c ∈ cstr "_abcdefghilmnoprstuvyz") ∧
      (c ∉ cstr "_abcdefghilmnoprstuvyz" → asso_values.getD c.val 0 = MAX_HASH_VALUE + 1)) ∧
    (∃ key, gperf_hash str len = some key ∧ MAX_HASH_VALUE < key) ∧
    in_word_set str len = some none := by
  have hw : asso_values.getD b.val 0 = 86 := (asso_values_weights b).2 hout
  have hkey : ∃ key, gperf_hash str len = some key ∧ MAX_HASH_VALUE < key := by
    obtain ⟨b0, r0, rfl, hl0⟩ := exists_cons_of_succ_le (show 0 + 1 ≤ str.length by omega)
    obtain ⟨b1, r1, rfl, hl1⟩ :=
      exists_cons_of_succ_le (show 0 + 1 ≤ r0.length by simp at hlen; omega)
    by_cases h3 : 3 ≤ len
    · obtain ⟨b2, r2, rfl, hl2⟩ :=
        exists_cons_of_succ_le (show 0 + 1 ≤ r1.length by simp at hlen; omega)
      refine ⟨_, gperf_hash_three b0 b1 b2 r2 len h3 h10, ?_⟩
      simp only [MAX_HASH_VALUE]
      have hi3 : i = 0 ∨ i = 1 ∨ i = 2 := by omega
      rcases hi3 with rfl | rfl | rfl
      all_goals
        simp only [List.getElem?_cons_zero, List.getElem?_cons_succ, Option.some.injEq] at hb
        subst hb
        omega
    · have hl : len = 2 := by omega
      subst hl
      refine ⟨_, gperf_hash_two b0 b1 r1, ?_⟩
      simp only [MAX_HASH_VALUE]
      have hi3 : i = 0 ∨ i = 1 := by omega
      rcases hi3 with rfl | rfl
      all_goals
        simp only [List.getElem?_cons_zero, List.getElem?_cons_succ, Option.some.injEq] at hb
        subst hb
        omega
  refine ⟨asso_values_length, ⟨by decide!, by decide!⟩, asso_values_weights, hkey, ?_⟩
  obtain ⟨key, hk1, hk2⟩ := hkey
  unfold in_word_set
  unfold gperf_hash at hk1
  rw [in_word_set_on_of_hash _ _ _ str len key h2 h10 hk1, if_neg (by omega)]

theorem C25_sentinel_weight_witness :
    (∃ key, gperf_hash (cstr "stk") 3 = some key ∧ MAX_HASH_VALUE < key) ∧
    in_word_set (cstr "stk") 3 = some none ∧
    in_word_set (cstr "Fn") 2 = some none ∧
    in_word_set (cstr "fn1") 2 = some (some (slot "fn" 79)) :=
  ⟨(C25_sentinel_weight (cstr "stk") 3 2 107 (by decide) (by decide) (by decide) (by decide)
      (by decide) (by decide!)).2.2.2.1,
    (C25_sentinel_weight (cstr "stk") 3 2 107 (by decide) (by decide) (by decide) (by decide)
      (by decide) (by decide!)).2.2.2.2,
    (C25_sentinel_weight (cstr "Fn") 2 0 70 (by decide) (by decide) (by decide) (by decide)
      (by decide) (by decide!)).2.2.2.2,
    by decide!⟩

/-- The hash of a word of two to ten bytes lies between 2 and 268. -/
theorem gperf_hash_range (str : List Byte) (len : Nat) (h2 : 2 ≤ len) (h10 : len ≤ 10)
    (hlen : len ≤ str.length) :
    ∃ key, gperf_hash str len = some key ∧ 2 ≤ key ∧ key ≤ 268 := by
  obtain ⟨b0, r0, rfl, hl0⟩ := exists_cons_of_succ_le (show 0 + 1 ≤ str.length by omega)
  obtain ⟨b1, r1, rfl, hl1⟩ :=
    exists_cons_of_succ_le (show 0 + 1 ≤ r0.length by simp at hlen; omega)
  have a0 := asso_values_le b0
  have a1 := asso_values_le b1
  by_cases h3 : 3 ≤ len
  · obtain ⟨b2, r2, rfl, hl2⟩ :=
      exists_cons_of_succ_le (show 0 + 1 ≤ r1.length by simp at hlen; omega)
    have a2 := asso_values_le b2
    exact ⟨_, gperf_hash_three b0 b1 b2 r2 len h3 h10, by omega, by omega⟩
  · have hl : len = 2 := by omega
    subst hl
    exact ⟨_, gperf_hash_two b0 b1 r1, by omega, by omega⟩

/-- C26 (table accesses in bounds, no wrap-around): for every input of 2 to 10
bytes, `gperf_hash` returns a value from 2 to `268 = 10 + 3 * 86`, below
`2 ^ 32`, so no addition wraps; `asso_values` has 256 entries and is indexed
by a byte value; `lengthtable` and `wordlist` have `MAX_HASH_VALUE + 1 = 86`
entries and are indexed with a key that is at most `MAX_HASH_VALUE`, a larger
key giving null whatever the two tables hold, empty tables included; and
`in_word_set` returns a result, no access being out of bounds. -/
theorem C26_table_bounds (str : List Byte) (len : Nat) (h2 : 2 ≤ len) (h10 : len ≤ 10)
    (hlen : len ≤ str.length) :
    (∃ key, gperf_hash str len = some key ∧ 2 ≤ key ∧ key ≤ 268 ∧ key < 2 ^ 32 ∧
      (MAX_HASH_VALUE < key →
        ∀ (lengths : List Nat) (words : List GPerfResult),
          in_word_set_on asso_values lengths words str len = some none)) ∧
    (asso_values.length = 256 ∧ ∀ b : Byte, b.val < asso_values.length ∧
      asso_values.getD b.val 0 ≤ 86) ∧
    (lengthtable.length = MAX_HASH_VALUE + 1 ∧ wordlist.length = MAX_HASH_VALUE + 1) ∧
    (∃ r, in_word_set str len = some r) := by
  refine ⟨?_, ⟨asso_values_length, ?_⟩, ⟨lengthtable_length, wordlist_length⟩,
    Option.isSome_iff_exists.mp (in_word_set_total str len hlen)⟩
  · obtain ⟨key, hk, hk2, hk268⟩ := gperf_hash_range str len h2 h10 hlen
    refine ⟨key, hk, hk2, hk268, by omega, ?_⟩
    intro hbig lengths words
    unfold gperf_hash at hk
    rw [in_word_set_on_of_hash _ _ _ str len key h2 h10 hk, if_neg (by omega)]
  · intro b
    refine ⟨?_, asso_values_le b⟩
    rw [asso_values_length]
    exact b.isLt

theorem C26_table_bounds_witness :
    (∃ key, gperf_hash (cstr "xxxxxxxxxx") 10 = some key ∧ 2 ≤ key ∧ key ≤ 268 ∧ key < 2 ^ 32 ∧
      (MAX_HASH_VALUE < key →
        ∀ (lengths : List Nat) (words : List GPerfResult),
          in_word_set_on asso_values lengths words (cstr "xxxxxxxxxx") 10 = some none)) ∧
    gperf_hash (cstr "xxxxxxxxxx") 10 = some 268 ∧
    in_word_set_on asso_values [] [] (cstr "xxxxxxxxxx") 10 = some none ∧
    (∃ r, in_word_set (cstr "struct") 6 = some r) :=
  ⟨(C26_table_bounds (cstr "xxxxxxxxxx") 10 (by decide) (by decide) (by decide)).1,
    by decide!, by decide!,
    (C26_table_bounds (cstr "struct") 6 (by decide) (by decide) (by decide)).2.2.2⟩

/-! ## The accepted sets -/

theorem wordlist_names_nodup :
    ((wordlist.filter (fun e => e.name ≠ [])).map (fun e => e.name)).Nodup := by
  decide!

theorem wordlist_count : (wordlist.filter (fun e => e.name ≠ [])).length = 47 := by
  decide!

theorem wordlist_code_range : ∀ e ∈ wordlist, e.name ≠ [] → 67 ≤ e.code ∧ e.code ≤ 113 := by
  decide!

theorem wordlist_code_onto :
    ∀ k : Nat, k < 47 → ∃ e ∈ wordlist, e.name ≠ [] ∧ e.code = 67 + (k : Int) := by
  decide!

/-- The words accepted by `in_word_set` are the names of the occupied slots. -/
theorem in_word_set_accepts (w : List Byte) (e : GPerfResult) :
    in_word_set w w.length = some (some e) ↔ e ∈ wordlist ∧ e.name ≠ [] ∧ e.name = w := by
  constructor
  · intro h
    obtain ⟨h1, h2, _, _, h5⟩ := in_word_set_sound w w.length e h
    rw [List.take_length] at h5
    exact ⟨h1, h2, h5⟩
  · rintro ⟨h1, h2, rfl⟩
    exact in_word_set_wordlist e h1 h2

/-- The words accepted by `vfast_perfect_hash` are the names of the occupied
slots, with the codes of the slots. -/
theorem vfast_perfect_hash_accepts (t : Target) (w : List Byte) (c : Int) :
    (vfast_perfect_hash t w w.length = some c ∧ c ≠ vfast__Unknown) ↔
      ∃ e ∈ wordlist, e.name ≠ [] ∧ e.name = w ∧ e.code = c := by
  constructor
  · rintro ⟨h, hc⟩
    obtain ⟨e, h1, h2, h3, h4⟩ :=
      (mem_keyword_values _ _).mp (vfast_perfect_hash_sound t w w.length c (le_refl _) h hc)
    rw [List.take_length] at h3
    exact ⟨e, h1, h2, map_val_injective h3, h4⟩
  · rintro ⟨e, h1, h2, rfl, rfl⟩
    refine ⟨vfast_perfect_hash_wordlist e h1 h2 t.multi_byte t.little_endian, ?_⟩
    intro hu
    have hpos := wordlist_code_pos e h1 h2
    rw [hu] at hpos
    exact absurd hpos (by decide)

theorem code_range_iff (c : Int) :
    (∃ e ∈ wordlist, e.name ≠ [] ∧ e.code = c) ↔ 67 ≤ c ∧ c ≤ 113 := by
  constructor
  · rintro ⟨e, h1, h2, rfl⟩
    exact wordlist_code_range e h1 h2
  · rintro ⟨h1, h2⟩
    obtain ⟨e, he, hne, hc⟩ := wordlist_code_onto (c - 67).toNat (by omega)
    refine ⟨e, he, hne, ?_⟩
    rw [hc]
    omega

/-- C27 (size and code range of the accepted set): the set of the words accepted
by `in_word_set` and the set of the words accepted by `vfast_perfect_hash` (on
any target) have exactly `TOTAL_KEYWORDS = 47` elements each; the codes returned
over them are exactly the integers 67..113, and each of these codes is returned
for exactly one word. -/
theorem C27_accepted_set (t : Target) :
    {w : List Byte | ∃ e, in_word_set w w.length = some (some e)}.ncard = TOTAL_KEYWORDS ∧
    {w : List Byte | ∃ c, vfast_perfect_hash t w w.length = some c ∧
      c ≠ vfast__Unknown}.ncard = TOTAL_KEYWORDS ∧
    (∀ c : Int, (∃ w e, in_word_set w w.length = some (some e) ∧ e.code = c) ↔
      67 ≤ c ∧ c ≤ 113) ∧
    (∀ c : Int, (∃ w, vfast_perfect_hash t w w.length = some c ∧ c ≠ vfast__Unknown) ↔
      67 ≤ c ∧ c ≤ 113) ∧
    (∀ c : Int, 67 ≤ c → c ≤ 113 →
      ∃! w, ∃ e, in_word_set w w.length = some (some e) ∧ e.code = c) ∧
    (∀ c : Int, 67 ≤ c → c ≤ 113 →
      ∃! w, vfast_perfect_hash t w w.length = some c ∧ c ≠ vfast__Unknown) := by
  have hcard : (((wordlist.filter (fun e => e.name ≠ [])).map
      (fun e => e.name)).toFinset : Set (List Byte)).ncard = TOTAL_KEYWORDS := by
    rw [Set.ncard_coe_Finset, List.toFinset_card_of_nodup wordlist_names_nodup,
      List.length_map, wordlist_count]
    rfl
  have hmem : ∀ w : List Byte,
      w ∈ (((wordlist.filter (fun e => e.name ≠ [])).map
        (fun e => e.name)).toFinset : Set (List Byte)) ↔
      ∃ e ∈ wordlist, e.name ≠ [] ∧ e.name = w := by
    intro w
    simp only [Finset.mem_coe, List.mem_toFinset, List.mem_map, List.mem_filter,
      decide_eq_true_eq]
    constructor
    · rintro ⟨e, ⟨h1, h2⟩, h3⟩
      exact ⟨e, h1, h2, h3⟩
    · rintro ⟨e, h1, h2, h3⟩
      exact ⟨e, ⟨h1, h2⟩, h3⟩
  refine ⟨?_, ?_, ?_, ?_, ?_, ?_⟩
  · rw [← hcard]
    congr 1
    ext w
    rw [hmem, Set.mem_setOf_eq]
    constructor
    · rintro ⟨e, he⟩
      exact ⟨e, (in_word_set_accepts w e).mp he⟩
    · rintro ⟨e, he⟩
      exact ⟨e, (in_word_set_accepts w e).mpr he⟩
  · rw [← hcard]
    congr 1
    ext w
    rw [hmem, Set.mem_setOf_eq]
    constructor
    · rintro ⟨c, hc⟩
      obtain ⟨e, h1, h2, h3, _⟩ := (vfast_perfect_hash_accepts t w c).mp hc
      exact ⟨e, h1, h2, h3⟩
    · rintro ⟨e, h1, h2, h3⟩
      exact ⟨e.code, (vfast_perfect_hash_accepts t w e.code).mpr ⟨e, h1, h2, h3, rfl⟩⟩
  · intro c
    rw [← code_range_iff]
    constructor
    · rintro ⟨w, e, he, hc⟩
      obtain ⟨h1, h2, _⟩ := (in_word_set_accepts w e).mp he
      exact ⟨e, h1, h2, hc⟩
    · rintro ⟨e, h1, h2, hc⟩
      exact ⟨e.name, e, (in_word_set_accepts e.name e).mpr ⟨h1, h2, rfl⟩, hc⟩
  · intro c
    rw [← code_range_iff]
    constructor
    · rintro ⟨w, hw⟩
      obtain ⟨e, h1, h2, _, hc⟩ := (vfast_perfect_hash_accepts t w c).mp hw
      exact ⟨e, h1, h2, hc⟩
    · rintro ⟨e, h1, h2, hc⟩
      exact ⟨e.name, (vfast_perfect_hash_accepts t e.name c).mpr ⟨e, h1, h2, rfl, hc⟩⟩
  · intro c h1 h2
    obtain ⟨e, he, hne, hc⟩ := (code_range_iff c).mpr ⟨h1, h2⟩
    refine ⟨e.name, ⟨e, (in_word_set_accepts e.name e).mpr ⟨he, hne, rfl⟩, hc⟩, ?_⟩
    rintro w ⟨e1, hw, hc1⟩
    obtain ⟨m1, n1, rfl⟩ := (in_word_set_accepts w e1).mp hw
    rw [wordlist_code_injective e1 m1 e he n1 hne (hc1.trans hc.symm)]
  · intro c h1 h2
    obtain ⟨e, he, hne, hc⟩ := (code_range_iff c).mpr ⟨h1, h2⟩
    refine ⟨e.name, (vfast_perfect_hash_accepts t e.name c).mpr ⟨e, he, hne, rfl, hc⟩, ?_⟩
    intro w hw
    obtain ⟨e1, m1, n1, rfl, hc1⟩ := (vfast_perfect_hash_accepts t w c).mp hw
    rw [wordlist_code_injective e1 m1 e he n1 hne (hc1.trans hc.symm)]

theorem C27_accepted_set_witness :
    (∃! w, ∃ e, in_word_set w w.length = some (some e) ∧ e.code = 67) ∧
    (∃! w, vfast_perfect_hash ⟨true, true⟩ w w.length = some 113 ∧
      (113 : Int) ≠ vfast__Unknown) ∧
    in_word_set (cstr "as") 2 = some (some (slot "as" 67)) ∧
    vfast_perfect_hash ⟨true, true⟩ (cstr "unsafe") 6 = some 113 :=
  ⟨(C27_accepted_set ⟨true, true⟩).2.2.2.2.1 67 (by decide) (by decide),
    (C27_accepted_set ⟨true, true⟩).2.2.2.2.2 113 (by decide) (by decide),
    by decide!, by decide!⟩

/-- The hash for a declared length of zero: the `switch` enters at `default`. -/
theorem gperf_hash_zero (b0 b1 b2 : Byte) (rest : List Byte) :
    gperf_hash (b0 :: b1 :: b2 :: rest) 0
      = some (asso_values.getD b2.val 0 + asso_values.getD b1.val 0
          + asso_values.getD b0.val 0) := by
  have h0 := asso_values_le b0
  have h1 := asso_values_le b1
  have h2 := asso_values_le b2
  have e1 : asso_at asso_values (b0 :: b1 :: b2 :: rest) 1
      = some (asso_values.getD b1.val 0) := by
    rw [asso_at_cons_succ, asso_at_cons_zero]
  have e2 : asso_at asso_values (b0 :: b1 :: b2 :: rest) 2
      = some (asso_values.getD b2.val 0) := by
    rw [asso_at_cons_succ, asso_at_cons_succ, asso_at_cons_zero]
  simp only [gperf_hash, gperf_hash_on, asso_at_cons_zero, e1, e2]
  generalize asso_values.getD b0.val 0 = a0 at *
  generalize asso_values.getD b1.val 0 = a1 at *
  generalize asso_values.getD b2.val 0 = a2 at *
  norm_num
  omega

theorem gperf_hash_zero_short (s : List Byte) (h : s.length < 3) : gperf_hash s 0 = none := by
  have hn : s[2]? = none := List.getElem?_eq_none (by omega)
  simp [gperf_hash, gperf_hash_on, asso_at, hn]

/-- C28 (`gperf_hash` with a length of zero): called with `len = 0`,
`gperf_hash` enters its `switch` at `default` and returns
`asso_values[bytes[2]] + asso_values[bytes[1]] + asso_values[bytes[0]]`: it
reads three bytes although the declared length is zero, and has no result on a
buffer of fewer than three bytes, the empty one included; `in_word_set` with
`len = 0` returns null on every buffer without this call. -/
theorem C28_gperf_hash_length_zero (s : List Byte) :
    (∀ (b0 b1 b2 : Byte) (rest : List Byte),
      gperf_hash (b0 :: b1 :: b2 :: rest) 0
        = some (asso_values.getD b2.val 0 + asso_values.getD b1.val 0
            + asso_values.getD b0.val 0)) ∧
    gperf_hash [] 0 = none ∧
    (s.length < 3 → gperf_hash s 0 = none) ∧
    in_word_set s 0 = some none ∧
    (∀ len, in_word_set s len ≠ none → gperf_hash s len = none →
      len < MIN_WORD_LENGTH ∨ MAX_WORD_LENGTH < len) := by
  refine ⟨gperf_hash_zero, gperf_hash_zero_short [] (by decide), gperf_hash_zero_short s,
    rfl, ?_⟩
  intro len h1 h2
  by_contra hc
  have hr : len ≤ MAX_WORD_LENGTH ∧ len ≥ MIN_WORD_LENGTH := by omega
  apply h1
  unfold gperf_hash at h2
  simp only [in_word_set, in_word_set_on, hr, and_self, if_true, h2]

theorem C28_gperf_hash_length_zero_witness :
    gperf_hash (cstr "fn") 0 = none ∧ gperf_hash (cstr "fn(") 0 = some 111 ∧
    in_word_set (cstr "fn") 0 = some none :=
  ⟨(C28_gperf_hash_length_zero (cstr "fn")).2.2.1 (by decide), by decide!,
    (C28_gperf_hash_length_zero (cstr "fn")).2.2.2.1⟩

/-- C29 (the declared hash bounds are tight): over the 47 keywords the smallest
value of `gperf_hash` is `MIN_HASH_VALUE = 7`, attained by `in`, and the largest
is `MAX_HASH_VALUE = 85`, attained by `break`; the key range
`MAX_HASH_VALUE - MIN_HASH_VALUE + 1` is 79 and no two keywords share a hash;
the slots 0..6 of `wordlist` are empty, and so are 32 of the slots 7..85. -/
theorem C29_hash_bounds_tight :
    (∀ e ∈ wordlist, e.name ≠ [] →
      ∃ key, gperf_hash e.name e.name.length = some key ∧
        MIN_HASH_VALUE ≤ key ∧ key ≤ MAX_HASH_VALUE) ∧
    (slot "in" 85 ∈ wordlist ∧ gperf_hash (cstr "in") 2 = some MIN_HASH_VALUE) ∧
    (slot "break" 71 ∈ wordlist ∧ gperf_hash (cstr "break") 5 = some MAX_HASH_VALUE) ∧
    (MIN_HASH_VALUE = 7 ∧ MAX_HASH_VALUE = 85 ∧ MAX_HASH_VALUE - MIN_HASH_VALUE + 1 = 79) ∧
    ((wordlist.filter (fun e => e.name ≠ [])).map
      (fun e => gperf_hash e.name e.name.length)).Nodup ∧
    (∀ e ∈ wordlist.take 7, e.name = []) ∧
    (((wordlist.drop 7).filter (fun e => e.name = [])).length = 32 ∧
      (wordlist.drop 7).length = 79) := by
  refine ⟨?_, by decide!, by decide!, by decide, by decide!, by decide!, by decide!⟩
  have h : ∀ e ∈ wordlist, e.name ≠ [] →
      ((gperf_hash e.name e.name.length).any
        (fun key => MIN_HASH_VALUE ≤ key ∧ key ≤ MAX_HASH_VALUE)) = true := by
    decide!
  intro e he hne
  have h1 := h e he hne
  cases hk : gperf_hash e.name e.name.length with
  | none => simp [hk] at h1
  | some key =>
    rw [hk] at h1
    simp only [Option.any_some, decide_eq_true_eq] at h1
    exact ⟨key, rfl, h1⟩

theorem C29_hash_bounds_tight_witness :
    (∃ key, gperf_hash (slot "struct" 103).name (slot "struct" 103).name.length = some key ∧
      MIN_HASH_VALUE ≤ key ∧ key ≤ MAX_HASH_VALUE) ∧
    (∀ e ∈ wordlist.take 7, e.name = []) :=
  ⟨C29_hash_bounds_tight.1 (slot "struct" 103) (by decide!) (by decide!),
    C29_hash_bounds_tight.2.2.2.2.2.1⟩

end VKeywords
